import Mathlib

/-!
Smart-home simulator: the world store and the workers that drive it.

A shallow embedding of `storage/memory_store.go`, of the parts of
`services/device_service.go`, `services/weather_service.go`, `workers/scheduler.go` and
`handlers/handlers.go` that read and write the store, of two helpers of `utils/utils.go`,
and proofs about them.

Modelling conventions.

* The store is a value of `MemoryStore`; a Go method that mutates the store is a
  function returning the new store (and the Go `error`, `none` standing for `nil`).
  Every method body is one atomic step; the mutex is modelled only in the section on
  simultaneous `AddDevice` calls, where the body runs statement by statement.
* A Go `map[string]T` is an association list `GoMap T` with first-match lookup;
  `set` overwrites in place or appends, so maps built by the code have unique keys.
  A nil map reads as the empty map. Iteration (`range`) follows list order.
* The store holds pointers (`*Device`, `*SecuritySystem`, `*ScheduledTask`); a caller
  that mutates the object it got from a getter and writes it back is modelled by
  reading the value, building the changed value and storing it.
* `time.Time` is an integer count of nanoseconds, `0` being the zero `time.Time`.
  Every `time.Now()` inside one call is the single reading `now` passed to the call.
* `float64` values are modelled by rationals; the thermostat tick rounds the result of
  every operation to binary64 (`roundBinary64`), elsewhere the arithmetic is exact.
  `rand.Float64()` and `rand.Intn` draws are inputs. The weather service's own snapshot (`w.current`) is passed to its
  functions and returned with the store.
* `log.Printf`, HTTP responses and websocket broadcasts have no effect on the store
  and are left out.
-/

namespace SmartHome

/-! ## Values and maps -/

/-- Instants: nanoseconds counted from the zero value of `time.Time`. -/
abbrev Time := Int

/-- Go `time.Duration`: a number of nanoseconds. -/
abbrev Duration := Int

/-- Go `float64`, modelled by a rational. -/
abbrev Float64 := Rat

/-- Go `models.DeviceType`, a string type. -/
abbrev DeviceType := String

/-- Go `models.DeviceStatus`, a string type. -/
abbrev DeviceStatus := String

/-- Go `models.SecurityState`, a string type. -/
abbrev SecurityState := String

def DeviceTypeLight : DeviceType := "light"
def DeviceTypeThermostat : DeviceType := "thermostat"
def DeviceTypeCamera : DeviceType := "camera"
def DeviceTypeSensor : DeviceType := "sensor"
def DeviceTypeLock : DeviceType := "lock"
def DeviceTypeAlarm : DeviceType := "alarm"

def DeviceStatusOnline : DeviceStatus := "online"
def DeviceStatusOffline : DeviceStatus := "offline"
def DeviceStatusError : DeviceStatus := "error"

def SecurityStateDisarmed : SecurityState := "disarmed"
def SecurityStateArmed : SecurityState := "armed"
def SecurityStateTriggered : SecurityState := "triggered"

/-- A Go `interface{}` value, tagged with its dynamic type. The named string types
are kept apart from `string`, as a Go type assertion keeps them apart. -/
inductive Value where
  | null
  | str (s : String)
  | int (n : Int)
  | float (x : Float64)
  | bool (b : Bool)
  | time (t : Time)
  | deviceType (t : DeviceType)
  | deviceStatus (t : DeviceStatus)
  | securityState (t : SecurityState)
  | strs (l : List String)
  | list (l : List Value)
  | map (m : List (String × Value))

/-- Association-list model of a Go `map[string]V`. -/
abbrev GoMap (V : Type) := List (String × V)

namespace GoMap

variable {V : Type}

/-- The Go lookup `v, ok := m[k]`. -/
def get? : GoMap V → String → Option V
  | [], _ => none
  | (k', v) :: m, k => if k' = k then some v else get? m k

/-- The Go assignment `m[k] = v`. -/
def set : GoMap V → String → V → GoMap V
  | [], k, v => [(k, v)]
  | (k', v') :: m, k, v => if k' = k then (k, v) :: m else (k', v') :: set m k v

/-- The Go `delete(m, k)`. -/
def delete : GoMap V → String → GoMap V
  | [], _ => []
  | (k', v') :: m, k => if k' = k then delete m k else (k', v') :: delete m k

/-- The keys of the map, in listing order. -/
def keys (m : GoMap V) : List String := m.map Prod.fst

/-- The values of the map, in listing order (`for _, v := range m`). -/
def values (m : GoMap V) : List V := m.map Prod.snd

end GoMap

/-- The type assertion `value.(string)`. -/
def Value.asString : Value → Option String
  | .str s => some s
  | _ => none

/-- The type assertion `value.(bool)`. -/
def Value.asBool : Value → Option Bool
  | .bool b => some b
  | _ => none

/-- The type assertion `value.(time.Time)`. -/
def Value.asTime : Value → Option Time
  | .time t => some t
  | _ => none

/-- The type assertion `value.(float64)`. -/
def Value.asFloat : Value → Option Float64
  | .float x => some x
  | _ => none

/-- The type assertion `value.(int)`. -/
def Value.asInt : Value → Option Int
  | .int n => some n
  | _ => none

/-! ## The data model (`models/models.go`) -/

structure Device where
  ID : String
  Name : String
  Typ : DeviceType
  Status : DeviceStatus
  Properties : GoMap Value
  Location : String
  LastUpdated : Time
  CreatedAt : Time

structure WeatherData where
  Temperature : Float64
  Humidity : Float64
  Pressure : Float64
  Condition : String
  WindSpeed : Float64
  WindDir : String
  Timestamp : Time

structure EnergyUsage where
  DeviceID : String
  DeviceName : String
  Usage : Float64
  Cost : Float64
  Timestamp : Time

structure SecuritySystem where
  State : SecurityState
  LastArmed : Time
  LastTriggered : Time
  ActiveSensors : List String
  TriggeredBy : String

structure ScheduledTask where
  ID : String
  Name : String
  DeviceID : String
  Action : String
  Parameters : GoMap Value
  Schedule : String
  Enabled : Bool
  NextRun : Time
  LastRun : Time
  CreatedAt : Time

structure SystemEvent where
  ID : String
  Typ : String
  Source : String
  Message : String
  Data : GoMap Value
  Timestamp : Time
  Severity : String

/-- The zero value `models.WeatherData{}`. -/
def WeatherData.zero : WeatherData :=
  { Temperature := 0, Humidity := 0, Pressure := 0, Condition := "",
    WindSpeed := 0, WindDir := "", Timestamp := 0 }

/-! ## The store (`storage/memory_store.go`) -/

/-- The errors the store builds with `fmt.Errorf`, one constructor per message
template. -/
inductive StoreError where
  | deviceExists (id : String)
  | deviceNotFound (id : String)
  | taskExists (id : String)
  | taskNotFound (id : String)
  deriving DecidableEq

/-- The text of the Go error. -/
def StoreError.message : StoreError → String
  | .deviceExists id => "device with ID " ++ id ++ " already exists"
  | .deviceNotFound id => "device with ID " ++ id ++ " not found"
  | .taskExists id => "task with ID " ++ id ++ " already exists"
  | .taskNotFound id => "task with ID " ++ id ++ " not found"

/-- The error kind `Conflict`: an id that is already present. -/
def StoreError.isConflict : StoreError → Bool
  | .deviceExists _ => true
  | .taskExists _ => true
  | _ => false

/-- The error kind `NotFound`: an id that is absent. -/
def StoreError.isNotFound : StoreError → Bool
  | .deviceNotFound _ => true
  | .taskNotFound _ => true
  | _ => false

structure MemoryStore where
  devices : GoMap Device
  weather : WeatherData
  security : SecuritySystem
  tasks : GoMap ScheduledTask
  energyUsage : List EnergyUsage
  systemEvents : List SystemEvent
  startTime : Time

/-- The Go reslicing `xs[len(xs)-n:]`. -/
def lastN {α : Type} (n : Nat) (xs : List α) : List α := xs.drop (xs.length - n)

namespace MemoryStore

def NewMemoryStore (now : Time) : MemoryStore :=
  { devices := [],
    weather := WeatherData.zero,
    security := { State := SecurityStateDisarmed, LastArmed := 0, LastTriggered := 0,
                  ActiveSensors := [], TriggeredBy := "" },
    tasks := [],
    energyUsage := [],
    systemEvents := [],
    startTime := now }

def AddEnergyUsage (s : MemoryStore) (usage : EnergyUsage) : MemoryStore :=
  let energyUsage := s.energyUsage ++ [usage]
  if energyUsage.length > 1000 then
    { s with energyUsage := lastN 1000 energyUsage }
  else
    { s with energyUsage := energyUsage }

/-- Seconds between the zero `time.Time` (1 January of year 1) and the Unix epoch. -/
def unixEpochSeconds : Int := 62135596800

/-- Go `t.UnixNano()`. -/
def UnixNano (t : Time) : Int := t - unixEpochSeconds * 1000000000

/-- The event literal built inside the private `addSystemEvent`. -/
def storageEvent (eventType source message : String) (data : GoMap Value) (now : Time) :
    SystemEvent :=
  { ID := "event_" ++ toString (UnixNano now),
    Typ := eventType,
    Source := source,
    Message := message,
    Data := data,
    Timestamp := now,
    Severity := "info" }

/-- The private `addSystemEvent`: builds an `info` event and appends it, keeping the
newest 500 entries. -/
def addSystemEvent (s : MemoryStore) (eventType source message : String)
    (data : GoMap Value) (now : Time) : MemoryStore :=
  let event := storageEvent eventType source message data now
  let systemEvents := s.systemEvents ++ [event]
  if systemEvents.length > 500 then
    { s with systemEvents := lastN 500 systemEvents }
  else
    { s with systemEvents := systemEvents }

def AddDevice (s : MemoryStore) (device : Device) (now : Time) :
    MemoryStore × Option StoreError :=
  match s.devices.get? device.ID with
  | some _ => (s, some (.deviceExists device.ID))
  | none =>
    let device := { device with CreatedAt := now, LastUpdated := now }
    let s := { s with devices := s.devices.set device.ID device }
    (s.addSystemEvent "device_added" "storage" ("Device " ++ device.Name ++ " added")
        [("device_id", .str device.ID), ("device_type", .deviceType device.Typ)] now,
      none)

def GetDevice (s : MemoryStore) (id : String) : Except StoreError Device :=
  match s.devices.get? id with
  | none => .error (.deviceNotFound id)
  | some device => .ok device

/-- One iteration of the `for key, value := range updates` loop of `UpdateDevice`. -/
def applyDeviceUpdate (device : Device) (key : String) (value : Value) : Device :=
  match key with
  | "name" =>
    match value.asString with
    | some name => { device with Name := name }
    | none => device
  | "status" =>
    match value.asString with
    | some status => { device with Status := status }
    | none => device
  | "location" =>
    match value.asString with
    | some location => { device with Location := location }
    | none => device
  | _ => { device with Properties := device.Properties.set key value }

/-- The store's `UpdateDevice`. The guard that replaces a nil `Properties` by an empty
map is the identity here, a nil map being the empty map. -/
def UpdateDevice (s : MemoryStore) (id : String) (updates : GoMap Value) (now : Time) :
    MemoryStore × Option StoreError :=
  match s.devices.get? id with
  | none => (s, some (.deviceNotFound id))
  | some device =>
    let device := updates.foldl (fun d kv => applyDeviceUpdate d kv.1 kv.2) device
    let device := { device with LastUpdated := now }
    let s := { s with devices := s.devices.set id device }
    (s.addSystemEvent "device_updated" "storage" ("Device " ++ device.Name ++ " updated")
        [("device_id", .str device.ID), ("updates", .map updates)] now,
      none)

def ListDevices (s : MemoryStore) : List Device := s.devices.values

def DeleteDevice (s : MemoryStore) (id : String) (now : Time) :
    MemoryStore × Option StoreError :=
  match s.devices.get? id with
  | none => (s, some (.deviceNotFound id))
  | some device =>
    let s := { s with devices := s.devices.delete id }
    (s.addSystemEvent "device_deleted" "storage" ("Device " ++ device.Name ++ " deleted")
        [("device_id", .str device.ID)] now,
      none)

def UpdateWeather (s : MemoryStore) (weather : WeatherData) (now : Time) : MemoryStore :=
  let s := { s with weather := weather }
  s.addSystemEvent "weather_updated" "storage" "Weather data updated"
    [("temperature", .float weather.Temperature), ("condition", .str weather.Condition)] now

def GetWeather (s : MemoryStore) : WeatherData := s.weather

def UpdateSecurity (s : MemoryStore) (security : SecuritySystem) (now : Time) : MemoryStore :=
  let s := { s with security := security }
  s.addSystemEvent "security_updated" "storage"
    ("Security state changed to " ++ security.State)
    [("state", .securityState security.State), ("sensors", .strs security.ActiveSensors)] now

def GetSecurity (s : MemoryStore) : SecuritySystem := s.security

def AddTask (s : MemoryStore) (task : ScheduledTask) (now : Time) :
    MemoryStore × Option StoreError :=
  match s.tasks.get? task.ID with
  | some _ => (s, some (.taskExists task.ID))
  | none =>
    let task := { task with CreatedAt := now }
    let s := { s with tasks := s.tasks.set task.ID task }
    (s.addSystemEvent "task_added" "storage" ("Scheduled task " ++ task.Name ++ " added")
        [("task_id", .str task.ID), ("device_id", .str task.DeviceID),
         ("schedule", .str task.Schedule)] now,
      none)

def GetTask (s : MemoryStore) (id : String) : Except StoreError ScheduledTask :=
  match s.tasks.get? id with
  | none => .error (.taskNotFound id)
  | some task => .ok task

def ListTasks (s : MemoryStore) : List ScheduledTask := s.tasks.values

/-- One iteration of the `for key, value := range updates` loop of `UpdateTask`. -/
def applyTaskUpdate (task : ScheduledTask) (key : String) (value : Value) : ScheduledTask :=
  match key with
  | "enabled" =>
    match value.asBool with
    | some enabled => { task with Enabled := enabled }
    | none => task
  | "next_run" =>
    match value.asTime with
    | some nextRun => { task with NextRun := nextRun }
    | none => task
  | "last_run" =>
    match value.asTime with
    | some lastRun => { task with LastRun := lastRun }
    | none => task
  | _ => task

def UpdateTask (s : MemoryStore) (id : String) (updates : GoMap Value) :
    MemoryStore × Option StoreError :=
  match s.tasks.get? id with
  | none => (s, some (.taskNotFound id))
  | some task =>
    let task := updates.foldl (fun t kv => applyTaskUpdate t kv.1 kv.2) task
    ({ s with tasks := s.tasks.set id task }, none)

def AddSystemEvent (s : MemoryStore) (event : SystemEvent) : MemoryStore :=
  let systemEvents := s.systemEvents ++ [event]
  if systemEvents.length > 500 then
    { s with systemEvents := lastN 500 systemEvents }
  else
    { s with systemEvents := systemEvents }

end MemoryStore

/-! ## Durations (`time` package) -/

/-- The largest `time.Duration`, `1<<63 - 1` nanoseconds. -/
def maxDuration : Duration := 9223372036854775807

/-- The smallest `time.Duration`, `-1 << 63` nanoseconds. -/
def minDuration : Duration := -9223372036854775808

def Nanosecond : Duration := 1
def Second : Duration := 1000000000 * Nanosecond
def Minute : Duration := 60 * Second
def Hour : Duration := 60 * Minute

/-- Go `t.Sub(u)`: the difference, saturated to the range of `time.Duration`. -/
def Sub (t u : Time) : Duration :=
  if t - u > maxDuration then maxDuration
  else if t - u < minDuration then minDuration
  else t - u

/-- Go `time.Since(t)`, the clock reading being `now`. -/
def Since (now t : Time) : Duration := Sub now t

/-! ## Binary64 arithmetic -/

/-- Round to the nearest integer, a tie to the even one. -/
def roundHalfEven (q : Rat) : Int :=
  if q - ⌊q⌋ < 1 / 2 then ⌊q⌋
  else if 1 / 2 < q - ⌊q⌋ then ⌊q⌋ + 1
  else if ⌊q⌋ % 2 = 0 then ⌊q⌋ else ⌊q⌋ + 1

/-- The search for the exponent of a magnitude by bisection: the largest `r` among the
`2^k` exponents from `e` on with `2^r ≤ x` (and `e` when there is none). -/
def binadeFrom (x : Rat) : Nat → Int → Int
  | 0, e => e
  | k + 1, e =>
    if (2 : Rat) ^ (e + 2 ^ k) ≤ x then binadeFrom x k (e + 2 ^ k) else binadeFrom x k e

/-- The binary64 exponent of `x`: the `e` with `2^e ≤ |x| < 2^(e+1)`, kept between the
exponent -1022 of the subnormal numbers and the largest exponent 1023. -/
def binade (x : Rat) : Int := min 1023 (binadeFrom |x| 11 (-1022))

/-- The distance of neighbouring binary64 numbers around `x`: 52 fraction bits. -/
def ulp (x : Rat) : Rat := (2 : Rat) ^ (binade x - 52)

/-- Rounding of a real result to binary64, to nearest, ties to even (the mode Go uses).
A result beyond the largest binary64 number, for which Go gives an infinity, is rounded
on the grid of the largest exponent: it keeps its sign and stays beyond that number. -/
def roundBinary64 (x : Rat) : Float64 := (roundHalfEven (x / ulp x) : Rat) * ulp x

/-- The largest binary64 number. -/
def maxFloat64 : Float64 := (2 ^ 53 - 1) * 2 ^ 971

/-- The rational is a binary64 number. -/
def isBinary64 (x : Float64) : Prop := roundBinary64 x = x ∧ |x| ≤ maxFloat64

instance (x : Float64) : Decidable (isBinary64 x) := by
  unfold isBinary64
  infer_instance

/-- Go `x + y` on `float64`. -/
def fadd (x y : Float64) : Float64 := roundBinary64 (x + y)

/-- Go `x - y` on `float64`. -/
def fsub (x y : Float64) : Float64 := roundBinary64 (x - y)

/-- Go `x * y` on `float64`. -/
def fmul (x y : Float64) : Float64 := roundBinary64 (x * y)

/-- Go `x*y + z` on `float64`. The language lets a compiler fuse the two operations and
round once (as the arm64 compiler does); `fused` tells whether it did. -/
def fmulAdd (fused : Bool) (x y z : Float64) : Float64 :=
  if fused then roundBinary64 (x * y + z) else fadd z (fmul x y)

/-- The constant `0.1` as a `float64`. -/
def pointOne : Float64 := roundBinary64 0.1

/-! ## The device service (`services/device_service.go`) -/

namespace DeviceService

def GetDevice (s : MemoryStore) (id : String) : Except StoreError Device := s.GetDevice id

def UpdateDevice (s : MemoryStore) (id : String) (updates : GoMap Value) (now : Time) :
    MemoryStore × Option StoreError :=
  s.UpdateDevice id updates now

def ListDevices (s : MemoryStore) : List Device := s.ListDevices

def GetDevicesByType (s : MemoryStore) (deviceType : DeviceType) : List Device :=
  s.ListDevices.filter (fun device => decide (device.Typ = deviceType))

/-- The sensor tick. `r1` and `r2` are the two `rand.Float64()` draws, in the order the
code takes them (the second one is only taken when the first is below 0.05). -/
def updateSensor (s : MemoryStore) (device : Device) (r1 r2 : Float64) (now : Time) :
    MemoryStore :=
  if r1 < 0.05 then
    let motionDetected : Bool := decide (r2 < 0.3)
    let updates : GoMap Value := [("motion_detected", .bool motionDetected)]
    let s :=
      if motionDetected then
        let security := s.GetSecurity
        if security.State = SecurityStateArmed then
          let security := { security with
            State := SecurityStateTriggered, LastTriggered := now, TriggeredBy := device.ID }
          s.UpdateSecurity security now
        else s
      else s
    (s.UpdateDevice device.ID updates now).1
  else s

/-- The thermostat tick. The two reads `device.Properties[...].(float64)` are unchecked
type assertions: when one fails the Go code panics, which is the result `none`. Every
operation on `float64` is rounded to binary64; `fused` tells whether the compiler fused
the product and the sum of the weather blend (see `fmulAdd`). -/
def updateThermostatWith (fused : Bool) (s : MemoryStore) (device : Device) (now : Time) :
    Option MemoryStore :=
  let weather := s.GetWeather
  if weather.Temperature = 0 then some s
  else
    match (device.Properties.get? "temperature").bind Value.asFloat with
    | none => none
    | some currentTemp =>
      match (device.Properties.get? "target_temp").bind Value.asFloat with
      | none => none
      | some targetTemp =>
        let tempDiff := fsub targetTemp currentTemp
        let updates : GoMap Value :=
          if tempDiff > 1.0 then
            [("heating", .bool true), ("cooling", .bool false),
             ("temperature", .float (fadd currentTemp 0.5))]
          else if tempDiff < -1.0 then
            [("heating", .bool false), ("cooling", .bool true),
             ("temperature", .float (fsub currentTemp 0.5))]
          else
            [("heating", .bool false), ("cooling", .bool false)]
        let weatherInfluence := fmul (fsub weather.Temperature currentTemp) pointOne
        let updates :=
          if weatherInfluence ≠ 0 then
            updates.set "temperature"
              (.float (fmulAdd fused (fsub weather.Temperature currentTemp) pointOne
                currentTemp))
          else updates
        if updates.length > 0 then some (s.UpdateDevice device.ID updates now).1
        else some s

/-- The thermostat tick as the compiler for amd64 builds it: no fused operation. -/
def updateThermostat (s : MemoryStore) (device : Device) (now : Time) : Option MemoryStore :=
  updateThermostatWith false s device now

/-- The `switch device.Type` of `CalculateEnergyUsage`: the usage of one device. -/
def deviceUsage (device : Device) : Float64 :=
  if device.Typ = DeviceTypeLight then
    match (device.Properties.get? "power").bind Value.asBool with
    | some true =>
      match (device.Properties.get? "brightness").bind Value.asInt with
      | some brightness => (brightness : Float64) * 0.001
      | none => 0.05
    | _ => 0
  else if device.Typ = DeviceTypeThermostat then
    let usage : Float64 :=
      match (device.Properties.get? "heating").bind Value.asBool with
      | some true => 2.5
      | _ => 0
    let usage : Float64 :=
      match (device.Properties.get? "cooling").bind Value.asBool with
      | some true => 3.0
      | _ => usage
    if usage = 0 then 0.1 else usage
  else if device.Typ = DeviceTypeCamera then
    match (device.Properties.get? "recording").bind Value.asBool with
    | some true => 0.8
    | _ => 0.2
  else if device.Typ = DeviceTypeSensor then 0.01
  else if device.Typ = DeviceTypeLock then 0.005
  else 0.1

/-- One record per device whose status is Online, in listing order. -/
def CalculateEnergyUsage (s : MemoryStore) (now : Time) : List EnergyUsage :=
  s.ListDevices.foldl
    (fun usageData device =>
      let usage := deviceUsage device
      if device.Status = DeviceStatusOnline then
        usageData ++ [{ DeviceID := device.ID, DeviceName := device.Name, Usage := usage,
                        Cost := usage * 0.12, Timestamp := now }]
      else usageData)
    []

end DeviceService

/-! ## The weather service (`services/weather_service.go`) -/

namespace WeatherService

/-- The alert for the service's current snapshot; `none` is the Go `nil`. -/
def GetWeatherAlert (current : WeatherData) : Option String :=
  if current.Temperature > 35.0 then
    some "Extreme heat warning - Temperature above 35°C"
  else if current.Temperature < 0.0 then
    some "Freezing temperature alert - Temperature below 0°C"
  else if current.WindSpeed > 20.0 then
    some "High wind warning - Wind speed above 20 km/h"
  else if current.Condition = "stormy" then
    some "Storm warning - Severe weather conditions"
  else if current.Pressure < 990.0 then
    some "Low pressure system - Potential weather instability"
  else none

end WeatherService

/-! ## The scheduler (`workers/scheduler.go`) -/

namespace Scheduler

/-- Go `t.AddDate(0, 0, days)` on a local time `t`: the instant with the wall-clock
reading of `t`, `days` calendar days later. `shift` is the UTC offset of the local zone
at the result minus its offset at `t`: 0 unless a daylight-saving change falls between
the two, and then the hour gained or lost. -/
def AddDate (shift : Duration) (t : Time) (days : Int) : Time :=
  t + days * (24 * Hour) - shift

/-- The function `calculateNextRun` in a local zone whose UTC offset changes by `shift`
between `now` and the day `AddDate` lands on. -/
def calculateNextRunIn (shift : Duration) (schedule : String) (now : Time) : Time :=
  match schedule with
  | "daily" => AddDate shift now 1
  | "hourly" => now + Hour
  | "every_30_minutes" => now + 30 * Minute
  | "every_15_minutes" => now + 15 * Minute
  | "weekly" => AddDate shift now 7
  | _ => now + Hour

/-- The next run time for a schedule keyword on a clock without daylight-saving shifts,
where `AddDate(0, 0, n)` adds `n` days of 24 hours. -/
def calculateNextRun (schedule : String) (now : Time) : Time :=
  calculateNextRunIn 0 schedule now

/-- The smallest value of the Go type `int` (64 bits). -/
def MinInt64 : Int := -9223372036854775808

/-- The largest value of the Go type `int` (64 bits). -/
def MaxInt64 : Int := 9223372036854775807

/-- The integer part of a number: its fraction discarded (truncation toward zero). -/
def intPart (x : Float64) : Int :=
  if 0 ≤ x then Rat.floor x else -(Rat.floor (-x))

/-- The Go conversion `int(x)` of a `float64`: the integer part when a 64-bit `int` can
hold it. When it cannot, the conversion succeeds and its result depends on the
implementation; the value taken here is that of the amd64 conversion instruction,
`MinInt64`, and no theorem relies on it beyond its being an `int`. -/
def truncToInt (x : Float64) : Int :=
  if MinInt64 ≤ intPart x ∧ intPart x ≤ MaxInt64 then intPart x else MinInt64

/-- The `switch task.Action` of `executeTask`; `none` is the `default` branch, which
returns from `executeTask` at once. -/
def executeAction (s : MemoryStore) (task : ScheduledTask) (device : Device) (now : Time) :
    Option MemoryStore :=
  match task.Action with
  | "turn_on" =>
    some (DeviceService.UpdateDevice s device.ID [("power", .bool true)] now).1
  | "turn_off" =>
    some (DeviceService.UpdateDevice s device.ID [("power", .bool false)] now).1
  | "set_temperature" =>
    match (task.Parameters.get? "temperature").bind Value.asFloat with
    | some temp =>
      some (DeviceService.UpdateDevice s device.ID [("target_temp", .float temp)] now).1
    | none => some s
  | "set_brightness" =>
    match (task.Parameters.get? "brightness").bind Value.asFloat with
    | some brightness =>
      some (DeviceService.UpdateDevice s device.ID
        [("brightness", .int (truncToInt brightness))] now).1
    | none => some s
  | "lock" =>
    some (DeviceService.UpdateDevice s device.ID [("locked", .bool true)] now).1
  | "unlock" =>
    some (DeviceService.UpdateDevice s device.ID [("locked", .bool false)] now).1
  | "arm_security" =>
    let security := s.GetSecurity
    let security := { security with State := SecurityStateArmed, LastArmed := now }
    some (s.UpdateSecurity security now)
  | "disarm_security" =>
    let security := s.GetSecurity
    let security := { security with State := SecurityStateDisarmed }
    some (s.UpdateSecurity security now)
  | _ => none

def executeTask (s : MemoryStore) (task : ScheduledTask) (now : Time) : MemoryStore :=
  match DeviceService.GetDevice s task.DeviceID with
  | .error _ => s
  | .ok device =>
    match executeAction s task device now with
    | none => s
    | some s =>
      let nextRun := calculateNextRun task.Schedule now
      let s := (s.UpdateTask task.ID [("last_run", .time now), ("next_run", .time nextRun)]).1
      s.AddSystemEvent
        { ID := "task_" ++ toString (MemoryStore.UnixNano now),
          Typ := "task_executed",
          Source := "scheduler",
          Message := "Task " ++ task.Name ++ " executed successfully",
          Data := [("task_id", .str task.ID), ("device_id", .str task.DeviceID),
                   ("action", .str task.Action)],
          Timestamp := now,
          Severity := "info" }

/-- The event `checkSecurityStatus` logs for an offline sensor. -/
def sensorOfflineEvent (device : Device) (now : Time) : SystemEvent :=
  { ID := "sensor_offline_" ++ toString (MemoryStore.UnixNano now),
    Typ := "sensor_offline",
    Source := "scheduler",
    Message := "Security sensor " ++ device.Name ++ " is offline",
    Data := [("device_id", .str device.ID), ("location", .str device.Location)],
    Timestamp := now,
    Severity := "warning" }

/-- One run of the security monitor. -/
def checkSecurityStatus (s : MemoryStore) (now : Time) : MemoryStore :=
  let security := s.GetSecurity
  let s :=
    if security.State = SecurityStateTriggered then
      let timeSinceTriggered := Since now security.LastTriggered
      if timeSinceTriggered > 5 * Minute then
        let security := { security with State := SecurityStateArmed }
        let s := s.UpdateSecurity security now
        s.AddSystemEvent
          { ID := "security_reset_" ++ toString (MemoryStore.UnixNano now),
            Typ := "security_reset",
            Source := "scheduler",
            Message := "Security system automatically reset after timeout",
            Data := [("previous_state", .str "triggered"), ("timeout_minutes", .int 5)],
            Timestamp := now,
            Severity := "info" }
      else s
    else s
  let devices := DeviceService.GetDevicesByType s DeviceTypeSensor
  devices.foldl
    (fun s device =>
      if device.Status = DeviceStatusOffline then
        s.AddSystemEvent (sensorOfflineEvent device now)
      else s)
    s

def executeMorningRoutine (s : MemoryStore) (now : Time) : MemoryStore × Option String :=
  let lights := DeviceService.GetDevicesByType s DeviceTypeLight
  let s := lights.foldl
    (fun s light =>
      (DeviceService.UpdateDevice s light.ID
        [("power", .bool true), ("brightness", .int 80)] now).1)
    s
  let thermostats := DeviceService.GetDevicesByType s DeviceTypeThermostat
  let s := thermostats.foldl
    (fun s thermostat =>
      (DeviceService.UpdateDevice s thermostat.ID [("target_temp", .float 22.0)] now).1)
    s
  let security := s.GetSecurity
  let security := { security with State := SecurityStateDisarmed }
  (s.UpdateSecurity security now, none)

/-- The loop `for _, d := range devices { UpdateDevice(d.ID, updates) }` that every
scenario runs over the devices of one type. -/
def updateAll (s : MemoryStore) (devices : List Device) (updates : GoMap Value) (now : Time) :
    MemoryStore :=
  devices.foldl (fun s device => (DeviceService.UpdateDevice s device.ID updates now).1) s

def executeEveningRoutine (s : MemoryStore) (now : Time) : MemoryStore × Option String :=
  let lights := DeviceService.GetDevicesByType s DeviceTypeLight
  let s := updateAll s lights [("power", .bool true), ("brightness", .int 40)] now
  let thermostats := DeviceService.GetDevicesByType s DeviceTypeThermostat
  let s := updateAll s thermostats [("target_temp", .float 20.0)] now
  (s, none)

def executeAwayMode (s : MemoryStore) (now : Time) : MemoryStore × Option String :=
  let lights := DeviceService.GetDevicesByType s DeviceTypeLight
  let s := updateAll s lights [("power", .bool false)] now
  let thermostats := DeviceService.GetDevicesByType s DeviceTypeThermostat
  let s := updateAll s thermostats [("target_temp", .float 18.0)] now
  let security := s.GetSecurity
  let security := { security with State := SecurityStateArmed, LastArmed := now }
  (s.UpdateSecurity security now, none)

def executeSleepMode (s : MemoryStore) (now : Time) : MemoryStore × Option String :=
  let lights := DeviceService.GetDevicesByType s DeviceTypeLight
  let s := updateAll s lights [("power", .bool false)] now
  let locks := DeviceService.GetDevicesByType s DeviceTypeLock
  let s := updateAll s locks [("locked", .bool true)] now
  (s, none)

def executeSecurityBreach (s : MemoryStore) (now : Time) : MemoryStore × Option String :=
  let security := s.GetSecurity
  let security := { security with
    State := SecurityStateTriggered, LastTriggered := now, TriggeredBy := "simulation" }
  let s := s.UpdateSecurity security now
  let lights := DeviceService.GetDevicesByType s DeviceTypeLight
  let s := updateAll s lights [("power", .bool true), ("brightness", .int 100)] now
  (s, none)

/-- The scenario dispatcher; the error is the text of the Go error, `none` being `nil`. -/
def TriggerAutomationScenario (s : MemoryStore) (scenario : String) (now : Time) :
    MemoryStore × Option String :=
  match scenario with
  | "morning_routine" => executeMorningRoutine s now
  | "evening_routine" => executeEveningRoutine s now
  | "away_mode" => executeAwayMode s now
  | "sleep_mode" => executeSleepMode s now
  | "security_breach" => executeSecurityBreach s now
  | _ => (s, some ("unknown automation scenario: " ++ scenario))

/-- The test `task.Enabled && (task.NextRun.IsZero() || task.NextRun.Before(now))`. -/
def isDue (task : ScheduledTask) (now : Time) : Bool :=
  task.Enabled && (decide (task.NextRun = 0) || decide (task.NextRun < now))

/-- One tick of the task runner. Each listed task is written only by its own execution,
so the value listed at the start is the value the loop reads. -/
def processTasks (s : MemoryStore) (now : Time) : MemoryStore :=
  let tasks := s.ListTasks
  tasks.foldl (fun s task => if isDue task now then executeTask s task now else s) s

end Scheduler

/-! ## The request handlers (`handlers/handlers.go`), as far as they touch the store -/

namespace Handler

/-- The store effect of the `DisarmSecurity` handler. -/
def DisarmSecurity (s : MemoryStore) (now : Time) : MemoryStore :=
  let security := s.GetSecurity
  let security := { security with State := SecurityStateDisarmed, ActiveSensors := [] }
  s.UpdateSecurity security now

/-- The store effect of the `ArmSecurity` handler. -/
def ArmSecurity (s : MemoryStore) (now : Time) : MemoryStore :=
  let security := s.GetSecurity
  let security := { security with State := SecurityStateArmed, LastArmed := now }
  let sensors := DeviceService.GetDevicesByType s DeviceTypeSensor
  let activeSensors := sensors.foldl
    (fun acc sensor =>
      if sensor.Status = DeviceStatusOnline then acc ++ [sensor.ID] else acc)
    []
  let security := { security with ActiveSensors := activeSensors }
  s.UpdateSecurity security now

end Handler

/-! ## Histories of store operations -/

/-- The store operations that a history is made of: the six mutators that emit an
event, `AddSystemEvent`, and the two mutators that emit none. -/
inductive StoreOp where
  | AddDevice (device : Device) (now : Time)
  | UpdateDevice (id : String) (updates : GoMap Value) (now : Time)
  | DeleteDevice (id : String) (now : Time)
  | UpdateWeather (weather : WeatherData) (now : Time)
  | UpdateSecurity (security : SecuritySystem) (now : Time)
  | AddTask (task : ScheduledTask) (now : Time)
  | AddSystemEvent (event : SystemEvent)
  | UpdateTask (id : String) (updates : GoMap Value)
  | AddEnergyUsage (usage : EnergyUsage)

/-- Running one operation on the store. -/
def StoreOp.apply (s : MemoryStore) : StoreOp → MemoryStore
  | .AddDevice device now => (s.AddDevice device now).1
  | .UpdateDevice id updates now => (s.UpdateDevice id updates now).1
  | .DeleteDevice id now => (s.DeleteDevice id now).1
  | .UpdateWeather weather now => s.UpdateWeather weather now
  | .UpdateSecurity security now => s.UpdateSecurity security now
  | .AddTask task now => (s.AddTask task now).1
  | .AddSystemEvent event => s.AddSystemEvent event
  | .UpdateTask id updates => (s.UpdateTask id updates).1
  | .AddEnergyUsage usage => s.AddEnergyUsage usage

/-- The events an operation emits when it is run in state `s`: one event for a
mutator that succeeds, the given event for `AddSystemEvent`, none for a mutator that
fails and for the operations that do not log. -/
def StoreOp.emitted (s : MemoryStore) : StoreOp → List SystemEvent
  | .AddDevice device now =>
    if (s.devices.get? device.ID).isSome then []
    else [MemoryStore.storageEvent "device_added" "storage"
      ("Device " ++ device.Name ++ " added")
      [("device_id", .str device.ID), ("device_type", .deviceType device.Typ)] now]
  | .UpdateDevice id updates now =>
    match s.devices.get? id with
    | none => []
    | some device =>
      let device := updates.foldl (fun d kv => MemoryStore.applyDeviceUpdate d kv.1 kv.2) device
      [MemoryStore.storageEvent "device_updated" "storage"
        ("Device " ++ device.Name ++ " updated")
        [("device_id", .str device.ID), ("updates", .map updates)] now]
  | .DeleteDevice id now =>
    match s.devices.get? id with
    | none => []
    | some device =>
      [MemoryStore.storageEvent "device_deleted" "storage"
        ("Device " ++ device.Name ++ " deleted") [("device_id", .str device.ID)] now]
  | .UpdateWeather weather now =>
    [MemoryStore.storageEvent "weather_updated" "storage" "Weather data updated"
      [("temperature", .float weather.Temperature), ("condition", .str weather.Condition)] now]
  | .UpdateSecurity security now =>
    [MemoryStore.storageEvent "security_updated" "storage"
      ("Security state changed to " ++ security.State)
      [("state", .securityState security.State), ("sensors", .strs security.ActiveSensors)] now]
  | .AddTask task now =>
    if (s.tasks.get? task.ID).isSome then []
    else [MemoryStore.storageEvent "task_added" "storage"
      ("Scheduled task " ++ task.Name ++ " added")
      [("task_id", .str task.ID), ("device_id", .str task.DeviceID),
       ("schedule", .str task.Schedule)] now]
  | .AddSystemEvent event => [event]
  | .UpdateTask _ _ => []
  | .AddEnergyUsage _ => []

/-- The store after a history of operations. -/
def runOps (s : MemoryStore) (ops : List StoreOp) : MemoryStore := ops.foldl StoreOp.apply s

/-- All events emitted along a history, oldest first. -/
def emittedBy : MemoryStore → List StoreOp → List SystemEvent
  | _, [] => []
  | s, op :: ops => op.emitted s ++ emittedBy (op.apply s) ops

/-! ## Sample data -/

def sampleLight : Device :=
  { ID := "light_001", Name := "Living Room Light", Typ := DeviceTypeLight,
    Status := DeviceStatusOnline,
    Properties := [("brightness", .int 80), ("color", .str "warm_white"), ("power", .bool true)],
    Location := "Living Room", LastUpdated := 0, CreatedAt := 0 }

def sampleSensor : Device :=
  { ID := "sensor_001", Name := "Motion Sensor", Typ := DeviceTypeSensor,
    Status := DeviceStatusOnline,
    Properties := [("motion_detected", .bool false), ("sensitivity", .int 7),
                   ("battery_level", .int 85)],
    Location := "Living Room", LastUpdated := 0, CreatedAt := 0 }

def sampleLock : Device :=
  { ID := "lock_001", Name := "Front Door Lock", Typ := DeviceTypeLock,
    Status := DeviceStatusOnline,
    Properties := [("locked", .bool true), ("auto_lock", .bool true), ("battery_level", .int 92)],
    Location := "Front Door", LastUpdated := 0, CreatedAt := 0 }

def sampleTask : ScheduledTask :=
  { ID := "task_1", Name := "Night lock", DeviceID := "lock_001", Action := "lock",
    Parameters := [], Schedule := "daily", Enabled := true, NextRun := 0, LastRun := 0,
    CreatedAt := 0 }

/-- A store holding the sample light, sensor and task, built through the store's own
operations. -/
def sampleStore : MemoryStore :=
  let s := MemoryStore.NewMemoryStore 1000
  let s := (s.AddDevice sampleLight 1001).1
  let s := (s.AddDevice sampleSensor 1002).1
  (s.AddTask sampleTask 1003).1

/-- The sample store after arming with the online sensor as the active sensor. -/
def armedStore : MemoryStore :=
  sampleStore.UpdateSecurity
    { sampleStore.security with
      State := SecurityStateArmed, LastArmed := 2000, ActiveSensors := ["sensor_001"] } 2000

/-- The armed store after the sample sensor reported motion at time 3000. -/
def triggeredStore : MemoryStore :=
  armedStore.UpdateSecurity
    { armedStore.security with
      State := SecurityStateTriggered, LastTriggered := 3000, TriggeredBy := "sensor_001" } 3000

/-- A task that disarms the security system. -/
def disarmTask : ScheduledTask :=
  { ID := "task_disarm", Name := "Morning disarm", DeviceID := "light_001",
    Action := "disarm_security", Parameters := [], Schedule := "daily", Enabled := true,
    NextRun := 0, LastRun := 0, CreatedAt := 0 }

/-- The disarm task as the store holds it after `AddTask` at time 1500. -/
def storedDisarmTask : ScheduledTask := { disarmTask with CreatedAt := 1500 }

/-- The sample store with the disarm task added, then armed with the online sensor as
the active sensor. -/
def armedStoreWithDisarmTask : MemoryStore :=
  let s := (sampleStore.AddTask disarmTask 1500).1
  s.UpdateSecurity
    { s.security with
      State := SecurityStateArmed, LastArmed := 2000, ActiveSensors := ["sensor_001"] } 2000

/-- The log after one more event `e` when the log held at most 500 entries before:
the oldest entry goes when the log was full. -/
def logAfterAppend (log : List SystemEvent) (e : SystemEvent) : List SystemEvent :=
  (if log.length = 500 then log.drop 1 else log) ++ [e]

/-- The step from `s` to `s'` appended exactly one event, of type `typ`. -/
def AppendsOneEvent (s s' : MemoryStore) (typ : String) : Prop :=
  ∃ e : SystemEvent, e.Typ = typ ∧ s'.systemEvents = logAfterAppend s.systemEvents e

/-- The top-level keys that `UpdateDevice` routes to struct fields. -/
def isFieldKey (k : String) : Prop := k = "name" ∨ k = "status" ∨ k = "location"

instance : DecidablePred isFieldKey := fun k => by unfold isFieldKey; infer_instance

/-- The keys that `UpdateTask` recognises. -/
def isTaskFieldKey (k : String) : Prop := k = "enabled" ∨ k = "next_run" ∨ k = "last_run"

instance : DecidablePred isTaskFieldKey := fun k => by unfold isTaskFieldKey; infer_instance

/-! ## Energy records -/

/-- The record `CalculateEnergyUsage` builds for a device. -/
def usageRecord (device : Device) (now : Time) : EnergyUsage :=
  { DeviceID := device.ID, DeviceName := device.Name, Usage := DeviceService.deviceUsage device,
    Cost := DeviceService.deviceUsage device * 0.12, Timestamp := now }

/-- The boolean attribute `k` of a device, read as the code reads it:
`b, ok := device.Properties[k].(bool)`. -/
def boolAttr (d : Device) (k : String) : Option Bool :=
  (d.Properties.get? k).bind Value.asBool

/-- The usage `u` that the rules of the energy estimate give for device `d`, by type:
a light that is powered uses brightness × 0.001 when the brightness is stored as an
`int` and 0.05 when it is stored in another way, a light that is not powered uses 0;
a thermostat uses 3.0 when cooling, 2.5 when heating and not cooling, 0.1 otherwise;
a camera 0.8 when recording and 0.2 otherwise; a sensor 0.01; a lock 0.005. -/
def UsageRule (d : Device) (u : Float64) : Prop :=
  (d.Typ = DeviceTypeLight →
    (boolAttr d "power" = some true →
        ∀ n : Int, d.Properties.get? "brightness" = some (.int n) → u = (n : Float64) * 0.001)
    ∧ (boolAttr d "power" = some true →
        (d.Properties.get? "brightness").bind Value.asInt = none → u = 0.05)
    ∧ (boolAttr d "power" ≠ some true → u = 0))
  ∧ (d.Typ = DeviceTypeThermostat →
    (boolAttr d "cooling" = some true → u = 3.0)
    ∧ (boolAttr d "heating" = some true → boolAttr d "cooling" ≠ some true → u = 2.5)
    ∧ (boolAttr d "heating" ≠ some true → boolAttr d "cooling" ≠ some true → u = 0.1))
  ∧ (d.Typ = DeviceTypeCamera →
    (boolAttr d "recording" = some true → u = 0.8)
    ∧ (boolAttr d "recording" ≠ some true → u = 0.2))
  ∧ (d.Typ = DeviceTypeSensor → u = 0.01)
  ∧ (d.Typ = DeviceTypeLock → u = 0.005)

/-- The sample store after the update `brightness := 80.0` (a `float64`, as a decoded
JSON body supplies it) on the sample light. -/
def floatLightStore : MemoryStore :=
  (sampleStore.UpdateDevice "light_001" [("brightness", .float 80)] 1500).1

/-- A task that arms the security system. -/
def armTask : ScheduledTask :=
  { ID := "task_arm", Name := "Evening arm", DeviceID := "light_001",
    Action := "arm_security", Parameters := [], Schedule := "daily", Enabled := true,
    NextRun := 0, LastRun := 0, CreatedAt := 0 }

/-- The arm task as the store holds it after `AddTask` at time 1500. -/
def storedArmTask : ScheduledTask := { armTask with CreatedAt := 1500 }

/-- The sample store (Disarmed, one online sensor) with the arm task added. -/
def storeWithArmTask : MemoryStore := (sampleStore.AddTask armTask 1500).1

/-! ## Thermostat and security steps -/

/-- The updates the thermostat tick chooses from the target and the current temperature,
before the weather blend. -/
def thermostatStep (c t : Float64) : GoMap Value :=
  if fsub t c > 1.0 then
    [("heating", .bool true), ("cooling", .bool false), ("temperature", .float (fadd c 0.5))]
  else if fsub t c < -1.0 then
    [("heating", .bool false), ("cooling", .bool true), ("temperature", .float (fsub c 0.5))]
  else
    [("heating", .bool false), ("cooling", .bool false)]

/-- The updates the thermostat tick hands to `UpdateDevice`: the step, with the
`temperature` entry replaced (or added) by the weather blend when the blend is not zero;
`a` is the ambient temperature. -/
def thermostatUpdates (fused : Bool) (c t a : Float64) : GoMap Value :=
  if fmul (fsub a c) pointOne ≠ 0 then
    (thermostatStep c t).set "temperature" (.float (fmulAdd fused (fsub a c) pointOne c))
  else thermostatStep c t

def sampleThermostat : Device :=
  { ID := "thermostat_001", Name := "Main Thermostat", Typ := DeviceTypeThermostat,
    Status := DeviceStatusOnline,
    Properties := [("temperature", .float 20), ("target_temp", .float 22), ("mode", .str "auto")],
    Location := "Hallway", LastUpdated := 0, CreatedAt := 0 }

/-- The sample thermostat as the store holds it after `AddDevice` at time 1100. -/
def storedThermostat : Device := { sampleThermostat with CreatedAt := 1100, LastUpdated := 1100 }

/-- The sample store with the thermostat (current 20, target 22) and ambient weather 20. -/
def thermostatStore : MemoryStore :=
  let s := (sampleStore.AddDevice sampleThermostat 1100).1
  s.UpdateWeather { WeatherData.zero with Temperature := 20 } 1200

/-- The operations that write the security system: the arm and disarm handlers, the
sensor tick, the security monitor, the execution of a task, and the automation
scenarios. -/
inductive SecurityStep where
  | arm (now : Time)
  | disarm (now : Time)
  | sensorTick (device : Device) (r1 r2 : Float64) (now : Time)
  | monitor (now : Time)
  | runTask (task : ScheduledTask) (now : Time)
  | scenario (name : String) (now : Time)

/-- Running one such operation on the store. -/
def SecurityStep.run (s : MemoryStore) : SecurityStep → MemoryStore
  | .arm now => Handler.ArmSecurity s now
  | .disarm now => Handler.DisarmSecurity s now
  | .sensorTick device r1 r2 now => DeviceService.updateSensor s device r1 r2 now
  | .monitor now => Scheduler.checkSecurityStatus s now
  | .runTask t now => Scheduler.executeTask s t now
  | .scenario name now => (Scheduler.TriggerAutomationScenario s name now).1

/-- The step is the `security_breach` scenario. -/
def SecurityStep.isBreach : SecurityStep → Bool
  | .scenario name _ => decide (name = "security_breach")
  | _ => false

/-- One of the three states of the security state machine. -/
def validState (st : SecurityState) : Prop :=
  st = SecurityStateDisarmed ∨ st = SecurityStateArmed ∨ st = SecurityStateTriggered

/-- The four transitions of the security state machine: Disarmed to Armed, Armed to
Triggered, Triggered to Armed, and any state to Disarmed. -/
def allowedTransition (a b : SecurityState) : Prop :=
  (a = SecurityStateDisarmed ∧ b = SecurityStateArmed)
  ∨ (a = SecurityStateArmed ∧ b = SecurityStateTriggered)
  ∨ (a = SecurityStateTriggered ∧ b = SecurityStateArmed)
  ∨ b = SecurityStateDisarmed

/-! ## Scenario loops -/

/-- What a successful `UpdateDevice` does to the device it finds: the update loop, then
the `LastUpdated` stamp. -/
def touchDevice (updates : GoMap Value) (now : Time) (d : Device) : Device :=
  { updates.foldl (fun d kv => MemoryStore.applyDeviceUpdate d kv.1 kv.2) d with
    LastUpdated := now }

/-- What `UpdateDevice` does to the devices map. -/
def stepDevices (updates : GoMap Value) (now : Time) (m : GoMap Device) (id : String) :
    GoMap Device :=
  match m.get? id with
  | none => m
  | some d => m.set id (touchDevice updates now d)

/-- The entry of the devices map after a scenario loop over the devices of type `ty`. -/
def touchType (ty : DeviceType) (updates : GoMap Value) (now : Time)
    (p : String × Device) : String × Device :=
  (p.1, if p.2.Typ = ty then touchDevice updates now p.2 else p.2)

/-- The invariant of the devices map: ids are unique, and every device is stored under
its own id (`AddDevice` stores under `device.ID`, and no operation changes an id). -/
def WellFormed (s : MemoryStore) : Prop :=
  (GoMap.keys s.devices).Nodup ∧ ∀ p ∈ s.devices, p.2.ID = p.1

/-- The invariant of the tasks map: ids are unique, and every task is stored under its
own id. -/
def TasksWellFormed (s : MemoryStore) : Prop :=
  (GoMap.keys s.tasks).Nodup ∧ ∀ p ∈ s.tasks, p.2.ID = p.1

/-- What a scenario loop over the devices of type `ty` does to one device. -/
def touchIf (ty : DeviceType) (updates : GoMap Value) (now : Time) (d : Device) : Device :=
  if d.Typ = ty then touchDevice updates now d else d

/-- Every device of type `ty` in the store has each attribute of `attrs` with the
listed value. -/
def AllOfTypeHave (s : MemoryStore) (ty : DeviceType) (attrs : GoMap Value) : Prop :=
  ∀ id d, s.devices.get? id = some d → d.Typ = ty →
    ∀ kv ∈ attrs, d.Properties.get? kv.1 = some kv.2

/-- Every device of `s'` whose type is not among `tys` is stored in `s` under the same
id with the same contents: it was not changed. -/
def OthersKept (s s' : MemoryStore) (tys : List DeviceType) : Prop :=
  ∀ id d', s'.devices.get? id = some d' → d'.Typ ∉ tys → s.devices.get? id = some d'

/-- Every device of `s` is still stored in `s'` under its id, with the same id and
type. -/
def SameDevices (s s' : MemoryStore) : Prop :=
  ∀ id d, s.devices.get? id = some d →
    ∃ d', s'.devices.get? id = some d' ∧ d'.Typ = d.Typ ∧ d'.ID = d.ID

def sampleLight2 : Device :=
  { ID := "light_002", Name := "Bedroom Light", Typ := DeviceTypeLight,
    Status := DeviceStatusOnline,
    Properties := [("brightness", .int 10), ("power", .bool false)],
    Location := "Bedroom", LastUpdated := 0, CreatedAt := 0 }

/-- A world with two lights, one thermostat and one sensor, Armed. -/
def twoLightsStore : MemoryStore :=
  let s := (armedStore.AddDevice sampleLight2 2100).1
  (s.AddDevice sampleThermostat 2200).1

/-- A task that is switched off. -/
def disabledTask : ScheduledTask :=
  { ID := "task_off", Name := "Unused", DeviceID := "light_001", Action := "turn_off",
    Parameters := [], Schedule := "hourly", Enabled := false, NextRun := 0, LastRun := 0,
    CreatedAt := 0 }

/-- The disabled task as the store holds it after `AddTask` at time 1600. -/
def storedDisabledTask : ScheduledTask := { disabledTask with CreatedAt := 1600 }

/-- The store with the arm task (enabled, never run) and the disabled task. -/
def twoTasksStore : MemoryStore := (storeWithArmTask.AddTask disabledTask 1600).1

/-- The thermostat store after an update that sets both the heating and the cooling
flag of the thermostat. -/
def bothFlagsStore : MemoryStore :=
  (thermostatStore.UpdateDevice "thermostat_001"
    [("heating", .bool true), ("cooling", .bool true)] 1500).1

/-- The thermostat as `bothFlagsStore` holds it. -/
def bothFlagsThermostat : Device :=
  { storedThermostat with
    Properties := [("temperature", .float 20), ("target_temp", .float 22), ("mode", .str "auto"),
                   ("heating", .bool true), ("cooling", .bool true)],
    LastUpdated := 1500 }

/-! ## Log readers and reset (`storage/memory_store.go`) -/

namespace MemoryStore

def GetEnergyUsage (s : MemoryStore) (limit : Int) : List EnergyUsage :=
  if limit ≤ 0 ∨ limit > s.energyUsage.length then s.energyUsage
  else lastN limit.toNat s.energyUsage

def GetSystemEvents (s : MemoryStore) (limit : Int) : List SystemEvent :=
  if limit ≤ 0 ∨ limit > s.systemEvents.length then s.systemEvents
  else lastN limit.toNat s.systemEvents

def Reset (s : MemoryStore) (now : Time) : MemoryStore :=
  let s : MemoryStore :=
    { s with
      devices := [],
      weather := WeatherData.zero,
      security := { State := SecurityStateDisarmed, LastArmed := 0, LastTriggered := 0,
                    ActiveSensors := [], TriggeredBy := "" },
      tasks := [],
      energyUsage := [],
      systemEvents := [],
      startTime := now }
  s.addSystemEvent "system_reset" "storage" "System state reset" [] now

end MemoryStore

/-! ## The weather simulator (`services/weather_service.go`) -/

namespace WeatherService

/-- The service's snapshot right after `NewWeatherService`. -/
def initialWeather (now : Time) : WeatherData :=
  { Temperature := 20.0, Humidity := 60.0, Pressure := 1013.25, Condition := "clear",
    WindSpeed := 5.0, WindDir := "N", Timestamp := now }

/-- Humidity after one tick; `r` is the `rand.Float64()` draw. -/
def calculateHumidity (current : WeatherData) (r : Float64) : Float64 :=
  let currentHumidity := current.Humidity
  let variation := (r - 0.5) * 10.0
  let newHumidity := currentHumidity + variation
  if newHumidity < 30.0 then 30.0
  else if newHumidity > 90.0 then 90.0
  else newHumidity

/-- Pressure after one tick; `r` is the `rand.Float64()` draw. -/
def calculatePressure (current : WeatherData) (r : Float64) : Float64 :=
  let currentPressure := current.Pressure
  let variation := (r - 0.5) * 20.0
  let newPressure := currentPressure + variation
  if newPressure < 980.0 then 980.0
  else if newPressure > 1040.0 then 1040.0
  else newPressure

/-- Condition from the snapshot's pressure and humidity; `k` is the `rand.Intn` draw that
indexes the matched list. -/
def calculateCondition (current : WeatherData) (k : Nat) : String :=
  let pressure := current.Pressure
  let humidity := current.Humidity
  if pressure < 1000.0 ∧ humidity > 80.0 then
    ["rainy", "stormy", "cloudy"].getD k ""
  else if pressure < 1010.0 then
    ["cloudy", "partly_cloudy", "overcast"].getD k ""
  else if humidity < 40.0 then "clear"
  else ["clear", "partly_cloudy", "sunny"].getD k ""

/-- Wind speed after one tick; `r` is the `rand.Float64()` draw. -/
def calculateWindSpeed (current : WeatherData) (r : Float64) : Float64 :=
  let currentSpeed := current.WindSpeed
  let variation := (r - 0.5) * 5.0
  let newSpeed := currentSpeed + variation
  if newSpeed < 0.0 then 0.0
  else if newSpeed > 30.0 then 30.0
  else newSpeed

/-- The eight compass points, in the order of the Go slice. -/
def directions : List String := ["N", "NE", "E", "SE", "S", "SW", "W", "NW"]

/-- The loop of `findDirectionIndex` from position `i` on: the index of the first match,
and 0 when the loop ends without one. -/
def firstIndexFrom (direction : String) : List String → Nat → Nat
  | [], _ => 0
  | dir :: rest, i => if dir = direction then i else firstIndexFrom direction rest (i + 1)

def findDirectionIndex (direction : String) : Nat := firstIndexFrom direction directions 0

/-- Wind direction after one tick; `k` is the `rand.Intn(3)` draw, the change being
`k - 1`. The index `currentIndex + change + 8` is written `currentIndex + k + 8 - 1`. -/
def calculateWindDirection (current : WeatherData) (k : Nat) : String :=
  let currentIndex := findDirectionIndex current.WindDir
  let newIndex := (currentIndex + k + directions.length - 1) % directions.length
  directions.getD newIndex ""

/-- One weather tick. `baseTemp` is the value of `calculateBaseTemperature` (a sum of two
sines of the clock), taken as an input; the draws are listed in the order the code takes
them. The result is the service's new snapshot and the store after `UpdateWeather`. -/
def updateWeather (current : WeatherData) (s : MemoryStore) (baseTemp : Float64)
    (rTemp rHum rPres : Float64) (kCond : Nat) (rWind : Float64) (kDir : Nat) (now : Time) :
    WeatherData × MemoryStore :=
  let tempVariation := (rTemp - 0.5) * 4.0
  let current := { current with Temperature := baseTemp + tempVariation }
  let current := { current with Humidity := calculateHumidity current rHum }
  let current := { current with Pressure := calculatePressure current rPres }
  let current := { current with Condition := calculateCondition current kCond }
  let current := { current with WindSpeed := calculateWindSpeed current rWind }
  let current := { current with WindDir := calculateWindDirection current kDir }
  let current := { current with Timestamp := now }
  (current, s.UpdateWeather current now)

/-- The scenario switch; `r1 .. r4` are the draws for temperature, humidity, pressure
and wind speed. -/
def SimulateWeatherScenario (current : WeatherData) (s : MemoryStore) (scenario : String)
    (r1 r2 r3 r4 : Float64) (now : Time) : WeatherData × MemoryStore :=
  let current : WeatherData :=
    match scenario with
    | "storm" =>
      { current with
        Temperature := 15.0 + r1 * 5.0, Humidity := 85.0 + r2 * 10.0,
        Pressure := 980.0 + r3 * 20.0, Condition := "stormy",
        WindSpeed := 20.0 + r4 * 10.0, WindDir := "SW" }
    | "heatwave" =>
      { current with
        Temperature := 35.0 + r1 * 10.0, Humidity := 20.0 + r2 * 15.0,
        Pressure := 1020.0 + r3 * 10.0, Condition := "clear",
        WindSpeed := 2.0 + r4 * 5.0, WindDir := "S" }
    | "cold_snap" =>
      { current with
        Temperature := -5.0 + r1 * 10.0, Humidity := 40.0 + r2 * 20.0,
        Pressure := 1030.0 + r3 * 10.0, Condition := "clear",
        WindSpeed := 15.0 + r4 * 10.0, WindDir := "N" }
    | "rain" =>
      { current with
        Temperature := 12.0 + r1 * 8.0, Humidity := 80.0 + r2 * 15.0,
        Pressure := 995.0 + r3 * 15.0, Condition := "rainy",
        WindSpeed := 8.0 + r4 * 7.0, WindDir := "W" }
    | "fog" =>
      { current with
        Temperature := 8.0 + r1 * 5.0, Humidity := 95.0 + r2 * 5.0,
        Pressure := 1015.0 + r3 * 5.0, Condition := "foggy",
        WindSpeed := 1.0 + r4 * 2.0, WindDir := "Calm" }
    | _ =>
      { current with
        Temperature := 20.0 + r1 * 10.0, Humidity := 50.0 + r2 * 20.0,
        Pressure := 1013.0 + r3 * 10.0, Condition := "clear",
        WindSpeed := 5.0 + r4 * 5.0, WindDir := "N" }
  let current := { current with Timestamp := now }
  (current, s.UpdateWeather current now)

end WeatherService

/-! ## Task bookkeeping and the health monitor (`workers/scheduler.go`) -/

namespace Scheduler

def AddTask (s : MemoryStore) (task : ScheduledTask) (now : Time) :
    MemoryStore × Option StoreError :=
  let task :=
    if task.ID = "" then { task with ID := "task_" ++ toString (MemoryStore.UnixNano now) }
    else task
  let task :=
    if task.NextRun = 0 then { task with NextRun := calculateNextRun task.Schedule now }
    else task
  let task := { task with Enabled := true, CreatedAt := now }
  s.AddTask task now

def TriggerTask (s : MemoryStore) (id : String) (now : Time) :
    MemoryStore × Option StoreError :=
  match s.GetTask id with
  | .error err => (s, some err)
  | .ok task => (executeTask s task now, none)

/-- The warning `checkSystemHealth` logs for too many offline devices. -/
def systemHealthEvent (offlineCount total : Nat) (now : Time) : SystemEvent :=
  { ID := "system_health_" ++ toString (MemoryStore.UnixNano now),
    Typ := "system_health_warning",
    Source := "scheduler",
    Message := "High number of offline devices: " ++ toString offlineCount ++ "/"
      ++ toString total,
    Data := [("offline_count", .int offlineCount), ("total_devices", .int total)],
    Timestamp := now,
    Severity := "warning" }

/-- The event `checkSystemHealth` logs for a weather alert. -/
def weatherAlertEvent (alert : String) (weather : WeatherData) (now : Time) : SystemEvent :=
  { ID := "weather_alert_" ++ toString (MemoryStore.UnixNano now),
    Typ := "weather_alert",
    Source := "scheduler",
    Message := alert,
    Data := [("temperature", .float weather.Temperature), ("condition", .str weather.Condition),
             ("wind_speed", .float weather.WindSpeed), ("pressure", .float weather.Pressure)],
    Timestamp := now,
    Severity := "warning" }

/-- One tick of the system health monitor; `current` is the weather service's
snapshot. -/
def checkSystemHealth (s : MemoryStore) (current : WeatherData) (now : Time) : MemoryStore :=
  let devices := DeviceService.ListDevices s
  let offlineCount := devices.foldl
    (fun n device => if device.Status = DeviceStatusOffline then n + 1 else n) 0
  let s :=
    if offlineCount > devices.length / 2 then
      s.AddSystemEvent (systemHealthEvent offlineCount devices.length now)
    else s
  let weather := current
  match WeatherService.GetWeatherAlert current with
  | some alert => s.AddSystemEvent (weatherAlertEvent alert weather now)
  | none => s

end Scheduler

/-! ## Counting devices and schedule offsets -/

/-- The number of listed devices whose status is Offline. -/
def offlineCount (s : MemoryStore) : Nat :=
  (s.ListDevices.filter (fun d => decide (d.Status = DeviceStatusOffline))).length

/-- The events one system-health tick logs: the health warning when strictly more than
half of the devices are Offline, then the weather alert when there is one. -/
def healthEvents (s : MemoryStore) (current : WeatherData) (now : Time) : List SystemEvent :=
  (if 2 * offlineCount s > s.ListDevices.length then
      [Scheduler.systemHealthEvent (offlineCount s) s.ListDevices.length now]
    else [])
  ++ (match WeatherService.GetWeatherAlert current with
      | some alert => [Scheduler.weatherAlertEvent alert current now]
      | none => [])

/-- The offset the schedule keywords stand for: 15 minutes, 30 minutes, 1 hour, 1 day
and 7 days for `every_15_minutes`, `every_30_minutes`, `hourly`, `daily` and `weekly`,
and 1 hour for every other keyword. -/
def scheduleOffset (schedule : String) : Duration :=
  if schedule = "every_15_minutes" then 15 * Minute
  else if schedule = "every_30_minutes" then 30 * Minute
  else if schedule = "hourly" then Hour
  else if schedule = "daily" then 24 * Hour
  else if schedule = "weekly" then 7 * (24 * Hour)
  else Hour

/-- The eight actions `executeTask` recognises. -/
def recognizedActions : List String :=
  ["turn_on", "turn_off", "set_temperature", "set_brightness", "lock", "unlock",
   "arm_security", "disarm_security"]

/-- The thermostat store after the update `temperature := "21"` (a string, as a decoded
JSON body can supply it) on the thermostat. -/
def stringTempStore : MemoryStore :=
  (thermostatStore.UpdateDevice "thermostat_001" [("temperature", .str "21")] 1500).1

/-- The thermostat as `stringTempStore` holds it. -/
def stringTempThermostat : Device :=
  { storedThermostat with
    Properties := [("temperature", .str "21"), ("target_temp", .float 22), ("mode", .str "auto")],
    LastUpdated := 1500 }

/-- A thermostat added to the store without a `target_temp` attribute. -/
def bareThermostat : Device :=
  { ID := "thermostat_002", Name := "Spare Thermostat", Typ := DeviceTypeThermostat,
    Status := DeviceStatusOnline, Properties := [("temperature", .float 19)],
    Location := "Attic", LastUpdated := 1600, CreatedAt := 1600 }

/-- The thermostat store with the bare thermostat added through the store's `AddDevice`. -/
def bareThermostatStore : MemoryStore := (thermostatStore.AddDevice bareThermostat 1600).1

/-- The id under which `Scheduler.AddTask` stores a task: the supplied id, or the
generated `task_<nanoseconds>` when the supplied id is empty. -/
def addedTaskID (task : ScheduledTask) (now : Time) : String :=
  if task.ID = "" then "task_" ++ toString (MemoryStore.UnixNano now) else task.ID

/-- A task submitted with a next run time already set. -/
def presetTask : ScheduledTask :=
  { ID := "task_preset", Name := "Preset", DeviceID := "light_001", Action := "turn_on",
    Parameters := [], Schedule := "hourly", Enabled := false, NextRun := 777, LastRun := 0,
    CreatedAt := 0 }

/-- A task submitted without an id and without a next run time. -/
def anonymousTask : ScheduledTask :=
  { ID := "", Name := "Anonymous", DeviceID := "light_001", Action := "turn_on",
    Parameters := [], Schedule := "every_15_minutes", Enabled := false, NextRun := 0,
    LastRun := 0, CreatedAt := 0 }

/-- The task is one that `executeTask` skips in store `s`: its device id is not in the
store, or its action is not one of the eight recognised actions. -/
def isSkipped (s : MemoryStore) (task : ScheduledTask) : Bool :=
  (s.devices.get? task.DeviceID).isNone || !decide (task.Action ∈ recognizedActions)

/-- A task whose action is not recognised. -/
def unknownActionTask : ScheduledTask :=
  { ID := "task_dance", Name := "Dance", DeviceID := "light_001", Action := "dance",
    Parameters := [], Schedule := "hourly", Enabled := true, NextRun := 0, LastRun := 0,
    CreatedAt := 0 }

/-- The store with the arm task and, listed before it, a task with an unknown action and
the sample task, whose device `lock_001` is not in the store. -/
def skippedTasksStore : MemoryStore :=
  let s := (sampleStore.AddTask unknownActionTask 1400).1
  (s.AddTask armTask 1500).1

/-- The step from `s` to `s'` wrote the attribute `k := v` of the device stored under
`id` and changed nothing else of the devices: the device keeps its other attributes, its
id, name, type, status and location, and every other device is stored as it was. -/
def SetsAttr (s s' : MemoryStore) (id k : String) (v : Value) : Prop :=
  (∃ d d', s.devices.get? id = some d ∧ s'.devices.get? id = some d'
      ∧ d'.Properties.get? k = some v
      ∧ (∀ k', k' ≠ k → d'.Properties.get? k' = d.Properties.get? k')
      ∧ d'.ID = d.ID ∧ d'.Name = d.Name ∧ d'.Typ = d.Typ ∧ d'.Status = d.Status
      ∧ d'.Location = d.Location)
  ∧ ∀ id', id' ≠ id → s'.devices.get? id' = s.devices.get? id'

/-- A `set_temperature` task whose temperature parameter is the string `"25"`, as a
JSON body `{"temperature": "25"}` decodes. -/
def textTempTask : ScheduledTask :=
  { ID := "task_temp", Name := "Warm up", DeviceID := "thermostat_001",
    Action := "set_temperature", Parameters := [("temperature", .str "25")],
    Schedule := "daily", Enabled := true, NextRun := 0, LastRun := 0, CreatedAt := 0 }

/-- A `set_brightness` task whose brightness parameter is the float 55.5. -/
def dimTask : ScheduledTask :=
  { ID := "task_dim", Name := "Dim", DeviceID := "light_001",
    Action := "set_brightness", Parameters := [("brightness", .float 55.5)],
    Schedule := "daily", Enabled := true, NextRun := 0, LastRun := 0, CreatedAt := 0 }

/-- The direction `b` is at cyclic distance at most one step from the compass point `a`
on the eight-point compass. -/
def compassStep (a b : String) : Prop :=
  ∃ i, i < 8 ∧ WeatherService.directions.get? i = some a
    ∧ (b = WeatherService.directions.getD i ""
        ∨ b = WeatherService.directions.getD ((i + 1) % 8) ""
        ∨ b = WeatherService.directions.getD ((i + 7) % 8) "")

/-- The ranges the data model gives for a weather snapshot. -/
def InModelRanges (w : WeatherData) : Prop :=
  30 ≤ w.Humidity ∧ w.Humidity ≤ 90 ∧ 980 ≤ w.Pressure ∧ w.Pressure ≤ 1040
    ∧ 0 ≤ w.WindSpeed ∧ w.WindSpeed ≤ 30 ∧ w.WindDir ∈ WeatherService.directions

/-- The snapshot the fog scenario leaves when every draw is 0. -/
def fogWeather : WeatherData :=
  (WeatherService.SimulateWeatherScenario (WeatherService.initialWeather 1000) sampleStore
    "fog" 0 0 0 0 2000).1

/-- The store after the fog scenario with every draw 0. -/
def fogStore : MemoryStore :=
  (WeatherService.SimulateWeatherScenario (WeatherService.initialWeather 1000) sampleStore
    "fog" 0 0 0 0 2000).2

/-- The sample store after both of its devices were reported Offline. -/
def offlineStore : MemoryStore :=
  let s := (sampleStore.UpdateDevice "light_001" [("status", .str DeviceStatusOffline)] 1500).1
  (s.UpdateDevice "sensor_001" [("status", .str DeviceStatusOffline)] 1600).1

/-! ## Helpers (`utils/utils.go`) -/

namespace Utils

/-- The schedule table of `ParseSchedule`; the error is the text of the Go error. -/
def ParseSchedule (schedule : String) : Except String Duration :=
  match schedule with
  | "every_minute" => .ok Minute
  | "every_5_minutes" => .ok (5 * Minute)
  | "every_15_minutes" => .ok (15 * Minute)
  | "every_30_minutes" => .ok (30 * Minute)
  | "hourly" => .ok Hour
  | "daily" => .ok (24 * Hour)
  | "weekly" => .ok (7 * 24 * Hour)
  | _ => .error ("unknown schedule: " ++ schedule)

/-- The range check of `ValidateDeviceProperties`; the result is the text of the Go
error, `none` being `nil`. -/
def ValidateDeviceProperties (deviceType : String) (properties : GoMap Value) :
    Option String :=
  match deviceType with
  | "light" =>
    match (properties.get? "brightness").bind Value.asInt with
    | some brightness =>
      if brightness < 0 ∨ brightness > 100 then some "brightness must be between 0 and 100"
      else none
    | none => none
  | "thermostat" =>
    match (properties.get? "target_temp").bind Value.asFloat with
    | some temp =>
      if temp < 10 ∨ temp > 35 then some "temperature must be between 10 and 35 degrees"
      else none
    | none => none
  | "sensor" =>
    match (properties.get? "sensitivity").bind Value.asInt with
    | some sensitivity =>
      if sensitivity < 1 ∨ sensitivity > 10 then some "sensitivity must be between 1 and 10"
      else none
    | none => none
  | _ => none

end Utils

/-! ## Forecast, history and the extreme-weather test (`services/weather_service.go`) -/

/-- The random draws one entry of a forecast or of a history takes, in the order the code
takes them: temperature, humidity, pressure, condition, wind speed, wind direction.
`kCond` is not taken when `calculateCondition` returns `clear` without a draw. -/
structure EntryDraws where
  rTemp : Float64
  rHum : Float64
  rPres : Float64
  kCond : Nat
  rWind : Float64
  kDir : Nat

namespace WeatherService

/-- The loop of `GetForecast` from day `i` on, one entry for each record of draws. -/
def forecastFrom (current : WeatherData) (baseTemp : Float64) (now : Time) :
    Nat → List EntryDraws → List WeatherData
  | _, [] => []
  | i, d :: rest =>
    { Temperature := baseTemp + (d.rTemp - 0.5) * 8.0,
      Humidity := 40.0 + d.rHum * 40.0,
      Pressure := 1000.0 + d.rPres * 30.0,
      Condition := calculateCondition current d.kCond,
      WindSpeed := d.rWind * 20.0,
      WindDir := calculateWindDirection current d.kDir,
      Timestamp := now + ((i : Int) + 1) * (24 * Hour) }
      :: forecastFrom current baseTemp now (i + 1) rest

/-- The forecast for `draws.length` days. `baseTemp` is `calculateBaseTemperature(12)`,
taken as an input. The result is the series, with the service's snapshot and the store
after the call. -/
def GetForecast (current : WeatherData) (s : MemoryStore) (baseTemp : Float64)
    (draws : List EntryDraws) (now : Time) : List WeatherData × WeatherData × MemoryStore :=
  (forecastFrom current baseTemp now 0 draws, current, s)

/-- The loop of `GetWeatherHistory` from hour `i` on; `hours` is the length of the whole
series and `base` gives `calculateBaseTemperature(pastTime.Hour())` from `pastTime`. -/
def historyFrom (current : WeatherData) (base : Time → Float64) (now : Time) (hours : Nat) :
    Nat → List EntryDraws → List WeatherData
  | _, [] => []
  | i, d :: rest =>
    let pastTime := now - ((hours : Int) - (i : Int)) * Hour
    { Temperature := base pastTime + (d.rTemp - 0.5) * 6.0,
      Humidity := 45.0 + d.rHum * 35.0,
      Pressure := 1005.0 + d.rPres * 25.0,
      Condition := calculateCondition current d.kCond,
      WindSpeed := d.rWind * 15.0,
      WindDir := calculateWindDirection current d.kDir,
      Timestamp := pastTime }
      :: historyFrom current base now hours (i + 1) rest

/-- The history of the last `draws.length` hours, with the service's snapshot and the
store after the call. -/
def GetWeatherHistory (current : WeatherData) (s : MemoryStore) (base : Time → Float64)
    (draws : List EntryDraws) (now : Time) : List WeatherData × WeatherData × MemoryStore :=
  (historyFrom current base now draws.length 0 draws, current, s)

def IsExtremeWeather (current : WeatherData) : Bool :=
  decide (current.Temperature < 0.0) || decide (current.Temperature > 35.0)
    || decide (current.WindSpeed > 20.0) || decide (current.Condition = "stormy")
    || decide (current.Pressure < 990.0)

end WeatherService

/-! ## The debug scenarios (`handlers/handlers.go`) -/

namespace Handler

/-- The store effect of the `device_failure` branch of `TriggerScenario`. The value of
the `status` key is the constant `models.DeviceStatusOffline`, of type `DeviceStatus`. -/
def TriggerDeviceFailure (s : MemoryStore) (now : Time) : MemoryStore :=
  let devices := DeviceService.ListDevices s
  match devices with
  | device :: _ =>
    (DeviceService.UpdateDevice s device.ID
      [("status", .deviceStatus DeviceStatusOffline)] now).1
  | [] => s

end Handler

/-! ## Further sample data -/

/-- A live snapshot with the wind direction of the initial one and another pressure and
humidity. -/
def lowPressureWeather : WeatherData :=
  { WeatherService.initialWeather 1000 with Pressure := 985, Humidity := 85 }

/-- One entry's draws: every float draw 0.5, both index draws 1. -/
def middleDraws : EntryDraws :=
  { rTemp := 0.5, rHum := 0.5, rPres := 0.5, kCond := 1, rWind := 0.5, kDir := 1 }

/-- A light attribute map whose brightness is the float 150. -/
def floatBrightProperties : GoMap Value := [("brightness", .float 150), ("power", .bool true)]

/-- A light attribute map whose brightness is the integer 150. -/
def intBrightProperties : GoMap Value := [("brightness", .int 150), ("power", .bool true)]

/-- A `set_brightness` task without a brightness parameter, as the store holds it. -/
def bareDimTask : ScheduledTask :=
  { ID := "task_bare_dim", Name := "Dim", DeviceID := "light_001",
    Action := "set_brightness", Parameters := [("level", .float 40)],
    Schedule := "hourly", Enabled := true, NextRun := 0, LastRun := 0, CreatedAt := 1700 }

/-- The sample store with the bare dim task added. -/
def bareDimStore : MemoryStore :=
  (sampleStore.AddTask { bareDimTask with CreatedAt := 0 } 1700).1

/-- The thermostat store (current 20, target 22) on a day with ambient temperature 10. -/
def coldDayStore : MemoryStore :=
  thermostatStore.UpdateWeather { WeatherData.zero with Temperature := 10 } 1300

/-! ## Simultaneous `AddDevice` calls (`storage/memory_store.go`) -/

/-- Where a goroutine that runs `AddDevice` stands: before `s.mu.Lock()`, before each
statement of the body, before the deferred `s.mu.Unlock()` (with the error the body
returns), and after the return. -/
inductive AddPC where
  | lock
  | check
  | stampCreated
  | stampUpdated
  | insert
  | event
  | unlock (err : Option StoreError)
  | done (err : Option StoreError)

/-- The goroutine holds the lock: it stands between `Lock` and the deferred `Unlock`. -/
def AddPC.inCS : AddPC → Bool
  | .lock => false
  | .done _ => false
  | _ => true

/-- The goroutine has written its device into the map. -/
def AddPC.inserted : AddPC → Bool
  | .event => true
  | .unlock none => true
  | .done none => true
  | _ => false

/-- The goroutine took the `already exists` branch. -/
def AddPC.failed : AddPC → Bool
  | .unlock (some _) => true
  | .done (some _) => true
  | _ => false

/-- The call has returned. -/
def AddPC.isDone : AddPC → Bool
  | .done _ => true
  | _ => false

/-- One `AddDevice` call in flight: the device object the caller passed (the body stamps
it), the clock reading of the call, and where the goroutine stands. -/
structure AddCall where
  device : Device
  now : Time
  pc : AddPC

/-- The store, its mutex, and the calls in flight. -/
structure AddState where
  store : MemoryStore
  locked : Bool
  calls : List AddCall

/-- One statement of `AddDevice`, run by the goroutine of call `c`; `none` when the
goroutine cannot move: it waits for the lock, or it has returned. -/
def AddCall.step (store : MemoryStore) (locked : Bool) (c : AddCall) :
    Option (MemoryStore × Bool × AddCall) :=
  match c.pc with
  | .lock => if locked then none else some (store, true, { c with pc := .check })
  | .check =>
    match store.devices.get? c.device.ID with
    | some _ =>
      some (store, locked, { c with pc := .unlock (some (.deviceExists c.device.ID)) })
    | none => some (store, locked, { c with pc := .stampCreated })
  | .stampCreated =>
    some (store, locked,
      { c with device := { c.device with CreatedAt := c.now }, pc := .stampUpdated })
  | .stampUpdated =>
    some (store, locked,
      { c with device := { c.device with LastUpdated := c.now }, pc := .insert })
  | .insert =>
    some ({ store with devices := store.devices.set c.device.ID c.device }, locked,
      { c with pc := .event })
  | .event =>
    some (store.addSystemEvent "device_added" "storage"
        ("Device " ++ c.device.Name ++ " added")
        [("device_id", .str c.device.ID), ("device_type", .deviceType c.device.Typ)] c.now,
      locked, { c with pc := .unlock none })
  | .unlock err => some (store, false, { c with pc := .done err })
  | .done _ => none

/-- The scheduler lets the goroutine of call number `i` run one statement. -/
def AddState.step (st : AddState) (i : Nat) : Option AddState :=
  match st.calls.get? i with
  | none => none
  | some c =>
    match c.step st.store st.locked with
    | none => none
    | some (store, locked, c') =>
      some { store := store, locked := locked, calls := st.calls.set i c' }

/-- An interleaving: the goroutines run one statement each in the order of `schedule`;
`none` when the schedule names a goroutine that cannot move. -/
def runSchedule : List Nat → AddState → Option AddState
  | [], st => some st
  | i :: rest, st =>
    match st.step i with
    | none => none
    | some st' => runSchedule rest st'

/-- The state in which the calls of `calls` (each a device and the clock reading of its
call) have all been issued and none has run yet. -/
def startAdds (s : MemoryStore) (calls : List (Device × Time)) : AddState :=
  { store := s, locked := false,
    calls := calls.map (fun c => { device := c.1, now := c.2, pc := .lock }) }

/-- Every call has returned. -/
def AddState.allDone (st : AddState) : Bool := st.calls.all (fun c => c.pc.isDone)

/-- The errors the calls returned, in the order of the calls; `none` for a call that
has not returned or returned `nil`. -/
def AddState.errors (st : AddState) : List (Option StoreError) :=
  st.calls.map (fun c => match c.pc with | .done err => err | _ => none)

/-- What holds of every state the calls can reach from the store `s0` when their ids are
pairwise distinct and new to `s0`: no call has failed, the lock is held exactly when one
call stands inside the body, a call's device is in the map exactly when the call has
passed its insert, the map has grown by the number of such calls, and the devices of
`s0` are kept. -/
def AddInv (s0 : MemoryStore) (st : AddState) : Prop :=
  (st.calls.map (fun c => c.device.ID)).Nodup
  ∧ (∀ c ∈ st.calls, c.pc.failed = false)
  ∧ (st.calls.filter (fun c => c.pc.inCS)).length = (if st.locked then 1 else 0)
  ∧ (∀ c ∈ st.calls, c.pc.inserted = false → st.store.devices.get? c.device.ID = none)
  ∧ (∀ c ∈ st.calls, c.pc.inserted = true →
      st.store.devices.get? c.device.ID = some c.device)
  ∧ st.store.devices.length
      = s0.devices.length + (st.calls.filter (fun c => c.pc.inserted)).length
  ∧ (∀ k d, s0.devices.get? k = some d → st.store.devices.get? k = some d)

/-- An upper bound on the statements a goroutine has still to run. -/
def AddPC.remaining : AddPC → Nat
  | .lock => 7
  | .check => 6
  | .stampCreated => 5
  | .stampUpdated => 4
  | .insert => 3
  | .event => 2
  | .unlock _ => 1
  | .done _ => 0

/-- An upper bound on the statements the calls in flight have still to run. -/
def AddState.remaining (st : AddState) : Nat :=
  (st.calls.map (fun c => c.pc.remaining)).sum

/-- Two simultaneous calls with new ids. -/
def twoAdds : List (Device × Time) := [(sampleThermostat, 2000), (sampleLight2, 2001)]

/-- The goroutine of the second call takes the lock first and runs to its return, then
the goroutine of the first call does. -/
def twoAddsSchedule : List Nat := [1, 1, 1, 1, 1, 1, 1, 0, 0, 0, 0, 0, 0, 0]

/-- The state `twoAddsSchedule` ends in. -/
def twoAddsFinal : AddState :=
  { store := ((sampleStore.AddDevice sampleLight2 2001).1.AddDevice sampleThermostat 2000).1,
    locked := false,
    calls :=
      [{ device := { sampleThermostat with CreatedAt := 2000, LastUpdated := 2000 },
         now := 2000, pc := .done none },
       { device := { sampleLight2 with CreatedAt := 2001, LastUpdated := 2001 },
         now := 2001, pc := .done none }] }

/-- Two simultaneous calls with distinct ids, the first of which is already stored. -/
def staleAdds : List (Device × Time) := [(sampleLight, 2000), (sampleLight2, 2001)]

/-- The second call runs to its return, then the first call takes the lock, finds its id
and returns. -/
def staleAddsSchedule : List Nat := [1, 1, 1, 1, 1, 1, 1, 0, 0, 0]

/-- The state `staleAddsSchedule` ends in. -/
def staleAddsFinal : AddState :=
  { store := (sampleStore.AddDevice sampleLight2 2001).1,
    locked := false,
    calls :=
      [{ device := sampleLight, now := 2000, pc := .done (some (.deviceExists "light_001")) },
       { device := { sampleLight2 with CreatedAt := 2001, LastUpdated := 2001 },
         now := 2001, pc := .done none }] }

/-- The goroutine has passed `device.CreatedAt = time.Now()`. -/
def AddPC.createdSet : AddPC → Bool
  | .stampUpdated => true
  | .insert => true
  | .event => true
  | .unlock none => true
  | .done none => true
  | _ => false

/-- The goroutine has passed `device.LastUpdated = time.Now()`. -/
def AddPC.updatedSet : AddPC → Bool
  | .insert => true
  | .event => true
  | .unlock none => true
  | .done none => true
  | _ => false

/-- The device with both time stamps cleared: what `AddDevice` leaves of its argument. -/
def Device.unstamped (d : Device) : Device := { d with CreatedAt := 0, LastUpdated := 0 }

/-- The calls in flight are the calls issued, apart from the stamps the body has set so
far. -/
def AddStamped (calls : List (Device × Time)) (st : AddState) : Prop :=
  st.calls.map (fun c => (c.device.unstamped, c.now))
    = calls.map (fun o => (o.1.unstamped, o.2))
  ∧ ∀ c ∈ st.calls, (c.pc.createdSet = true → c.device.CreatedAt = c.now)
      ∧ (c.pc.updatedSet = true → c.device.LastUpdated = c.now)

/-- A thermostat with the readings the numbers 0.1 and 1.1 of a JSON body decode to. -/
def tenthThermostat : Device :=
  { sampleThermostat with
    Properties := [("temperature", .float (roundBinary64 0.1)),
      ("target_temp", .float (roundBinary64 1.1)), ("mode", .str "auto")] }

/-- The thermostat `tenthThermostat` as the store holds it after `AddDevice` at time 1100. -/
def storedTenthThermostat : Device :=
  { tenthThermostat with CreatedAt := 1100, LastUpdated := 1100 }

/-- The sample store with `tenthThermostat` and the ambient temperature of its reading. -/
def tenthStore : MemoryStore :=
  let s := (sampleStore.AddDevice tenthThermostat 1100).1
  s.UpdateWeather { WeatherData.zero with Temperature := roundBinary64 0.1 } 1200

/-- A thermostat at `2^53` with the target `2^53 + 2`, the next binary64 number. -/
def wideThermostat : Device :=
  { sampleThermostat with
    Properties := [("temperature", .float 9007199254740992),
      ("target_temp", .float 9007199254740994), ("mode", .str "auto")] }

/-- The thermostat `wideThermostat` as the store holds it after `AddDevice` at time 1100. -/
def storedWideThermostat : Device :=
  { wideThermostat with CreatedAt := 1100, LastUpdated := 1100 }

/-- The sample store with `wideThermostat` and the ambient temperature of its reading. -/
def wideStore : MemoryStore :=
  let s := (sampleStore.AddDevice wideThermostat 1100).1
  s.UpdateWeather { WeatherData.zero with Temperature := 9007199254740992 } 1200

/-- The smallest positive binary64 number, `2^-1074`. -/
def minSubnormal : Float64 := 2 ^ (-1074 : Int)

/-- A thermostat at 0 with target 22. -/
def zeroThermostat : Device :=
  { sampleThermostat with
    Properties := [("temperature", .float 0), ("target_temp", .float 22),
      ("mode", .str "auto")] }

/-- The thermostat `zeroThermostat` as the store holds it after `AddDevice` at time 1100. -/
def storedZeroThermostat : Device :=
  { zeroThermostat with CreatedAt := 1100, LastUpdated := 1100 }

/-- The sample store with `zeroThermostat` under the smallest positive ambient
temperature. -/
def underflowStore : MemoryStore :=
  let s := (sampleStore.AddDevice zeroThermostat 1100).1
  s.UpdateWeather { WeatherData.zero with Temperature := minSubnormal } 1200

/-! ## Lemmas on bounded logs -/

theorem lastN_length {α : Type} (n : Nat) (xs : List α) :
    (lastN n xs).length = min xs.length n := by
  simp only [lastN, List.length_drop]
  omega

theorem lastN_of_length_le {α : Type} (n : Nat) (xs : List α) (h : xs.length ≤ n) :
    lastN n xs = xs := by
  simp [lastN, Nat.sub_eq_zero_of_le h]

/-- Appending to a log that was already cut to its last `n` entries and cutting again
is the same as cutting the uncut log after the append. -/
theorem lastN_append_lastN {α : Type} (n : Nat) (xs ys : List α) :
    lastN n (lastN n xs ++ ys) = lastN n (xs ++ ys) := by
  simp only [lastN, List.length_append, List.length_drop]
  by_cases h : xs.length ≤ n
  · simp [Nat.sub_eq_zero_of_le h]
  · have hlt : n < xs.length := Nat.lt_of_not_le h
    rw [List.drop_append_eq_append_drop, List.drop_append_eq_append_drop, List.drop_drop]
    simp only [List.length_drop]
    congr 2 <;> omega

theorem AddEnergyUsage_energyUsage (s : MemoryStore) (usage : EnergyUsage) :
    (s.AddEnergyUsage usage).energyUsage = lastN 1000 (s.energyUsage ++ [usage]) := by
  unfold MemoryStore.AddEnergyUsage
  by_cases h : (s.energyUsage ++ [usage]).length > 1000
  · simp only [h, if_true]
  · simp only [h, if_false]
    exact (lastN_of_length_le _ _ (Nat.le_of_not_lt h)).symm

theorem foldl_AddEnergyUsage_energyUsage (s : MemoryStore) (rs : List EnergyUsage)
    (hs : s.energyUsage.length ≤ 1000) :
    (rs.foldl MemoryStore.AddEnergyUsage s).energyUsage = lastN 1000 (s.energyUsage ++ rs) := by
  induction rs using List.reverseRecOn with
  | nil => simp [lastN_of_length_le _ _ hs]
  | append_singleton rs r ih =>
    rw [List.foldl_append, List.foldl_cons, List.foldl_nil, AddEnergyUsage_energyUsage, ih,
      lastN_append_lastN, List.append_assoc]

/-! ## Lemmas on the event log -/

theorem AddSystemEvent_systemEvents (s : MemoryStore) (event : SystemEvent) :
    (s.AddSystemEvent event).systemEvents = lastN 500 (s.systemEvents ++ [event]) := by
  unfold MemoryStore.AddSystemEvent
  by_cases h : (s.systemEvents ++ [event]).length > 500
  · simp only [h, if_true]
  · simp only [h, if_false]
    exact (lastN_of_length_le _ _ (Nat.le_of_not_lt h)).symm

theorem addSystemEvent_eq (s : MemoryStore) (eventType source message : String)
    (data : GoMap Value) (now : Time) :
    s.addSystemEvent eventType source message data now
      = s.AddSystemEvent (MemoryStore.storageEvent eventType source message data now) := rfl

theorem addSystemEvent_systemEvents (s : MemoryStore) (eventType source message : String)
    (data : GoMap Value) (now : Time) :
    (s.addSystemEvent eventType source message data now).systemEvents
      = lastN 500 (s.systemEvents
          ++ [MemoryStore.storageEvent eventType source message data now]) := by
  rw [addSystemEvent_eq, AddSystemEvent_systemEvents]

/-- Every operation leaves the log equal to the old log followed by what the operation
emitted, cut to the newest 500 entries. -/
theorem apply_systemEvents (s : MemoryStore) (op : StoreOp)
    (hs : s.systemEvents.length ≤ 500) :
    (op.apply s).systemEvents = lastN 500 (s.systemEvents ++ op.emitted s) := by
  cases op with
  | AddDevice device now =>
    simp only [StoreOp.apply, StoreOp.emitted, MemoryStore.AddDevice]
    cases h : s.devices.get? device.ID with
    | some d => simp [lastN_of_length_le _ _ hs]
    | none => simp [addSystemEvent_systemEvents]
  | UpdateDevice id updates now =>
    simp only [StoreOp.apply, StoreOp.emitted, MemoryStore.UpdateDevice]
    cases h : s.devices.get? id with
    | none => simp [lastN_of_length_le _ _ hs]
    | some d => simp [addSystemEvent_systemEvents]
  | DeleteDevice id now =>
    simp only [StoreOp.apply, StoreOp.emitted, MemoryStore.DeleteDevice]
    cases h : s.devices.get? id with
    | none => simp [lastN_of_length_le _ _ hs]
    | some d => simp [addSystemEvent_systemEvents]
  | UpdateWeather weather now =>
    simp [StoreOp.apply, StoreOp.emitted, MemoryStore.UpdateWeather, addSystemEvent_systemEvents]
  | UpdateSecurity security now =>
    simp [StoreOp.apply, StoreOp.emitted, MemoryStore.UpdateSecurity,
      addSystemEvent_systemEvents]
  | AddTask task now =>
    simp only [StoreOp.apply, StoreOp.emitted, MemoryStore.AddTask]
    cases h : s.tasks.get? task.ID with
    | some d => simp [lastN_of_length_le _ _ hs]
    | none => simp [addSystemEvent_systemEvents]
  | AddSystemEvent event =>
    simp [StoreOp.apply, StoreOp.emitted, AddSystemEvent_systemEvents]
  | UpdateTask id updates =>
    simp only [StoreOp.apply, StoreOp.emitted, MemoryStore.UpdateTask]
    cases h : s.tasks.get? id with
    | none => simp [lastN_of_length_le _ _ hs]
    | some d => simp [lastN_of_length_le _ _ hs]
  | AddEnergyUsage usage =>
    simp only [StoreOp.apply, StoreOp.emitted, MemoryStore.AddEnergyUsage]
    split <;> simp [lastN_of_length_le _ _ hs]

theorem apply_systemEvents_length (s : MemoryStore) (op : StoreOp)
    (hs : s.systemEvents.length ≤ 500) : (op.apply s).systemEvents.length ≤ 500 := by
  rw [apply_systemEvents s op hs, lastN_length]
  omega

theorem runOps_systemEvents (s : MemoryStore) (ops : List StoreOp)
    (hs : s.systemEvents.length ≤ 500) :
    (runOps s ops).systemEvents = lastN 500 (s.systemEvents ++ emittedBy s ops) := by
  induction ops generalizing s with
  | nil => simp [runOps, emittedBy, lastN_of_length_le _ _ hs]
  | cons op ops ih =>
    have h1 := ih (op.apply s) (apply_systemEvents_length s op hs)
    simp only [runOps, List.foldl_cons] at h1 ⊢
    rw [h1, apply_systemEvents s op hs, lastN_append_lastN, emittedBy, List.append_assoc]

theorem lastN_append_singleton (log : List SystemEvent) (e : SystemEvent)
    (h : log.length ≤ 500) : lastN 500 (log ++ [e]) = logAfterAppend log e := by
  unfold logAfterAppend
  by_cases h500 : log.length = 500
  · simp only [h500, if_true, lastN, List.length_append, List.length_singleton]
    rw [List.drop_append_of_le_length (by omega)]
  · simp only [h500, if_false]
    exact lastN_of_length_le _ _ (by simp; omega)

theorem addSystemEvent_appendsOne (s s₀ : MemoryStore) (eventType source message : String)
    (data : GoMap Value) (now : Time) (hlog : s.systemEvents = s₀.systemEvents)
    (h : s₀.systemEvents.length ≤ 500) :
    AppendsOneEvent s₀ (s.addSystemEvent eventType source message data now) eventType := by
  refine ⟨MemoryStore.storageEvent eventType source message data now, rfl, ?_⟩
  rw [addSystemEvent_systemEvents, hlog, lastN_append_singleton _ _ h]

/-! ## Lemmas on maps and on the update loops -/

theorem get?_set_self {V : Type} (m : GoMap V) (k : String) (v : V) :
    (m.set k v).get? k = some v := by
  induction m with
  | nil => simp [GoMap.set, GoMap.get?]
  | cons p m ih =>
    obtain ⟨k', v'⟩ := p
    by_cases h : k' = k <;> simp [GoMap.set, GoMap.get?, h, ih]

theorem get?_set_of_ne {V : Type} (m : GoMap V) (k k' : String) (v : V) (h : k' ≠ k) :
    (m.set k v).get? k' = m.get? k' := by
  induction m with
  | nil => simp [GoMap.set, GoMap.get?, h.symm]
  | cons p m ih =>
    obtain ⟨k0, v0⟩ := p
    by_cases h0 : k0 = k
    · subst h0
      simp [GoMap.set, GoMap.get?, h.symm]
    · by_cases h1 : k0 = k'
      · subst h1; simp [GoMap.set, GoMap.get?, h0]
      · simp [GoMap.set, GoMap.get?, h0, h1, ih]

theorem applyDeviceUpdate_name (d : Device) (v : Value) :
    MemoryStore.applyDeviceUpdate d "name" v
      = match v.asString with
        | some name => { d with Name := name }
        | none => d := by
  rfl

theorem applyDeviceUpdate_other (d : Device) (k : String) (v : Value)
    (h1 : k ≠ "name") (h2 : k ≠ "status") (h3 : k ≠ "location") :
    MemoryStore.applyDeviceUpdate d k v = { d with Properties := d.Properties.set k v } := by
  unfold MemoryStore.applyDeviceUpdate
  split <;> simp_all

theorem get?_eq_none_of_not_mem_keys {V : Type} (m : GoMap V) (k : String)
    (h : k ∉ GoMap.keys m) : m.get? k = none := by
  induction m with
  | nil => rfl
  | cons p m ih =>
    obtain ⟨k0, v0⟩ := p
    simp only [GoMap.keys, List.map_cons, List.mem_cons, not_or] at h
    simp only [GoMap.get?]
    rw [if_neg (fun h' => h.1 h'.symm)]
    exact ih h.2

theorem applyDeviceUpdate_status (d : Device) (v : Value) :
    MemoryStore.applyDeviceUpdate d "status" v
      = match v.asString with
        | some x => { d with Status := x }
        | none => d := by
  rfl

theorem applyDeviceUpdate_location (d : Device) (v : Value) :
    MemoryStore.applyDeviceUpdate d "location" v
      = match v.asString with
        | some x => { d with Location := x }
        | none => d := by
  rfl

/-- What one loop iteration does to each part of the device. -/
theorem applyDeviceUpdate_fields (d : Device) (k : String) (v : Value) :
    let d' := MemoryStore.applyDeviceUpdate d k v
    d'.ID = d.ID ∧ d'.Typ = d.Typ ∧ d'.CreatedAt = d.CreatedAt ∧ d'.LastUpdated = d.LastUpdated
    ∧ d'.Name = (if k = "name" then (v.asString).getD d.Name else d.Name)
    ∧ d'.Status = (if k = "status" then (v.asString).getD d.Status else d.Status)
    ∧ d'.Location = (if k = "location" then (v.asString).getD d.Location else d.Location)
    ∧ d'.Properties = (if k = "name" ∨ k = "status" ∨ k = "location" then d.Properties
        else d.Properties.set k v) := by
  by_cases h1 : k = "name"
  · subst h1
    rw [applyDeviceUpdate_name]
    cases v.asString <;> simp
  · by_cases h2 : k = "status"
    · subst h2
      rw [applyDeviceUpdate_status]
      cases v.asString <;> simp
    · by_cases h3 : k = "location"
      · subst h3
        rw [applyDeviceUpdate_location]
        cases v.asString <;> simp
      · rw [applyDeviceUpdate_other d k v h1 h2 h3]
        simp [h1, h2, h3]

theorem step_properties_get? (d : Device) (k0 k : String) (v0 : Value) (hne : k0 ≠ k) :
    (MemoryStore.applyDeviceUpdate d k0 v0).Properties.get? k = d.Properties.get? k := by
  rw [(applyDeviceUpdate_fields d k0 v0).2.2.2.2.2.2.2]
  split
  · rfl
  · exact get?_set_of_ne _ _ _ _ (Ne.symm hne)

/-- What the whole `range updates` loop of `UpdateDevice` does to a device, for an
update map with unique keys. -/
theorem foldl_applyDeviceUpdate (updates : GoMap Value) (d : Device)
    (h : (GoMap.keys updates).Nodup) :
    let d' := updates.foldl (fun d kv => MemoryStore.applyDeviceUpdate d kv.1 kv.2) d
    d'.ID = d.ID ∧ d'.Typ = d.Typ ∧ d'.CreatedAt = d.CreatedAt ∧ d'.LastUpdated = d.LastUpdated
    ∧ d'.Name = ((updates.get? "name").bind Value.asString).getD d.Name
    ∧ d'.Status = ((updates.get? "status").bind Value.asString).getD d.Status
    ∧ d'.Location = ((updates.get? "location").bind Value.asString).getD d.Location
    ∧ (∀ k v, ¬ isFieldKey k → updates.get? k = some v → d'.Properties.get? k = some v)
    ∧ (∀ k, updates.get? k = none ∨ isFieldKey k →
        d'.Properties.get? k = d.Properties.get? k) := by
  induction updates generalizing d with
  | nil => simp [GoMap.get?]
  | cons p rest ih =>
    obtain ⟨k0, v0⟩ := p
    have hn : k0 ∉ GoMap.keys rest ∧ (GoMap.keys rest).Nodup := by simpa [GoMap.keys] using h
    have hrest := get?_eq_none_of_not_mem_keys rest k0 hn.1
    obtain ⟨f1, f2, f3, f4, f5, f6, f7, f8⟩ := applyDeviceUpdate_fields d k0 v0
    obtain ⟨i1, i2, i3, i4, i5, i6, i7, i8, i9⟩ :=
      ih (MemoryStore.applyDeviceUpdate d k0 v0) hn.2
    simp only [List.foldl_cons]
    refine ⟨i1.trans f1, i2.trans f2, i3.trans f3, i4.trans f4, ?_, ?_, ?_, ?_, ?_⟩
    · rw [i5, f5]
      by_cases hk : k0 = "name"
      · subst hk; simp [GoMap.get?, hrest]
      · simp [GoMap.get?, hk]
    · rw [i6, f6]
      by_cases hk : k0 = "status"
      · subst hk; simp [GoMap.get?, hrest]
      · simp [GoMap.get?, hk]
    · rw [i7, f7]
      by_cases hk : k0 = "location"
      · subst hk; simp [GoMap.get?, hrest]
      · simp [GoMap.get?, hk]
    · intro k v hk hget
      by_cases hk0 : k0 = k
      · subst hk0
        simp only [GoMap.get?, if_true, Option.some.injEq] at hget
        subst hget
        rw [i9 k0 (Or.inl hrest), f8,
          if_neg (show ¬(k0 = "name" ∨ k0 = "status" ∨ k0 = "location") from hk)]
        exact get?_set_self _ _ _
      · simp only [GoMap.get?, if_neg hk0] at hget
        exact i8 k v hk hget
    · intro k hk
      have hrestk : GoMap.get? rest k = none ∨ isFieldKey k := by
        rcases hk with hk | hk
        · left
          by_cases hk0 : k0 = k
          · simp [GoMap.get?, hk0] at hk
          · simpa [GoMap.get?, hk0] using hk
        · exact Or.inr hk
      rw [i9 k hrestk, f8]
      split
      · rfl
      · rename_i hnf
        apply get?_set_of_ne
        intro hkk
        subst hkk
        rcases hk with hk | hk
        · simp [GoMap.get?] at hk
        · exact hnf hk

theorem addSystemEvent_frame (s : MemoryStore) (eventType source message : String)
    (data : GoMap Value) (now : Time) :
    let s' := s.addSystemEvent eventType source message data now
    s'.devices = s.devices ∧ s'.weather = s.weather ∧ s'.security = s.security
      ∧ s'.tasks = s.tasks ∧ s'.energyUsage = s.energyUsage ∧ s'.startTime = s.startTime := by
  unfold MemoryStore.addSystemEvent
  dsimp only
  split <;> simp

theorem AddSystemEvent_frame (s : MemoryStore) (event : SystemEvent) :
    let s' := s.AddSystemEvent event
    s'.devices = s.devices ∧ s'.weather = s.weather ∧ s'.security = s.security
      ∧ s'.tasks = s.tasks ∧ s'.energyUsage = s.energyUsage ∧ s'.startTime = s.startTime := by
  unfold MemoryStore.AddSystemEvent
  dsimp only
  split <;> simp

/-- The devices map after a successful `UpdateDevice`. -/
theorem UpdateDevice_devices (s : MemoryStore) (id : String) (device : Device)
    (updates : GoMap Value) (now : Time) (hd : s.devices.get? id = some device) :
    (s.UpdateDevice id updates now).2 = none
    ∧ (s.UpdateDevice id updates now).1.devices
        = s.devices.set id
            { updates.foldl (fun d kv => MemoryStore.applyDeviceUpdate d kv.1 kv.2) device with
              LastUpdated := now } := by
  unfold MemoryStore.UpdateDevice
  simp only [hd]
  exact ⟨trivial, (addSystemEvent_frame _ _ _ _ _ _).1⟩

/-- `UpdateDevice` touches nothing but the devices map and the event log. -/
theorem UpdateDevice_frame (s : MemoryStore) (id : String) (updates : GoMap Value)
    (now : Time) :
    let s' := (s.UpdateDevice id updates now).1
    s'.weather = s.weather ∧ s'.security = s.security ∧ s'.tasks = s.tasks
      ∧ s'.energyUsage = s.energyUsage ∧ s'.startTime = s.startTime := by
  unfold MemoryStore.UpdateDevice
  cases h : s.devices.get? id with
  | none => simp
  | some d =>
    exact (addSystemEvent_frame _ _ _ _ _ _).2

theorem applyTaskUpdate_eq (t : ScheduledTask) (k : String) (v : Value) :
    MemoryStore.applyTaskUpdate t k v
      = { t with
          Enabled := if k = "enabled" then (v.asBool).getD t.Enabled else t.Enabled,
          NextRun := if k = "next_run" then (v.asTime).getD t.NextRun else t.NextRun,
          LastRun := if k = "last_run" then (v.asTime).getD t.LastRun else t.LastRun } := by
  by_cases h1 : k = "enabled"
  · subst h1
    show (match v.asBool with
      | some enabled => { t with Enabled := enabled }
      | none => t) = _
    cases v.asBool <;> simp
  · by_cases h2 : k = "next_run"
    · subst h2
      show (match v.asTime with
        | some nextRun => { t with NextRun := nextRun }
        | none => t) = _
      cases v.asTime <;> simp
    · by_cases h3 : k = "last_run"
      · subst h3
        show (match v.asTime with
          | some lastRun => { t with LastRun := lastRun }
          | none => t) = _
        cases v.asTime <;> simp
      · unfold MemoryStore.applyTaskUpdate
        split <;> simp_all

/-- What the whole `range updates` loop of `UpdateTask` does to a task, for an update
map with unique keys. -/
theorem foldl_applyTaskUpdate (updates : GoMap Value) (t : ScheduledTask)
    (h : (GoMap.keys updates).Nodup) :
    updates.foldl (fun t kv => MemoryStore.applyTaskUpdate t kv.1 kv.2) t
      = { t with
          Enabled := ((updates.get? "enabled").bind Value.asBool).getD t.Enabled,
          NextRun := ((updates.get? "next_run").bind Value.asTime).getD t.NextRun,
          LastRun := ((updates.get? "last_run").bind Value.asTime).getD t.LastRun } := by
  induction updates generalizing t with
  | nil => simp [GoMap.get?]
  | cons p rest ih =>
    obtain ⟨k0, v0⟩ := p
    have hn : k0 ∉ GoMap.keys rest ∧ (GoMap.keys rest).Nodup := by simpa [GoMap.keys] using h
    have hrest := get?_eq_none_of_not_mem_keys rest k0 hn.1
    simp only [List.foldl_cons]
    rw [ih _ hn.2, applyTaskUpdate_eq]
    by_cases h1 : k0 = "enabled"
    · subst h1; simp [GoMap.get?, hrest]
    · by_cases h2 : k0 = "next_run"
      · subst h2; simp [GoMap.get?, hrest]
      · by_cases h3 : k0 = "last_run"
        · subst h3; simp [GoMap.get?, hrest]
        · simp [GoMap.get?, h1, h2, h3]

/-! ## Lemmas on the security system -/

theorem UpdateSecurity_security (s : MemoryStore) (security : SecuritySystem) (now : Time) :
    (s.UpdateSecurity security now).security = security := by
  unfold MemoryStore.UpdateSecurity
  exact (addSystemEvent_frame _ _ _ _ _ _).2.2.1

theorem Since_gt_iff (now t : Time) : Since now t > 5 * Minute ↔ now - t > 5 * Minute := by
  unfold Since Sub maxDuration minDuration Minute Second Nanosecond Duration Time at *
  split_ifs <;> omega

theorem foldl_sensorOffline_security (devices : List Device) (s : MemoryStore) (now : Time) :
    (devices.foldl
      (fun s device =>
        if device.Status = DeviceStatusOffline then
          s.AddSystemEvent (Scheduler.sensorOfflineEvent device now)
        else s) s).security = s.security := by
  induction devices generalizing s with
  | nil => rfl
  | cons d ds ih =>
    simp only [List.foldl_cons]
    rw [ih]
    split
    · exact (AddSystemEvent_frame _ _).2.2.1
    · rfl

/-! ## Lemmas on the energy estimate -/

theorem foldl_append_if {α β : Type} (p : α → Prop) [DecidablePred p] (f : α → β)
    (l : List α) (acc : List β) :
    l.foldl (fun acc a => if p a then acc ++ [f a] else acc) acc
      = acc ++ (l.filter (fun a => decide (p a))).map f := by
  induction l generalizing acc with
  | nil => simp
  | cons a l ih =>
    simp only [List.foldl_cons, ih]
    by_cases h : p a <;> simp [h, List.filter_cons]

theorem CalculateEnergyUsage_eq (s : MemoryStore) (now : Time) :
    DeviceService.CalculateEnergyUsage s now
      = (s.ListDevices.filter (fun d => decide (d.Status = DeviceStatusOnline))).map
          (fun d => usageRecord d now) := by
  unfold DeviceService.CalculateEnergyUsage
  have h := foldl_append_if (fun d : Device => d.Status = DeviceStatusOnline)
    (fun d => usageRecord d now) s.ListDevices []
  simpa [usageRecord] using h

theorem match_some_true_of_ne {α : Type} (o : Option Bool) (a b : α) (h : o ≠ some true) :
    (match o with
      | some true => a
      | _ => b) = b := by
  cases o with
  | none => rfl
  | some v =>
    cases v with
    | false => rfl
    | true => exact absurd rfl h

theorem deviceUsage_light (d : Device) (h : d.Typ = DeviceTypeLight) :
    DeviceService.deviceUsage d
      = match (d.Properties.get? "power").bind Value.asBool with
        | some true =>
          match (d.Properties.get? "brightness").bind Value.asInt with
          | some brightness => (brightness : Float64) * 0.001
          | none => 0.05
        | _ => 0 := by
  unfold DeviceService.deviceUsage
  rw [if_pos h]

theorem deviceUsage_table (d : Device) : UsageRule d (DeviceService.deviceUsage d) := by
  unfold UsageRule boolAttr
  refine ⟨?_, ?_, ?_, ?_, ?_⟩
  · intro h
    rw [deviceUsage_light d h]
    refine ⟨?_, ?_, ?_⟩
    · intro hp n hb
      simp [hp, hb, Value.asInt]
    · intro hp hb
      simp [hp, hb]
    · intro hp
      split
      · rename_i h'; exact absurd h' hp
      · rfl
  · intro h
    have hl : d.Typ ≠ DeviceTypeLight := by rw [h]; decide
    unfold DeviceService.deviceUsage
    rw [if_neg hl, if_pos h]
    refine ⟨?_, ?_, ?_⟩
    · intro hc
      simp only [hc]
      norm_num
    · intro hh hc
      simp only [hh, match_some_true_of_ne _ _ _ hc]
      norm_num
    · intro hh hc
      simp only [match_some_true_of_ne _ _ _ hh, match_some_true_of_ne _ _ _ hc]
      norm_num
  · intro h
    have hl : d.Typ ≠ DeviceTypeLight := by rw [h]; decide
    have ht : d.Typ ≠ DeviceTypeThermostat := by rw [h]; decide
    unfold DeviceService.deviceUsage
    rw [if_neg hl, if_neg ht, if_pos h]
    refine ⟨?_, ?_⟩
    · intro hr; simp [hr]
    · intro hr
      split
      · rename_i h'; exact absurd h' hr
      · rfl
  · intro h
    have hl : d.Typ ≠ DeviceTypeLight := by rw [h]; decide
    have ht : d.Typ ≠ DeviceTypeThermostat := by rw [h]; decide
    have hc : d.Typ ≠ DeviceTypeCamera := by rw [h]; decide
    unfold DeviceService.deviceUsage
    rw [if_neg hl, if_neg ht, if_neg hc, if_pos h]
  · intro h
    have hl : d.Typ ≠ DeviceTypeLight := by rw [h]; decide
    have ht : d.Typ ≠ DeviceTypeThermostat := by rw [h]; decide
    have hc : d.Typ ≠ DeviceTypeCamera := by rw [h]; decide
    have hs : d.Typ ≠ DeviceTypeSensor := by rw [h]; decide
    unfold DeviceService.deviceUsage
    rw [if_neg hl, if_neg ht, if_neg hc, if_neg hs, if_pos h]

/-! ## Lemmas on the thermostat tick -/

theorem thermostatStep_nodup (c t : Float64) : (GoMap.keys (thermostatStep c t)).Nodup := by
  unfold thermostatStep
  split_ifs <;> simp [GoMap.keys]

/-! ## Lemmas on the steps that write the security system -/

theorem UpdateTask_frame (s : MemoryStore) (id : String) (updates : GoMap Value) :
    let s' := (s.UpdateTask id updates).1
    s'.devices = s.devices ∧ s'.weather = s.weather ∧ s'.security = s.security
      ∧ s'.energyUsage = s.energyUsage ∧ s'.systemEvents = s.systemEvents
      ∧ s'.startTime = s.startTime := by
  unfold MemoryStore.UpdateTask
  cases h : s.tasks.get? id <;> simp

theorem updateAll_frame (devices : List Device) (s : MemoryStore) (updates : GoMap Value)
    (now : Time) :
    let s' := Scheduler.updateAll s devices updates now
    s'.weather = s.weather ∧ s'.security = s.security ∧ s'.tasks = s.tasks
      ∧ s'.energyUsage = s.energyUsage ∧ s'.startTime = s.startTime := by
  induction devices generalizing s with
  | nil => simp [Scheduler.updateAll]
  | cons d ds ih =>
    have h1 := ih (DeviceService.UpdateDevice s d.ID updates now).1
    have h2 := UpdateDevice_frame s d.ID updates now
    simp only [Scheduler.updateAll, List.foldl_cons, DeviceService.UpdateDevice] at h1 h2 ⊢
    exact ⟨h1.1.trans h2.1, h1.2.1.trans h2.2.1, h1.2.2.1.trans h2.2.2.1,
      h1.2.2.2.1.trans h2.2.2.2.1, h1.2.2.2.2.trans h2.2.2.2.2⟩

theorem executeMorningRoutine_eq (s : MemoryStore) (now : Time) :
    Scheduler.executeMorningRoutine s now
      = ((Scheduler.updateAll
            (Scheduler.updateAll s (DeviceService.GetDevicesByType s DeviceTypeLight)
              [("power", .bool true), ("brightness", .int 80)] now)
            (DeviceService.GetDevicesByType
              (Scheduler.updateAll s (DeviceService.GetDevicesByType s DeviceTypeLight)
                [("power", .bool true), ("brightness", .int 80)] now) DeviceTypeThermostat)
            [("target_temp", .float 22.0)] now).UpdateSecurity
          { s.security with State := SecurityStateDisarmed } now, none) := by
  unfold Scheduler.executeMorningRoutine
  simp only [MemoryStore.GetSecurity]
  rw [show ∀ (s0 : MemoryStore) (ds : List Device) (u : GoMap Value),
      ds.foldl (fun s d => (DeviceService.UpdateDevice s d.ID u now).1) s0
        = Scheduler.updateAll s0 ds u now from fun _ _ _ => rfl]
  rw [show ∀ (s0 : MemoryStore) (ds : List Device) (u : GoMap Value),
      ds.foldl (fun s d => (DeviceService.UpdateDevice s d.ID u now).1) s0
        = Scheduler.updateAll s0 ds u now from fun _ _ _ => rfl]
  rw [(updateAll_frame _ _ _ _).2.1, (updateAll_frame _ _ _ _).2.1]

theorem ArmSecurity_state (s : MemoryStore) (now : Time) :
    (Handler.ArmSecurity s now).security.State = SecurityStateArmed := by
  unfold Handler.ArmSecurity
  simp only [UpdateSecurity_security]

theorem DisarmSecurity_state (s : MemoryStore) (now : Time) :
    (Handler.DisarmSecurity s now).security.State = SecurityStateDisarmed := by
  unfold Handler.DisarmSecurity
  simp only [UpdateSecurity_security]

theorem updateSensor_security (s : MemoryStore) (device : Device) (r1 r2 : Float64)
    (now : Time) :
    (DeviceService.updateSensor s device r1 r2 now).security = s.security
    ∨ (s.security.State = SecurityStateArmed
        ∧ (DeviceService.updateSensor s device r1 r2 now).security.State
            = SecurityStateTriggered) := by
  unfold DeviceService.updateSensor
  split
  · simp only [MemoryStore.GetSecurity]
    rw [(UpdateDevice_frame _ _ _ _).2.1]
    split
    · split
      · rename_i harmed
        right
        exact ⟨harmed, by rw [UpdateSecurity_security]⟩
      · left; rfl
    · left; rfl
  · left; rfl

theorem checkSecurityStatus_security (s : MemoryStore) (now : Time) :
    (Scheduler.checkSecurityStatus s now).security
      = (if s.security.State = SecurityStateTriggered then
          if Since now s.security.LastTriggered > 5 * Minute then
            { s.security with State := SecurityStateArmed }
          else s.security
        else s.security) := by
  unfold Scheduler.checkSecurityStatus
  simp only [MemoryStore.GetSecurity]
  rw [foldl_sensorOffline_security]
  split
  · split
    · rw [(AddSystemEvent_frame _ _).2.2.1, UpdateSecurity_security]
    · rfl
  · rfl

theorem executeAction_security (s s1 : MemoryStore) (task : ScheduledTask) (device : Device)
    (now : Time) (h : Scheduler.executeAction s task device now = some s1) :
    s1.security = s.security
    ∨ s1.security.State = SecurityStateArmed
    ∨ s1.security.State = SecurityStateDisarmed := by
  unfold Scheduler.executeAction at h
  split at h
  · left; cases h; exact (UpdateDevice_frame _ _ _ _).2.1
  · left; cases h; exact (UpdateDevice_frame _ _ _ _).2.1
  · left
    split at h
    · cases h; exact (UpdateDevice_frame _ _ _ _).2.1
    · cases h; rfl
  · left
    split at h
    · cases h; exact (UpdateDevice_frame _ _ _ _).2.1
    · cases h; rfl
  · left; cases h; exact (UpdateDevice_frame _ _ _ _).2.1
  · left; cases h; exact (UpdateDevice_frame _ _ _ _).2.1
  · right; left; cases h; rw [UpdateSecurity_security]
  · right; right; cases h; rw [UpdateSecurity_security]
  · cases h

theorem executeTask_security (s : MemoryStore) (task : ScheduledTask) (now : Time) :
    (Scheduler.executeTask s task now).security = s.security
    ∨ (Scheduler.executeTask s task now).security.State = SecurityStateArmed
    ∨ (Scheduler.executeTask s task now).security.State = SecurityStateDisarmed := by
  unfold Scheduler.executeTask
  split
  · left; rfl
  · split
    · left; rfl
    · rename_i s1 h
      have hsec : ∀ e, (MemoryStore.AddSystemEvent
          (s1.UpdateTask task.ID
            [("last_run", .time now),
             ("next_run", .time (Scheduler.calculateNextRun task.Schedule now))]).1 e).security
          = s1.security := fun e =>
        ((AddSystemEvent_frame _ _).2.2.1).trans (UpdateTask_frame _ _ _).2.2.1
      simp only [hsec]
      exact executeAction_security s s1 task _ now h

theorem executeMorningRoutine_security (s : MemoryStore) (now : Time) :
    (Scheduler.executeMorningRoutine s now).1.security
      = { s.security with State := SecurityStateDisarmed } := by
  rw [executeMorningRoutine_eq, UpdateSecurity_security]

theorem executeEveningRoutine_security (s : MemoryStore) (now : Time) :
    (Scheduler.executeEveningRoutine s now).1.security = s.security := by
  unfold Scheduler.executeEveningRoutine
  simp only [(updateAll_frame _ _ _ _).2.1]

theorem executeAwayMode_security (s : MemoryStore) (now : Time) :
    (Scheduler.executeAwayMode s now).1.security
      = { s.security with State := SecurityStateArmed, LastArmed := now } := by
  unfold Scheduler.executeAwayMode
  simp only [UpdateSecurity_security, MemoryStore.GetSecurity, (updateAll_frame _ _ _ _).2.1]

theorem executeSleepMode_security (s : MemoryStore) (now : Time) :
    (Scheduler.executeSleepMode s now).1.security = s.security := by
  unfold Scheduler.executeSleepMode
  simp only [(updateAll_frame _ _ _ _).2.1]

theorem executeSecurityBreach_security (s : MemoryStore) (now : Time) :
    (Scheduler.executeSecurityBreach s now).1.security
      = { s.security with
          State := SecurityStateTriggered, LastTriggered := now, TriggeredBy := "simulation" } := by
  unfold Scheduler.executeSecurityBreach
  simp only [UpdateSecurity_security, MemoryStore.GetSecurity, (updateAll_frame _ _ _ _).2.1]

theorem scenario_security (s : MemoryStore) (name : String) (now : Time)
    (h : name ≠ "security_breach") :
    (Scheduler.TriggerAutomationScenario s name now).1.security = s.security
    ∨ (Scheduler.TriggerAutomationScenario s name now).1.security.State = SecurityStateArmed
    ∨ (Scheduler.TriggerAutomationScenario s name now).1.security.State
        = SecurityStateDisarmed := by
  unfold Scheduler.TriggerAutomationScenario
  split
  · right; right; rw [executeMorningRoutine_security]
  · left; exact executeEveningRoutine_security s now
  · right; left; rw [executeAwayMode_security]
  · left; exact executeSleepMode_security s now
  · exact absurd rfl h
  · left; rfl

theorem allowed_of_armed_or_disarmed (a b : SecurityState) (hv : validState a)
    (h : b = SecurityStateArmed ∨ b = SecurityStateDisarmed) (hne : b ≠ a) :
    allowedTransition a b := by
  rcases h with h | h
  · rcases hv with hv | hv | hv
    · exact Or.inl ⟨hv, h⟩
    · exact absurd (h.trans hv.symm) hne
    · exact Or.inr (Or.inr (Or.inl ⟨hv, h⟩))
  · exact Or.inr (Or.inr (Or.inr h))

/-! ## Lemmas on the scenario loops -/

theorem UpdateDevice_stepDevices (s : MemoryStore) (id : String) (updates : GoMap Value)
    (now : Time) :
    (s.UpdateDevice id updates now).1.devices = stepDevices updates now s.devices id := by
  unfold stepDevices
  cases h : s.devices.get? id with
  | none => simp [MemoryStore.UpdateDevice, h]
  | some d => exact (UpdateDevice_devices s id d updates now h).2

theorem updateAll_devices (devices : List Device) (s : MemoryStore) (updates : GoMap Value)
    (now : Time) :
    (Scheduler.updateAll s devices updates now).devices
      = devices.foldl (fun m d => stepDevices updates now m d.ID) s.devices := by
  induction devices generalizing s with
  | nil => rfl
  | cons d ds ih =>
    have h := ih (DeviceService.UpdateDevice s d.ID updates now).1
    simp only [Scheduler.updateAll, List.foldl_cons, DeviceService.UpdateDevice] at h ⊢
    rw [h, UpdateDevice_stepDevices]

theorem get?_append_of_not_mem {V : Type} (pre rest : GoMap V) (k : String) (v : V)
    (h : k ∉ GoMap.keys pre) : GoMap.get? (pre ++ (k, v) :: rest) k = some v := by
  induction pre with
  | nil => simp [GoMap.get?]
  | cons p pre ih =>
    obtain ⟨k0, v0⟩ := p
    simp only [GoMap.keys, List.map_cons, List.mem_cons, not_or] at h
    simp only [List.cons_append, GoMap.get?]
    rw [if_neg (fun h' => h.1 h'.symm)]
    exact ih h.2

theorem set_append_of_not_mem {V : Type} (pre rest : GoMap V) (k : String) (v v' : V)
    (h : k ∉ GoMap.keys pre) :
    GoMap.set (pre ++ (k, v) :: rest) k v' = pre ++ (k, v') :: rest := by
  induction pre with
  | nil => simp [GoMap.set]
  | cons p pre ih =>
    obtain ⟨k0, v0⟩ := p
    simp only [GoMap.keys, List.map_cons, List.mem_cons, not_or] at h
    simp only [List.cons_append, GoMap.set]
    rw [if_neg (fun h' => h.1 h'.symm)]
    exact congrArg (fun m => (k0, v0) :: m) (ih h.2)

/-- The scenario loop over the devices of one type, on a map whose ids are unique and
match the stored devices: each entry of that type is touched once, in place. -/
theorem foldl_stepDevices (ty : DeviceType) (updates : GoMap Value) (now : Time)
    (suf pre : GoMap Device)
    (hnd : (GoMap.keys (pre ++ suf)).Nodup) (hid : ∀ p ∈ suf, p.2.ID = p.1) :
    ((GoMap.values suf).filter (fun d => decide (d.Typ = ty))).foldl
        (fun m d => stepDevices updates now m d.ID) (pre ++ suf)
      = pre ++ suf.map (touchType ty updates now) := by
  induction suf generalizing pre with
  | nil => simp [GoMap.values]
  | cons p rest ih =>
    obtain ⟨k, d⟩ := p
    have hk : d.ID = k := hid (k, d) (List.mem_cons_self _ _)
    have hpre : k ∉ GoMap.keys pre := by
      intro hmem
      simp only [GoMap.keys, List.map_append, List.map_cons] at hnd hmem
      have := (List.nodup_append.1 hnd).2.2 hmem (List.mem_cons_self _ _)
      exact this
    have hid' : ∀ p ∈ rest, p.2.ID = p.1 := fun p hp => hid p (List.mem_cons_of_mem _ hp)
    have hnd' : ∀ d' : Device, (GoMap.keys ((pre ++ [(k, d')]) ++ rest)).Nodup := by
      intro d'
      simpa [GoMap.keys] using hnd
    by_cases hty : d.Typ = ty
    · have hstep : stepDevices updates now (pre ++ (k, d) :: rest) d.ID
          = (pre ++ [(k, touchDevice updates now d)]) ++ rest := by
        unfold stepDevices
        rw [hk, get?_append_of_not_mem pre rest k d hpre]
        simp only [set_append_of_not_mem pre rest k d _ hpre, List.append_assoc,
          List.singleton_append]
      simp only [GoMap.values, List.map_cons, List.filter_cons, hty, decide_True, if_true,
        List.foldl_cons]
      rw [hstep]
      have := ih (pre ++ [(k, touchDevice updates now d)]) (hnd' _) hid'
      simp only [GoMap.values] at this
      rw [this]
      simp [touchType, hty]
    · simp only [GoMap.values, List.map_cons, List.filter_cons, hty, decide_False,
        Bool.false_eq_true, if_false]
      have := ih (pre ++ [(k, d)]) (hnd' _) hid'
      simp only [GoMap.values, List.append_assoc, List.singleton_append] at this
      rw [this]
      simp [touchType, hty]

theorem updateAll_byType_devices (s : MemoryStore) (ty : DeviceType) (updates : GoMap Value)
    (now : Time) (hwf : WellFormed s) :
    (Scheduler.updateAll s (DeviceService.GetDevicesByType s ty) updates now).devices
      = s.devices.map (touchType ty updates now) := by
  rw [updateAll_devices]
  have h := foldl_stepDevices ty updates now s.devices [] (by simpa using hwf.1) hwf.2
  simpa [DeviceService.GetDevicesByType, MemoryStore.ListDevices] using h

theorem touchType_eq (ty : DeviceType) (updates : GoMap Value) (now : Time)
    (p : String × Device) :
    touchType ty updates now p = (p.1, touchIf ty updates now p.2) := rfl

theorem touchDevice_ID (updates : GoMap Value) (now : Time) (d : Device) :
    (touchDevice updates now d).ID = d.ID ∧ (touchDevice updates now d).Typ = d.Typ := by
  have h : ∀ (us : GoMap Value) (d : Device),
      (us.foldl (fun d kv => MemoryStore.applyDeviceUpdate d kv.1 kv.2) d).ID = d.ID
      ∧ (us.foldl (fun d kv => MemoryStore.applyDeviceUpdate d kv.1 kv.2) d).Typ = d.Typ := by
    intro us
    induction us with
    | nil => intro d; exact ⟨rfl, rfl⟩
    | cons kv us ih =>
      intro d
      obtain ⟨f1, f2, _⟩ := applyDeviceUpdate_fields d kv.1 kv.2
      obtain ⟨i1, i2⟩ := ih (MemoryStore.applyDeviceUpdate d kv.1 kv.2)
      exact ⟨i1.trans f1, i2.trans f2⟩
  exact h updates d

theorem touchIf_ID (ty : DeviceType) (updates : GoMap Value) (now : Time) (d : Device) :
    (touchIf ty updates now d).ID = d.ID ∧ (touchIf ty updates now d).Typ = d.Typ := by
  unfold touchIf
  split
  · exact touchDevice_ID updates now d
  · exact ⟨rfl, rfl⟩

theorem keys_map_touchType (ty : DeviceType) (updates : GoMap Value) (now : Time)
    (m : GoMap Device) : GoMap.keys (m.map (touchType ty updates now)) = GoMap.keys m := by
  simp [GoMap.keys, List.map_map, Function.comp_def, touchType]

theorem get?_map_touchType (ty : DeviceType) (updates : GoMap Value) (now : Time)
    (m : GoMap Device) (id : String) :
    GoMap.get? (m.map (touchType ty updates now)) id
      = (GoMap.get? m id).map (touchIf ty updates now) := by
  induction m with
  | nil => rfl
  | cons p m ih =>
    obtain ⟨k, d⟩ := p
    simp only [List.map_cons, touchType_eq, GoMap.get?]
    by_cases h : k = id
    · simp [h, touchIf]
    · simp [h, ih]

theorem WellFormed_of_devices_eq (s s' : MemoryStore) (ty : DeviceType)
    (updates : GoMap Value) (now : Time) (hwf : WellFormed s)
    (h : s'.devices = s.devices.map (touchType ty updates now)) : WellFormed s' := by
  constructor
  · rw [h, keys_map_touchType]; exact hwf.1
  · intro p hp
    rw [h] at hp
    obtain ⟨q, hq, rfl⟩ := List.mem_map.1 hp
    rw [touchType_eq]
    exact (touchIf_ID ty updates now q.2).1.trans (hwf.2 q hq)

theorem get?_of_mem_nodup {V : Type} (m : GoMap V) (kv : String × V)
    (hnd : (GoMap.keys m).Nodup) (hmem : kv ∈ m) : GoMap.get? m kv.1 = some kv.2 := by
  induction m with
  | nil => cases hmem
  | cons p m ih =>
    obtain ⟨k, v⟩ := p
    have hn : k ∉ GoMap.keys m ∧ (GoMap.keys m).Nodup := by simpa [GoMap.keys] using hnd
    rcases List.mem_cons.1 hmem with h | h
    · subst h; simp [GoMap.get?]
    · have hk : k ≠ kv.1 := by
        intro hk
        apply hn.1
        rw [hk]
        exact List.mem_map.2 ⟨kv, h, rfl⟩
      simp only [GoMap.get?, if_neg hk]
      exact ih hn.2 h

/-- The attributes of a touched device: the keys of the update map carry the supplied
values, provided the map has unique keys, none of them a field key. -/
theorem touchDevice_attrs (updates : GoMap Value) (now : Time) (d : Device)
    (hnd : (GoMap.keys updates).Nodup) (hnf : ∀ k ∈ GoMap.keys updates, ¬ isFieldKey k) :
    ∀ kv ∈ updates, (touchDevice updates now d).Properties.get? kv.1 = some kv.2 := by
  intro kv hkv
  obtain ⟨_, _, _, _, _, _, _, f8, _⟩ := foldl_applyDeviceUpdate updates d hnd
  exact f8 kv.1 kv.2 (hnf kv.1 (List.mem_map.2 ⟨kv, hkv, rfl⟩)) (get?_of_mem_nodup updates kv hnd hkv)

theorem touchIf_of_ne (ty : DeviceType) (updates : GoMap Value) (now : Time) (d : Device)
    (h : d.Typ ≠ ty) : touchIf ty updates now d = d := by
  unfold touchIf
  rw [if_neg h]

theorem touchIf_of_eq (ty : DeviceType) (updates : GoMap Value) (now : Time) (d : Device)
    (h : d.Typ = ty) : touchIf ty updates now d = touchDevice updates now d := by
  unfold touchIf
  rw [if_pos h]

/-- The outcome of one scenario loop, from the devices map it leaves. -/
theorem one_loop_outcome (s s1 : MemoryStore) (ty : DeviceType) (u : GoMap Value)
    (now : Time) (h1 : s1.devices = s.devices.map (touchType ty u now))
    (hnd : (GoMap.keys u).Nodup) (hnf : ∀ k ∈ GoMap.keys u, ¬ isFieldKey k) :
    AllOfTypeHave s1 ty u ∧ OthersKept s s1 [ty] ∧ SameDevices s s1 := by
  have hget : ∀ id, s1.devices.get? id = (s.devices.get? id).map (touchIf ty u now) := by
    intro id; rw [h1, get?_map_touchType]
  refine ⟨?_, ?_, ?_⟩
  · intro id d' hd' hty kv hkv
    rw [hget] at hd'
    cases hd : s.devices.get? id with
    | none => rw [hd] at hd'; cases hd'
    | some d =>
      rw [hd] at hd'
      simp only [Option.map_some', Option.some.injEq] at hd'
      subst hd'
      have hdt : d.Typ = ty := (touchIf_ID ty u now d).2.symm.trans hty
      rw [touchIf_of_eq ty u now d hdt]
      exact touchDevice_attrs u now d hnd hnf kv hkv
  · intro id d' hd' hty
    rw [hget] at hd'
    cases hd : s.devices.get? id with
    | none => rw [hd] at hd'; cases hd'
    | some d =>
      rw [hd] at hd'
      simp only [Option.map_some', Option.some.injEq] at hd'
      subst hd'
      have hdt : d.Typ ≠ ty := by
        intro h
        apply hty
        rw [(touchIf_ID ty u now d).2, h]
        exact List.mem_singleton.2 rfl
      rw [touchIf_of_ne ty u now d hdt]
  · intro id d hd
    refine ⟨touchIf ty u now d, ?_, (touchIf_ID ty u now d).2, (touchIf_ID ty u now d).1⟩
    rw [hget, hd]; rfl

/-- The outcome of two scenario loops over two different types, from the devices maps
they leave. -/
theorem two_loops_outcome (s s1 s2 : MemoryStore) (ty1 ty2 : DeviceType)
    (u1 u2 : GoMap Value) (now : Time)
    (h1 : s1.devices = s.devices.map (touchType ty1 u1 now))
    (h2 : s2.devices = s1.devices.map (touchType ty2 u2 now))
    (hne : ty1 ≠ ty2)
    (hnd1 : (GoMap.keys u1).Nodup) (hnf1 : ∀ k ∈ GoMap.keys u1, ¬ isFieldKey k)
    (hnd2 : (GoMap.keys u2).Nodup) (hnf2 : ∀ k ∈ GoMap.keys u2, ¬ isFieldKey k) :
    AllOfTypeHave s2 ty1 u1 ∧ AllOfTypeHave s2 ty2 u2 ∧ OthersKept s s2 [ty1, ty2]
      ∧ SameDevices s s2 := by
  obtain ⟨a1, o1, d1⟩ := one_loop_outcome s s1 ty1 u1 now h1 hnd1 hnf1
  obtain ⟨a2, o2, d2⟩ := one_loop_outcome s1 s2 ty2 u2 now h2 hnd2 hnf2
  refine ⟨?_, a2, ?_, ?_⟩
  · intro id d' hd' hty kv hkv
    have hk : s1.devices.get? id = some d' :=
      o2 id d' hd' (by rw [hty]; simpa using hne)
    exact a1 id d' hk hty kv hkv
  · intro id d' hd' hty
    have hty1 : d'.Typ ≠ ty1 := fun h => hty (by rw [h]; simp)
    have hty2 : d'.Typ ≠ ty2 := fun h => hty (by rw [h]; simp)
    have hk : s1.devices.get? id = some d' := o2 id d' hd' (by simpa using hty2)
    exact o1 id d' hk (by simpa using hty1)
  · intro id d hd
    obtain ⟨e1, he1, t1, i1⟩ := d1 id d hd
    obtain ⟨e2, he2, t2, i2⟩ := d2 id e1 he1
    exact ⟨e2, he2, t2.trans t1, i2.trans i1⟩

theorem UpdateSecurity_devices (s : MemoryStore) (security : SecuritySystem) (now : Time) :
    (s.UpdateSecurity security now).devices = s.devices := by
  unfold MemoryStore.UpdateSecurity
  exact (addSystemEvent_frame _ _ _ _ _ _).1

theorem two_loops_devices (s : MemoryStore) (ty1 ty2 : DeviceType) (u1 u2 : GoMap Value)
    (now : Time) (hwf : WellFormed s) :
    (Scheduler.updateAll s (DeviceService.GetDevicesByType s ty1) u1 now).devices
        = s.devices.map (touchType ty1 u1 now)
    ∧ (Scheduler.updateAll
          (Scheduler.updateAll s (DeviceService.GetDevicesByType s ty1) u1 now)
          (DeviceService.GetDevicesByType
            (Scheduler.updateAll s (DeviceService.GetDevicesByType s ty1) u1 now) ty2)
          u2 now).devices
        = (Scheduler.updateAll s (DeviceService.GetDevicesByType s ty1) u1 now).devices.map
            (touchType ty2 u2 now) := by
  have h1 := updateAll_byType_devices s ty1 u1 now hwf
  exact ⟨h1, updateAll_byType_devices _ ty2 u2 now
    (WellFormed_of_devices_eq s _ ty1 u1 now hwf h1)⟩

theorem light_ne_thermostat : DeviceTypeLight ≠ DeviceTypeThermostat := by decide

theorem light_ne_lock : DeviceTypeLight ≠ DeviceTypeLock := by decide

/-! ## Lemmas on the task runner -/

theorem foldl_if_eq_foldl_filter {α σ : Type} (p : α → Bool) (f : σ → α → σ) (l : List α)
    (s : σ) :
    l.foldl (fun s a => if p a then f s a else s) s = (l.filter p).foldl f s := by
  induction l generalizing s with
  | nil => rfl
  | cons a l ih =>
    simp only [List.foldl_cons, List.filter_cons]
    cases h : p a <;> simp [ih]

theorem UpdateSecurity_tasks (s : MemoryStore) (security : SecuritySystem) (now : Time) :
    (s.UpdateSecurity security now).tasks = s.tasks := by
  unfold MemoryStore.UpdateSecurity
  exact (addSystemEvent_frame _ _ _ _ _ _).2.2.2.1

theorem executeAction_tasks (s s1 : MemoryStore) (task : ScheduledTask) (device : Device)
    (now : Time) (h : Scheduler.executeAction s task device now = some s1) :
    s1.tasks = s.tasks := by
  unfold Scheduler.executeAction at h
  split at h
  · cases h; exact (UpdateDevice_frame _ _ _ _).2.2.1
  · cases h; exact (UpdateDevice_frame _ _ _ _).2.2.1
  · split at h
    · cases h; exact (UpdateDevice_frame _ _ _ _).2.2.1
    · cases h; rfl
  · split at h
    · cases h; exact (UpdateDevice_frame _ _ _ _).2.2.1
    · cases h; rfl
  · cases h; exact (UpdateDevice_frame _ _ _ _).2.2.1
  · cases h; exact (UpdateDevice_frame _ _ _ _).2.2.1
  · cases h; exact UpdateSecurity_tasks _ _ _
  · cases h; exact UpdateSecurity_tasks _ _ _
  · cases h

theorem UpdateTask_tasks_other (s : MemoryStore) (id k : String) (updates : GoMap Value)
    (hk : k ≠ id) : (s.UpdateTask id updates).1.tasks.get? k = s.tasks.get? k := by
  unfold MemoryStore.UpdateTask
  cases h : s.tasks.get? id with
  | none => rfl
  | some t => exact get?_set_of_ne _ _ _ _ hk

/-- Executing a task writes no task other than the one stored under its id. -/
theorem executeTask_tasks_other (s : MemoryStore) (task : ScheduledTask) (now : Time)
    (k : String) (hk : k ≠ task.ID) :
    (Scheduler.executeTask s task now).tasks.get? k = s.tasks.get? k := by
  unfold Scheduler.executeTask
  split
  · rfl
  · split
    · rfl
    · rename_i s1 h
      show GoMap.get? (MemoryStore.AddSystemEvent _ _).tasks k = _
      rw [(AddSystemEvent_frame _ _).2.2.2.1, UpdateTask_tasks_other _ _ _ _ hk,
        executeAction_tasks s s1 task _ now h]

theorem foldl_executeTask_tasks_other (tasks : List ScheduledTask) (s : MemoryStore)
    (now : Time) (k : String) (hk : ∀ t ∈ tasks, k ≠ t.ID) :
    (tasks.foldl (fun s t => Scheduler.executeTask s t now) s).tasks.get? k
      = s.tasks.get? k := by
  induction tasks generalizing s with
  | nil => rfl
  | cons t ts ih =>
    simp only [List.foldl_cons]
    rw [ih _ (fun t' ht' => hk t' (List.mem_cons_of_mem _ ht')),
      executeTask_tasks_other s t now k (hk t (List.mem_cons_self _ _))]

theorem mem_values_iff {V : Type} (m : GoMap V) (v : V) :
    v ∈ GoMap.values m ↔ ∃ k, (k, v) ∈ m := by
  simp [GoMap.values]

/-! ## The id invariant of the devices and tasks maps -/

theorem not_mem_keys_of_get?_none {V : Type} (m : GoMap V) (k : String)
    (h : GoMap.get? m k = none) : k ∉ GoMap.keys m := by
  induction m with
  | nil => simp [GoMap.keys]
  | cons p m ih =>
    obtain ⟨k0, v0⟩ := p
    simp only [GoMap.get?] at h
    by_cases hk : k0 = k
    · simp [hk] at h
    · rw [if_neg hk] at h
      simp only [GoMap.keys, List.map_cons, List.mem_cons, not_or]
      exact ⟨fun h' => hk h'.symm, ih h⟩

theorem set_of_get?_none {V : Type} (m : GoMap V) (k : String) (v : V)
    (h : GoMap.get? m k = none) : GoMap.set m k v = m ++ [(k, v)] := by
  induction m with
  | nil => rfl
  | cons p m ih =>
    obtain ⟨k0, v0⟩ := p
    simp only [GoMap.get?] at h
    by_cases hk : k0 = k
    · simp [hk] at h
    · rw [if_neg hk] at h
      simp only [GoMap.set, if_neg hk, List.cons_append]
      exact congrArg (fun m => (k0, v0) :: m) (ih h)

theorem mem_of_get? {V : Type} (m : GoMap V) (k : String) (v : V)
    (h : GoMap.get? m k = some v) : (k, v) ∈ m := by
  induction m with
  | nil => cases h
  | cons p m ih =>
    obtain ⟨k0, v0⟩ := p
    simp only [GoMap.get?] at h
    by_cases hk : k0 = k
    · rw [if_pos hk] at h
      cases h
      subst hk
      exact List.mem_cons_self _ _
    · rw [if_neg hk] at h
      exact List.mem_cons_of_mem _ (ih h)

theorem keys_set_of_get?_some {V : Type} (m : GoMap V) (k : String) (v v' : V)
    (h : GoMap.get? m k = some v) : GoMap.keys (GoMap.set m k v') = GoMap.keys m := by
  induction m with
  | nil => cases h
  | cons p m ih =>
    obtain ⟨k0, v0⟩ := p
    simp only [GoMap.get?] at h
    by_cases hk : k0 = k
    · simp [GoMap.set, GoMap.keys, hk]
    · rw [if_neg hk] at h
      have := ih h
      simp only [GoMap.keys] at this
      simp [GoMap.set, GoMap.keys, hk, this]

theorem mem_set {V : Type} (m : GoMap V) (k : String) (v : V) (p : String × V)
    (h : p ∈ GoMap.set m k v) : p = (k, v) ∨ p ∈ m := by
  induction m with
  | nil =>
    simp only [GoMap.set, List.mem_singleton] at h
    exact Or.inl h
  | cons q m ih =>
    obtain ⟨k0, v0⟩ := q
    simp only [GoMap.set] at h
    by_cases hk : k0 = k
    · rw [if_pos hk] at h
      rcases List.mem_cons.1 h with h | h
      · exact Or.inl h
      · exact Or.inr (List.mem_cons_of_mem _ h)
    · rw [if_neg hk] at h
      rcases List.mem_cons.1 h with h | h
      · exact Or.inr (h ▸ List.mem_cons_self _ _)
      · rcases ih h with h | h
        · exact Or.inl h
        · exact Or.inr (List.mem_cons_of_mem _ h)

theorem delete_eq_filter {V : Type} (m : GoMap V) (k : String) :
    GoMap.delete m k = m.filter (fun p => decide (p.1 ≠ k)) := by
  induction m with
  | nil => rfl
  | cons p m ih =>
    obtain ⟨k0, v0⟩ := p
    by_cases hk : k0 = k <;> simp [GoMap.delete, List.filter_cons, hk, ih]

/-- The invariant of an id-keyed map: unique keys, each entry stored under the id given
by `idOf`. -/
theorem keyed_set {V : Type} (idOf : V → String) (m : GoMap V) (k : String) (v : V)
    (hnd : (GoMap.keys m).Nodup) (hid : ∀ p ∈ m, idOf p.2 = p.1) (hv : idOf v = k) :
    (GoMap.keys (GoMap.set m k v)).Nodup ∧ ∀ p ∈ GoMap.set m k v, idOf p.2 = p.1 := by
  constructor
  · cases h : GoMap.get? m k with
    | none =>
      rw [set_of_get?_none m k v h]
      have hk := not_mem_keys_of_get?_none m k h
      simp only [GoMap.keys, List.map_append, List.map_cons, List.map_nil] at hk ⊢
      exact List.nodup_append.2 ⟨hnd, List.nodup_singleton k, by
        intro a ha hb
        rw [List.mem_singleton.1 hb] at ha
        exact hk ha⟩
    | some v0 => rw [keys_set_of_get?_some m k v0 v h]; exact hnd
  · intro p hp
    rcases mem_set m k v p hp with h | h
    · rw [h]; exact hv
    · exact hid p h

theorem keyed_delete {V : Type} (idOf : V → String) (m : GoMap V) (k : String)
    (hnd : (GoMap.keys m).Nodup) (hid : ∀ p ∈ m, idOf p.2 = p.1) :
    (GoMap.keys (GoMap.delete m k)).Nodup ∧ ∀ p ∈ GoMap.delete m k, idOf p.2 = p.1 := by
  rw [delete_eq_filter]
  constructor
  · simp only [GoMap.keys] at hnd ⊢
    exact (List.Nodup.sublist ((List.filter_sublist m).map Prod.fst) hnd)
  · intro p hp
    exact hid p (List.mem_filter.1 hp).1

theorem foldl_applyTaskUpdate_ID (updates : GoMap Value) (t : ScheduledTask) :
    (updates.foldl (fun t kv => MemoryStore.applyTaskUpdate t kv.1 kv.2) t).ID = t.ID := by
  induction updates generalizing t with
  | nil => rfl
  | cons kv us ih =>
    simp only [List.foldl_cons]
    rw [ih, applyTaskUpdate_eq]

theorem addSystemEvent_tasks_devices (s : MemoryStore) (eventType source message : String)
    (data : GoMap Value) (now : Time) :
    (s.addSystemEvent eventType source message data now).devices = s.devices
    ∧ (s.addSystemEvent eventType source message data now).tasks = s.tasks :=
  ⟨(addSystemEvent_frame _ _ _ _ _ _).1, (addSystemEvent_frame _ _ _ _ _ _).2.2.2.1⟩

/-- Every store operation keeps the devices and the tasks stored under their own unique
ids. -/
theorem apply_WellFormed (s : MemoryStore) (op : StoreOp)
    (hd : WellFormed s) (ht : TasksWellFormed s) :
    WellFormed (op.apply s) ∧ TasksWellFormed (op.apply s) := by
  unfold WellFormed TasksWellFormed at *
  cases op with
  | AddDevice device now =>
    simp only [StoreOp.apply, MemoryStore.AddDevice]
    cases h : s.devices.get? device.ID with
    | some d => exact ⟨hd, ht⟩
    | none =>
      simp only [(addSystemEvent_tasks_devices _ _ _ _ _ _).1,
        (addSystemEvent_tasks_devices _ _ _ _ _ _).2]
      exact ⟨keyed_set Device.ID _ _ _ hd.1 hd.2 rfl, ht⟩
  | UpdateDevice id updates now =>
    simp only [StoreOp.apply]
    rw [UpdateDevice_stepDevices, (UpdateDevice_frame s id updates now).2.2.1]
    refine ⟨?_, ht⟩
    unfold stepDevices
    cases h : s.devices.get? id with
    | none => exact hd
    | some d =>
      exact keyed_set Device.ID _ _ _ hd.1 hd.2
        ((touchDevice_ID updates now d).1.trans (hd.2 (id, d) (mem_of_get? _ _ _ h)))
  | DeleteDevice id now =>
    simp only [StoreOp.apply, MemoryStore.DeleteDevice]
    cases h : s.devices.get? id with
    | none => exact ⟨hd, ht⟩
    | some d =>
      simp only [(addSystemEvent_tasks_devices _ _ _ _ _ _).1,
        (addSystemEvent_tasks_devices _ _ _ _ _ _).2]
      exact ⟨keyed_delete Device.ID _ _ hd.1 hd.2, ht⟩
  | UpdateWeather weather now =>
    simp only [StoreOp.apply, MemoryStore.UpdateWeather,
      (addSystemEvent_tasks_devices _ _ _ _ _ _).1, (addSystemEvent_tasks_devices _ _ _ _ _ _).2]
    exact ⟨hd, ht⟩
  | UpdateSecurity security now =>
    simp only [StoreOp.apply, UpdateSecurity_devices, UpdateSecurity_tasks]
    exact ⟨hd, ht⟩
  | AddTask task now =>
    simp only [StoreOp.apply, MemoryStore.AddTask]
    cases h : s.tasks.get? task.ID with
    | some d => exact ⟨hd, ht⟩
    | none =>
      simp only [(addSystemEvent_tasks_devices _ _ _ _ _ _).1,
        (addSystemEvent_tasks_devices _ _ _ _ _ _).2]
      exact ⟨hd, keyed_set ScheduledTask.ID _ _ _ ht.1 ht.2 rfl⟩
  | AddSystemEvent event =>
    simp only [StoreOp.apply, (AddSystemEvent_frame _ _).1, (AddSystemEvent_frame _ _).2.2.2.1]
    exact ⟨hd, ht⟩
  | UpdateTask id updates =>
    simp only [StoreOp.apply, (UpdateTask_frame _ _ _).1]
    refine ⟨hd, ?_⟩
    unfold MemoryStore.UpdateTask
    cases h : s.tasks.get? id with
    | none => exact ht
    | some t =>
      exact keyed_set ScheduledTask.ID _ _ _ ht.1 ht.2
        ((foldl_applyTaskUpdate_ID updates t).trans (ht.2 (id, t) (mem_of_get? _ _ _ h)))
  | AddEnergyUsage usage =>
    simp only [StoreOp.apply, MemoryStore.AddEnergyUsage]
    split <;> exact ⟨hd, ht⟩

/-- Every store reached from `NewMemoryStore` by store operations keeps its devices and
its tasks under their own unique ids. -/
theorem runOps_WellFormed (now : Time) (ops : List StoreOp) :
    WellFormed (runOps (MemoryStore.NewMemoryStore now) ops)
    ∧ TasksWellFormed (runOps (MemoryStore.NewMemoryStore now) ops) := by
  have h : ∀ (ops : List StoreOp) (s : MemoryStore), WellFormed s → TasksWellFormed s →
      WellFormed (runOps s ops) ∧ TasksWellFormed (runOps s ops) := by
    intro ops
    induction ops with
    | nil => intro s hd ht; exact ⟨hd, ht⟩
    | cons op ops ih =>
      intro s hd ht
      obtain ⟨hd', ht'⟩ := apply_WellFormed s op hd ht
      exact ih (op.apply s) hd' ht'
  exact h ops _ ⟨by simp [MemoryStore.NewMemoryStore, GoMap.keys], by
      simp [MemoryStore.NewMemoryStore]⟩
    ⟨by simp [MemoryStore.NewMemoryStore, GoMap.keys], by simp [MemoryStore.NewMemoryStore]⟩

/-! ## Lemmas on task execution, the health monitor and the weather simulator -/

theorem foldl_count_if {α : Type} (p : α → Prop) [DecidablePred p] (l : List α) (n : Nat) :
    l.foldl (fun n a => if p a then n + 1 else n) n
      = n + (l.filter (fun a => decide (p a))).length := by
  induction l generalizing n with
  | nil => simp
  | cons a l ih =>
    simp only [List.foldl_cons, ih, List.filter_cons]
    by_cases h : p a <;> simp [h]
    omega

theorem checkSystemHealth_eq (s : MemoryStore) (current : WeatherData) (now : Time) :
    Scheduler.checkSystemHealth s current now
      = (healthEvents s current now).foldl MemoryStore.AddSystemEvent s := by
  unfold Scheduler.checkSystemHealth healthEvents
  simp only [DeviceService.ListDevices]
  have hc : s.ListDevices.foldl
      (fun n device => if device.Status = DeviceStatusOffline then n + 1 else n) 0
      = offlineCount s := by
    rw [foldl_count_if (fun d : Device => d.Status = DeviceStatusOffline)]
    simp [offlineCount]
  rw [hc]
  have hiff : (offlineCount s > s.ListDevices.length / 2)
      ↔ (2 * offlineCount s > s.ListDevices.length) := by omega
  by_cases h : 2 * offlineCount s > s.ListDevices.length
  · rw [if_pos (hiff.2 h), if_pos h]
    cases WeatherService.GetWeatherAlert current <;> rfl
  · rw [if_neg (fun h' => h (hiff.1 h')), if_neg h]
    cases WeatherService.GetWeatherAlert current <;> rfl

theorem updateThermostat_panics_of_bad_temperature (s : MemoryStore) (device : Device)
    (now : Time) (hw : s.weather.Temperature ≠ 0)
    (h : (device.Properties.get? "temperature").bind Value.asFloat = none) :
    DeviceService.updateThermostat s device now = none := by
  unfold DeviceService.updateThermostat DeviceService.updateThermostatWith
  simp only [MemoryStore.GetWeather, if_neg hw, h]

theorem updateThermostat_panics_of_bad_target (s : MemoryStore) (device : Device)
    (now : Time) (hw : s.weather.Temperature ≠ 0)
    (h : (device.Properties.get? "target_temp").bind Value.asFloat = none) :
    DeviceService.updateThermostat s device now = none := by
  unfold DeviceService.updateThermostat DeviceService.updateThermostatWith
  simp only [MemoryStore.GetWeather, if_neg hw, h]
  split <;> rfl

theorem calculateNextRun_eq (schedule : String) (now : Time) :
    Scheduler.calculateNextRun schedule now = now + scheduleOffset schedule := by
  unfold Scheduler.calculateNextRun Scheduler.calculateNextRunIn Scheduler.AddDate scheduleOffset
  split <;> simp_all

theorem append_ne_empty (a b : String) (h : a ≠ "") : a ++ b ≠ "" := by
  intro hab
  have h1 := congrArg String.length hab
  simp only [String.length_append] at h1
  have h2 : a.length = 0 := by
    have : ("" : String).length = 0 := rfl
    omega
  exact h (String.ext (List.length_eq_zero.1 h2))

theorem addedTaskID_ne_empty (task : ScheduledTask) (now : Time) :
    addedTaskID task now ≠ "" := by
  unfold addedTaskID
  split
  · exact append_ne_empty _ _ (by decide)
  · assumption

theorem AddTask_fresh (s : MemoryStore) (task : ScheduledTask) (now : Time)
    (h : s.tasks.get? task.ID = none) :
    (s.AddTask task now).2 = none
    ∧ (s.AddTask task now).1.tasks.get? task.ID = some { task with CreatedAt := now } := by
  unfold MemoryStore.AddTask
  simp only [h]
  refine ⟨trivial, ?_⟩
  rw [(addSystemEvent_frame _ _ _ _ _ _).2.2.2.1]
  exact get?_set_self _ _ _

theorem executeAction_none_of_unrecognized (s : MemoryStore) (task : ScheduledTask)
    (device : Device) (now : Time) (h : task.Action ∉ recognizedActions) :
    Scheduler.executeAction s task device now = none := by
  unfold Scheduler.executeAction
  split <;> first | rfl | (rename_i ha; simp [recognizedActions, ha] at h)

theorem executeAction_isSome_of_recognized (s : MemoryStore) (task : ScheduledTask)
    (device : Device) (now : Time) (h : task.Action ∈ recognizedActions) :
    ∃ s1, Scheduler.executeAction s task device now = some s1 := by
  unfold Scheduler.executeAction
  split
  · exact ⟨_, rfl⟩
  · exact ⟨_, rfl⟩
  · split <;> exact ⟨_, rfl⟩
  · split <;> exact ⟨_, rfl⟩
  · exact ⟨_, rfl⟩
  · exact ⟨_, rfl⟩
  · exact ⟨_, rfl⟩
  · exact ⟨_, rfl⟩
  · rename_i h1 h2 h3 h4 h5 h6 h7 h8
    simp only [recognizedActions, List.mem_cons, List.mem_singleton, List.mem_nil_iff,
      or_false] at h
    rcases h with h | h | h | h | h | h | h | h
    · exact absurd h h1
    · exact absurd h h2
    · exact absurd h h3
    · exact absurd h h4
    · exact absurd h h5
    · exact absurd h h6
    · exact absurd h h7
    · exact absurd h h8

theorem executeTask_of_missing_device (s : MemoryStore) (task : ScheduledTask) (now : Time)
    (h : s.devices.get? task.DeviceID = none) : Scheduler.executeTask s task now = s := by
  unfold Scheduler.executeTask
  simp [DeviceService.GetDevice, MemoryStore.GetDevice, h]

theorem executeTask_of_unrecognized (s : MemoryStore) (task : ScheduledTask) (now : Time)
    (h : task.Action ∉ recognizedActions) : Scheduler.executeTask s task now = s := by
  unfold Scheduler.executeTask
  split
  · rfl
  · rw [executeAction_none_of_unrecognized s task _ now h]

theorem executeTask_of_isSkipped (s : MemoryStore) (task : ScheduledTask) (now : Time)
    (h : isSkipped s task = true) : Scheduler.executeTask s task now = s := by
  unfold isSkipped at h
  rcases Bool.or_eq_true _ _ ▸ h with h | h
  · exact executeTask_of_missing_device s task now (by simpa using h)
  · exact executeTask_of_unrecognized s task now (by simpa using h)

theorem stepDevices_isSome (updates : GoMap Value) (now : Time) (m : GoMap Device)
    (id k : String) :
    ((stepDevices updates now m id).get? k).isSome = (m.get? k).isSome := by
  unfold stepDevices
  cases h : m.get? id with
  | none => rfl
  | some d =>
    by_cases hk : k = id
    · subst hk
      simp only []
      rw [get?_set_self, h]
      rfl
    · exact congrArg Option.isSome (get?_set_of_ne _ _ _ _ hk)

theorem UpdateDevice_isSome (s : MemoryStore) (id k : String) (updates : GoMap Value)
    (now : Time) :
    ((DeviceService.UpdateDevice s id updates now).1.devices.get? k).isSome
      = (s.devices.get? k).isSome := by
  unfold DeviceService.UpdateDevice
  rw [UpdateDevice_stepDevices]
  exact stepDevices_isSome _ _ _ _ _

theorem executeAction_isSome (s s1 : MemoryStore) (task : ScheduledTask) (device : Device)
    (now : Time) (k : String) (h : Scheduler.executeAction s task device now = some s1) :
    (s1.devices.get? k).isSome = (s.devices.get? k).isSome := by
  unfold Scheduler.executeAction at h
  split at h
  · cases h; exact UpdateDevice_isSome _ _ _ _ _
  · cases h; exact UpdateDevice_isSome _ _ _ _ _
  · split at h
    · cases h; exact UpdateDevice_isSome _ _ _ _ _
    · cases h; rfl
  · split at h
    · cases h; exact UpdateDevice_isSome _ _ _ _ _
    · cases h; rfl
  · cases h; exact UpdateDevice_isSome _ _ _ _ _
  · cases h; exact UpdateDevice_isSome _ _ _ _ _
  · cases h; exact congrArg (fun m => (GoMap.get? m k).isSome) (UpdateSecurity_devices _ _ _)
  · cases h; exact congrArg (fun m => (GoMap.get? m k).isSome) (UpdateSecurity_devices _ _ _)
  · cases h

/-- Executing a task neither adds nor removes a device id. -/
theorem executeTask_isSome (s : MemoryStore) (task : ScheduledTask) (now : Time)
    (k : String) :
    ((Scheduler.executeTask s task now).devices.get? k).isSome = (s.devices.get? k).isSome := by
  unfold Scheduler.executeTask
  split
  · rfl
  · split
    · rfl
    · rename_i s1 h
      show (GoMap.get? (MemoryStore.AddSystemEvent _ _).devices k).isSome = _
      rw [(AddSystemEvent_frame _ _).1, (UpdateTask_frame _ _ _).1,
        executeAction_isSome s s1 task _ now k h]

theorem isSkipped_executeTask (s : MemoryStore) (task t : ScheduledTask) (now : Time) :
    isSkipped (Scheduler.executeTask s task now) t = isSkipped s t := by
  unfold isSkipped
  have h := executeTask_isSome s task now t.DeviceID
  cases h1 : (Scheduler.executeTask s task now).devices.get? t.DeviceID <;>
    cases h2 : s.devices.get? t.DeviceID <;> simp_all

theorem isSkipped_foldl_executeTask (tasks : List ScheduledTask) (s : MemoryStore)
    (t : ScheduledTask) (now : Time) :
    isSkipped (tasks.foldl (fun s t => Scheduler.executeTask s t now) s) t = isSkipped s t := by
  induction tasks generalizing s with
  | nil => rfl
  | cons a l ih =>
    simp only [List.foldl_cons]
    rw [ih, isSkipped_executeTask]

/-- A run of executions is the run of the executions that are not skipped. -/
theorem foldl_executeTask_filter (tasks : List ScheduledTask) (s : MemoryStore) (now : Time) :
    tasks.foldl (fun s t => Scheduler.executeTask s t now) s
      = (tasks.filter (fun t => !isSkipped s t)).foldl
          (fun s t => Scheduler.executeTask s t now) s := by
  induction tasks generalizing s with
  | nil => rfl
  | cons a l ih =>
    simp only [List.foldl_cons, List.filter_cons]
    rw [ih]
    have hf : (fun t => !isSkipped (Scheduler.executeTask s a now) t)
        = (fun t => !isSkipped s t) := by
      funext t
      rw [isSkipped_executeTask]
    rw [hf]
    cases hsk : isSkipped s a
    · simp
    · simp [executeTask_of_isSkipped s a now hsk]

theorem isSkipped_iff (s : MemoryStore) (task : ScheduledTask) :
    isSkipped s task = true
      ↔ (s.devices.get? task.DeviceID = none ∨ task.Action ∉ recognizedActions) := by
  unfold isSkipped
  simp

theorem UpdateDevice_systemEvents (s : MemoryStore) (id : String) (updates : GoMap Value)
    (now : Time) :
    (s.UpdateDevice id updates now).1.systemEvents = s.systemEvents
    ∨ ∃ e : SystemEvent, e.Typ = "device_updated"
        ∧ (s.UpdateDevice id updates now).1.systemEvents = lastN 500 (s.systemEvents ++ [e]) := by
  unfold MemoryStore.UpdateDevice
  cases h : s.devices.get? id with
  | none => left; rfl
  | some d =>
    right
    exact ⟨_, rfl, addSystemEvent_systemEvents _ _ _ _ _ _⟩

theorem UpdateSecurity_systemEvents (s : MemoryStore) (security : SecuritySystem)
    (now : Time) :
    ∃ e : SystemEvent, e.Typ = "security_updated"
      ∧ (s.UpdateSecurity security now).systemEvents = lastN 500 (s.systemEvents ++ [e]) := by
  unfold MemoryStore.UpdateSecurity
  exact ⟨_, rfl, addSystemEvent_systemEvents _ _ _ _ _ _⟩

/-- The action of a task logs nothing, or one `device_updated` or `security_updated`
event. -/
theorem executeAction_systemEvents (s s1 : MemoryStore) (task : ScheduledTask)
    (device : Device) (now : Time) (h : Scheduler.executeAction s task device now = some s1) :
    s1.systemEvents = s.systemEvents
    ∨ ∃ e : SystemEvent, (e.Typ = "device_updated" ∨ e.Typ = "security_updated")
        ∧ s1.systemEvents = lastN 500 (s.systemEvents ++ [e]) := by
  have hdev : ∀ id updates,
      (DeviceService.UpdateDevice s id updates now).1.systemEvents = s.systemEvents
      ∨ ∃ e : SystemEvent, (e.Typ = "device_updated" ∨ e.Typ = "security_updated")
          ∧ (DeviceService.UpdateDevice s id updates now).1.systemEvents
              = lastN 500 (s.systemEvents ++ [e]) := by
    intro id updates
    rcases UpdateDevice_systemEvents s id updates now with h | ⟨e, he, h⟩
    · exact Or.inl h
    · exact Or.inr ⟨e, Or.inl he, h⟩
  have hsec : ∀ security,
      ∃ e : SystemEvent, (e.Typ = "device_updated" ∨ e.Typ = "security_updated")
          ∧ (s.UpdateSecurity security now).systemEvents
              = lastN 500 (s.systemEvents ++ [e]) := by
    intro security
    obtain ⟨e, he, h⟩ := UpdateSecurity_systemEvents s security now
    exact ⟨e, Or.inr he, h⟩
  unfold Scheduler.executeAction at h
  split at h
  · cases h; exact hdev _ _
  · cases h; exact hdev _ _
  · split at h
    · cases h; exact hdev _ _
    · cases h; exact Or.inl rfl
  · split at h
    · cases h; exact hdev _ _
    · cases h; exact Or.inl rfl
  · cases h; exact hdev _ _
  · cases h; exact hdev _ _
  · cases h; exact Or.inr (hsec _)
  · cases h; exact Or.inr (hsec _)
  · cases h

theorem UpdateDevice_SetsAttr (s : MemoryStore) (id k : String) (v : Value) (d : Device)
    (now : Time) (hd : s.devices.get? id = some d)
    (h1 : k ≠ "name") (h2 : k ≠ "status") (h3 : k ≠ "location") :
    SetsAttr s (DeviceService.UpdateDevice s id [(k, v)] now).1 id k v := by
  unfold DeviceService.UpdateDevice
  have hdev := (UpdateDevice_devices s id d [(k, v)] now hd).2
  simp only [List.foldl_cons, List.foldl_nil] at hdev
  rw [applyDeviceUpdate_other d k v h1 h2 h3] at hdev
  refine ⟨⟨d, { d with Properties := d.Properties.set k v, LastUpdated := now }, hd,
    by rw [hdev]; exact get?_set_self _ _ _, ?_, ?_, rfl, rfl, rfl, rfl, rfl⟩, ?_⟩
  · exact get?_set_self _ _ _
  · intro k' hk'
    exact get?_set_of_ne _ _ _ _ hk'
  · intro id' hid'
    rw [hdev]
    exact get?_set_of_ne _ _ _ _ hid'

/-- What `executeTask` leaves of the devices and of the security system is what the
action left. -/
theorem executeTask_of_action (s s1 : MemoryStore) (task : ScheduledTask) (device : Device)
    (now : Time) (hdev : s.devices.get? task.DeviceID = some device)
    (h : Scheduler.executeAction s task device now = some s1) :
    (Scheduler.executeTask s task now).devices = s1.devices
    ∧ (Scheduler.executeTask s task now).security = s1.security := by
  unfold Scheduler.executeTask
  simp only [DeviceService.GetDevice, MemoryStore.GetDevice, hdev, h]
  exact ⟨((AddSystemEvent_frame _ _).1).trans (UpdateTask_frame _ _ _).1,
    ((AddSystemEvent_frame _ _).2.2.1).trans (UpdateTask_frame _ _ _).2.2.1⟩

theorem SetsAttr_of_devices_eq (s s1 s2 : MemoryStore) (id k : String) (v : Value)
    (h : SetsAttr s s1 id k v) (heq : s2.devices = s1.devices) : SetsAttr s s2 id k v := by
  unfold SetsAttr at *
  rw [heq]
  exact h

theorem calculateHumidity_range (current : WeatherData) (r : Float64)
    (h0 : 0 ≤ r) (h1 : r < 1) :
    30 ≤ WeatherService.calculateHumidity current r
    ∧ WeatherService.calculateHumidity current r ≤ 90
    ∧ (WeatherService.calculateHumidity current r = 30
        ∨ WeatherService.calculateHumidity current r = 90
        ∨ (WeatherService.calculateHumidity current r = current.Humidity + (r - 0.5) * 10.0
            ∧ -5 ≤ WeatherService.calculateHumidity current r - current.Humidity
            ∧ WeatherService.calculateHumidity current r - current.Humidity ≤ 5)) := by
  unfold WeatherService.calculateHumidity
  dsimp only
  split_ifs with ha hb
  · norm_num
  · norm_num
  · norm_num at ha hb ⊢
    refine ⟨ha, hb, Or.inr (Or.inr ⟨?_, ?_⟩)⟩ <;> linarith

theorem calculatePressure_range (current : WeatherData) (r : Float64)
    (h0 : 0 ≤ r) (h1 : r < 1) :
    980 ≤ WeatherService.calculatePressure current r
    ∧ WeatherService.calculatePressure current r ≤ 1040
    ∧ (WeatherService.calculatePressure current r = 980
        ∨ WeatherService.calculatePressure current r = 1040
        ∨ (WeatherService.calculatePressure current r = current.Pressure + (r - 0.5) * 20.0
            ∧ -10 ≤ WeatherService.calculatePressure current r - current.Pressure
            ∧ WeatherService.calculatePressure current r - current.Pressure ≤ 10)) := by
  unfold WeatherService.calculatePressure
  dsimp only
  split_ifs with ha hb
  · norm_num
  · norm_num
  · norm_num at ha hb ⊢
    refine ⟨ha, hb, Or.inr (Or.inr ⟨?_, ?_⟩)⟩ <;> linarith

theorem calculateWindSpeed_range (current : WeatherData) (r : Float64)
    (h0 : 0 ≤ r) (h1 : r < 1) :
    0 ≤ WeatherService.calculateWindSpeed current r
    ∧ WeatherService.calculateWindSpeed current r ≤ 30
    ∧ (WeatherService.calculateWindSpeed current r = 0
        ∨ WeatherService.calculateWindSpeed current r = 30
        ∨ (WeatherService.calculateWindSpeed current r = current.WindSpeed + (r - 0.5) * 5.0
            ∧ -(5 / 2) ≤ WeatherService.calculateWindSpeed current r - current.WindSpeed
            ∧ WeatherService.calculateWindSpeed current r - current.WindSpeed ≤ 5 / 2)) := by
  unfold WeatherService.calculateWindSpeed
  dsimp only
  split_ifs with ha hb
  · norm_num
  · norm_num
  · norm_num at ha hb ⊢
    refine ⟨ha, hb, Or.inr (Or.inr ⟨?_, ?_⟩)⟩ <;> linarith

theorem firstIndexFrom_of_not_mem (direction : String) (l : List String) (i : Nat)
    (h : direction ∉ l) : WeatherService.firstIndexFrom direction l i = 0 := by
  induction l generalizing i with
  | nil => rfl
  | cons d l ih =>
    simp only [List.mem_cons, not_or] at h
    unfold WeatherService.firstIndexFrom
    rw [if_neg (fun hd => h.1 hd.symm)]
    exact ih (i + 1) h.2

theorem findDirectionIndex_of_not_mem (direction : String)
    (h : direction ∉ WeatherService.directions) :
    WeatherService.findDirectionIndex direction = 0 :=
  firstIndexFrom_of_not_mem direction _ 0 h

/-- The new wind direction is a compass point, within one step of the old direction
when that is a compass point and within one step of `N` otherwise. -/
theorem calculateWindDirection_step (current : WeatherData) (k : Nat) (hk : k < 3) :
    WeatherService.calculateWindDirection current k ∈ WeatherService.directions
    ∧ (current.WindDir ∈ WeatherService.directions →
        compassStep current.WindDir (WeatherService.calculateWindDirection current k))
    ∧ (current.WindDir ∉ WeatherService.directions →
        compassStep "N" (WeatherService.calculateWindDirection current k)) := by
  have hk3 : k = 0 ∨ k = 1 ∨ k = 2 := by omega
  by_cases hmem : current.WindDir ∈ WeatherService.directions
  · refine ⟨?_, fun _ => ?_, fun h => absurd hmem h⟩
    · unfold WeatherService.calculateWindDirection
      simp only [WeatherService.directions, List.mem_cons, List.mem_singleton,
        List.mem_nil_iff, or_false] at hmem
      rcases hmem with h | h | h | h | h | h | h | h <;>
        rcases hk3 with rfl | rfl | rfl <;> rw [h] <;> decide
    · unfold WeatherService.calculateWindDirection compassStep
      simp only [WeatherService.directions, List.mem_cons, List.mem_singleton,
        List.mem_nil_iff, or_false] at hmem
      rcases hmem with h | h | h | h | h | h | h | h <;> rw [h]
      · exact ⟨0, by decide, rfl, by rcases hk3 with rfl | rfl | rfl <;> decide⟩
      · exact ⟨1, by decide, rfl, by rcases hk3 with rfl | rfl | rfl <;> decide⟩
      · exact ⟨2, by decide, rfl, by rcases hk3 with rfl | rfl | rfl <;> decide⟩
      · exact ⟨3, by decide, rfl, by rcases hk3 with rfl | rfl | rfl <;> decide⟩
      · exact ⟨4, by decide, rfl, by rcases hk3 with rfl | rfl | rfl <;> decide⟩
      · exact ⟨5, by decide, rfl, by rcases hk3 with rfl | rfl | rfl <;> decide⟩
      · exact ⟨6, by decide, rfl, by rcases hk3 with rfl | rfl | rfl <;> decide⟩
      · exact ⟨7, by decide, rfl, by rcases hk3 with rfl | rfl | rfl <;> decide⟩
  · have h0 := findDirectionIndex_of_not_mem _ hmem
    refine ⟨?_, fun h => absurd h hmem, fun _ => ?_⟩
    · unfold WeatherService.calculateWindDirection
      rw [h0]
      rcases hk3 with rfl | rfl | rfl <;> decide
    · unfold WeatherService.calculateWindDirection compassStep
      rw [h0]
      exact ⟨0, by decide, rfl, by rcases hk3 with rfl | rfl | rfl <;> decide⟩

theorem UpdateWeather_weather (s : MemoryStore) (weather : WeatherData) (now : Time) :
    (s.UpdateWeather weather now).weather = weather := by
  unfold MemoryStore.UpdateWeather
  exact (addSystemEvent_frame _ _ _ _ _ _).2.1

/-- The snapshot of one weather tick lies in the data model's ranges. -/
theorem updateWeather_InModelRanges (current : WeatherData) (s : MemoryStore)
    (baseTemp rTemp rHum rPres : Float64) (kCond : Nat) (rWind : Float64) (kDir : Nat)
    (now : Time)
    (hHum : 0 ≤ rHum ∧ rHum < 1) (hPres : 0 ≤ rPres ∧ rPres < 1)
    (hWind : 0 ≤ rWind ∧ rWind < 1) (hDir : kDir < 3) :
    InModelRanges
      (WeatherService.updateWeather current s baseTemp rTemp rHum rPres kCond rWind kDir now).1 := by
  unfold WeatherService.updateWeather InModelRanges
  dsimp only
  obtain ⟨a1, a2, _⟩ := calculateHumidity_range
    { current with Temperature := baseTemp + (rTemp - 0.5) * 4.0 } rHum hHum.1 hHum.2
  refine ⟨a1, a2, ?_⟩
  obtain ⟨b1, b2, _⟩ := calculatePressure_range
    { current with
      Temperature := baseTemp + (rTemp - 0.5) * 4.0,
      Humidity := WeatherService.calculateHumidity
        { current with Temperature := baseTemp + (rTemp - 0.5) * 4.0 } rHum }
    rPres hPres.1 hPres.2
  refine ⟨b1, b2, ?_⟩
  refine ⟨(calculateWindSpeed_range _ rWind hWind.1 hWind.2).1,
    (calculateWindSpeed_range _ rWind hWind.1 hWind.2).2.1,
    (calculateWindDirection_step _ kDir hDir).1⟩

theorem scenario_pressure_wind (current : WeatherData) (s : MemoryStore) (scenario : String)
    (r1 r2 r3 r4 : Float64) (now : Time)
    (h3 : 0 ≤ r3 ∧ r3 < 1) (h4 : 0 ≤ r4 ∧ r4 < 1) :
    980 ≤ (WeatherService.SimulateWeatherScenario current s scenario r1 r2 r3 r4 now).1.Pressure
    ∧ (WeatherService.SimulateWeatherScenario current s scenario r1 r2 r3 r4 now).1.Pressure
        ≤ 1040
    ∧ 0 ≤ (WeatherService.SimulateWeatherScenario current s scenario r1 r2 r3 r4 now).1.WindSpeed
    ∧ (WeatherService.SimulateWeatherScenario current s scenario r1 r2 r3 r4 now).1.WindSpeed
        ≤ 30 := by
  obtain ⟨h30, h31⟩ := h3
  obtain ⟨h40, h41⟩ := h4
  unfold WeatherService.SimulateWeatherScenario
  dsimp only
  split <;> dsimp only <;> norm_num <;> refine ⟨?_, ?_, ?_, ?_⟩ <;> linarith

theorem scenario_humidity (current : WeatherData) (s : MemoryStore) (scenario : String)
    (r1 r2 r3 r4 : Float64) (now : Time) :
    (WeatherService.SimulateWeatherScenario current s scenario r1 r2 r3 r4 now).1.Humidity
      = (if scenario = "storm" then 85 + r2 * 10
         else if scenario = "heatwave" then 20 + r2 * 15
         else if scenario = "cold_snap" then 40 + r2 * 20
         else if scenario = "rain" then 80 + r2 * 15
         else if scenario = "fog" then 95 + r2 * 5
         else 50 + r2 * 20) := by
  unfold WeatherService.SimulateWeatherScenario
  dsimp only
  split <;> simp_all <;> norm_num

theorem scenario_windDir (current : WeatherData) (s : MemoryStore) (scenario : String)
    (r1 r2 r3 r4 : Float64) (now : Time) :
    (WeatherService.SimulateWeatherScenario current s scenario r1 r2 r3 r4 now).1.WindDir
      = (if scenario = "storm" then "SW"
         else if scenario = "heatwave" then "S"
         else if scenario = "cold_snap" then "N"
         else if scenario = "rain" then "W"
         else if scenario = "fog" then "Calm"
         else "N") := by
  unfold WeatherService.SimulateWeatherScenario
  dsimp only
  split <;> simp_all

theorem not_compassStep_calm (b : String) : ¬ compassStep "Calm" b := by
  rintro ⟨i, hi, hget, _⟩
  have h8 : i = 0 ∨ i = 1 ∨ i = 2 ∨ i = 3 ∨ i = 4 ∨ i = 5 ∨ i = 6 ∨ i = 7 := by omega
  rcases h8 with rfl | rfl | rfl | rfl | rfl | rfl | rfl | rfl <;>
    exact absurd hget (by decide)

/-! ## Lemmas on the helpers, the forecast, serial adds and the blended tick -/

theorem ParseSchedule_ok_iff (schedule : String) (d : Duration) :
    Utils.ParseSchedule schedule = .ok d
      ↔ ((schedule = "every_minute" ∧ d = Minute)
        ∨ (schedule = "every_5_minutes" ∧ d = 5 * Minute)
        ∨ (schedule = "every_15_minutes" ∧ d = 15 * Minute)
        ∨ (schedule = "every_30_minutes" ∧ d = 30 * Minute)
        ∨ (schedule = "hourly" ∧ d = Hour)
        ∨ (schedule = "daily" ∧ d = 24 * Hour)
        ∨ (schedule = "weekly" ∧ d = 7 * 24 * Hour)) := by
  unfold Utils.ParseSchedule
  split <;> simp_all [eq_comm]

theorem bind_asFloat_eq_none (m : GoMap Value) (k : String)
    (h : ∀ x, m.get? k ≠ some (.float x)) : (m.get? k).bind Value.asFloat = none := by
  cases hv : m.get? k with
  | none => rfl
  | some v =>
    cases v with
    | float x => exact absurd hv (h x)
    | _ => rfl

/-- What `executeTask` does once the action has returned the store `s1`. -/
theorem executeTask_after_action (s s1 : MemoryStore) (task : ScheduledTask) (device : Device)
    (now : Time) (hdev : s.devices.get? task.DeviceID = some device)
    (hstored : s.tasks.get? task.ID = some task)
    (h : Scheduler.executeAction s task device now = some s1) :
    (Scheduler.executeTask s task now).tasks.get? task.ID
        = some { task with LastRun := now, NextRun := now + scheduleOffset task.Schedule }
    ∧ ∃ e : SystemEvent, e.Typ = "task_executed"
        ∧ (Scheduler.executeTask s task now).systemEvents = lastN 500 (s1.systemEvents ++ [e]) := by
  have hrun : Scheduler.executeTask s task now
      = MemoryStore.AddSystemEvent
          (s1.UpdateTask task.ID
            [("last_run", .time now),
             ("next_run", .time (Scheduler.calculateNextRun task.Schedule now))]).1
          { ID := "task_" ++ toString (MemoryStore.UnixNano now),
            Typ := "task_executed",
            Source := "scheduler",
            Message := "Task " ++ task.Name ++ " executed successfully",
            Data := [("task_id", .str task.ID), ("device_id", .str task.DeviceID),
                     ("action", .str task.Action)],
            Timestamp := now,
            Severity := "info" } := by
    unfold Scheduler.executeTask
    simp only [DeviceService.GetDevice, MemoryStore.GetDevice, hdev, h]
  constructor
  · rw [hrun, (AddSystemEvent_frame _ _).2.2.2.1]
    have ht : s1.tasks.get? task.ID = some task := by
      rw [executeAction_tasks s s1 task device now h]; exact hstored
    unfold MemoryStore.UpdateTask
    simp only [ht]
    rw [get?_set_self, foldl_applyTaskUpdate _ _ (by simp [GoMap.keys]), calculateNextRun_eq]
    simp [GoMap.get?, Value.asTime]
  · exact ⟨_, rfl, by
      rw [hrun, AddSystemEvent_systemEvents, (UpdateTask_frame _ _ _).2.2.2.2.1]⟩

/-- The `device_failure` scenario stamps the first listed device and leaves the rest of
it, the status included, as it was. -/
theorem TriggerDeviceFailure_first (s : MemoryStore) (device : Device) (rest : List Device)
    (now : Time) (hlist : s.ListDevices = device :: rest)
    (hstored : s.devices.get? device.ID = some device) :
    (Handler.TriggerDeviceFailure s now).devices.get? device.ID
      = some { device with LastUpdated := now } := by
  unfold Handler.TriggerDeviceFailure
  simp only [DeviceService.ListDevices, hlist, DeviceService.UpdateDevice]
  rw [(UpdateDevice_devices s device.ID device _ now hstored).2, get?_set_self]
  rfl

theorem AddDevice_fresh (s : MemoryStore) (device : Device) (now : Time)
    (h : s.devices.get? device.ID = none) :
    (s.AddDevice device now).2 = none
    ∧ (s.AddDevice device now).1.devices
        = s.devices ++ [(device.ID, { device with CreatedAt := now, LastUpdated := now })] := by
  unfold MemoryStore.AddDevice
  simp only [h]
  refine ⟨trivial, ?_⟩
  rw [(addSystemEvent_frame _ _ _ _ _ _).1]
  exact set_of_get?_none _ _ _ h

theorem get?_append_singleton_ne {V : Type} (m : GoMap V) (k k' : String) (v : V)
    (h : k' ≠ k) : GoMap.get? (m ++ [(k, v)]) k' = GoMap.get? m k' := by
  induction m with
  | nil => simp [GoMap.get?, h.symm]
  | cons p m ih =>
    obtain ⟨k0, v0⟩ := p
    by_cases h0 : k0 = k' <;> simp [GoMap.get?, h0, ih]

theorem calculateCondition_congr (c1 c2 : WeatherData) (k : Nat)
    (hp : c1.Pressure = c2.Pressure) (hh : c1.Humidity = c2.Humidity) :
    WeatherService.calculateCondition c1 k = WeatherService.calculateCondition c2 k := by
  unfold WeatherService.calculateCondition
  rw [hp, hh]

theorem calculateWindDirection_congr (c1 c2 : WeatherData) (k : Nat)
    (hd : c1.WindDir = c2.WindDir) :
    WeatherService.calculateWindDirection c1 k = WeatherService.calculateWindDirection c2 k := by
  unfold WeatherService.calculateWindDirection
  rw [hd]

theorem forecastFrom_congr (c1 c2 : WeatherData) (baseTemp : Float64) (now : Time)
    (draws : List EntryDraws) (i : Nat)
    (hd : c1.WindDir = c2.WindDir) (hp : c1.Pressure = c2.Pressure)
    (hh : c1.Humidity = c2.Humidity) :
    WeatherService.forecastFrom c1 baseTemp now i draws
      = WeatherService.forecastFrom c2 baseTemp now i draws := by
  induction draws generalizing i with
  | nil => rfl
  | cons d rest ih =>
    unfold WeatherService.forecastFrom
    rw [ih, calculateCondition_congr c1 c2 _ hp hh, calculateWindDirection_congr c1 c2 _ hd]

theorem historyFrom_congr (c1 c2 : WeatherData) (base : Time → Float64) (now : Time)
    (hours : Nat) (draws : List EntryDraws) (i : Nat)
    (hd : c1.WindDir = c2.WindDir) (hp : c1.Pressure = c2.Pressure)
    (hh : c1.Humidity = c2.Humidity) :
    WeatherService.historyFrom c1 base now hours i draws
      = WeatherService.historyFrom c2 base now hours i draws := by
  induction draws generalizing i with
  | nil => rfl
  | cons d rest ih =>
    unfold WeatherService.historyFrom
    rw [ih, calculateCondition_congr c1 c2 _ hp hh, calculateWindDirection_congr c1 c2 _ hd]

theorem calculateCondition_initial :
    WeatherService.calculateCondition (WeatherService.initialWeather 1000) 1
      = "partly_cloudy" := by
  unfold WeatherService.calculateCondition WeatherService.initialWeather
  norm_num

theorem calculateCondition_lowPressure :
    WeatherService.calculateCondition lowPressureWeather 1 = "stormy" := by
  unfold WeatherService.calculateCondition lowPressureWeather WeatherService.initialWeather
  norm_num

/-- The band of conditions `calculateCondition` draws from, selected by the snapshot's
pressure and humidity. -/
theorem calculateCondition_band (c : WeatherData) (k : Nat) (hk : k < 3) :
    (c.Pressure < 1000 ∧ c.Humidity > 80 →
        WeatherService.calculateCondition c k = ["rainy", "stormy", "cloudy"].getD k "")
    ∧ (¬ (c.Pressure < 1000 ∧ c.Humidity > 80) → c.Pressure < 1010 →
        WeatherService.calculateCondition c k
          = ["cloudy", "partly_cloudy", "overcast"].getD k "")
    ∧ (1010 ≤ c.Pressure → c.Humidity < 40 → WeatherService.calculateCondition c k = "clear")
    ∧ (1010 ≤ c.Pressure → 40 ≤ c.Humidity →
        WeatherService.calculateCondition c k = ["clear", "partly_cloudy", "sunny"].getD k "")
    ∧ WeatherService.calculateCondition c k
        ∈ ["rainy", "stormy", "cloudy", "partly_cloudy", "overcast", "clear", "sunny"] := by
  have hk3 : k = 0 ∨ k = 1 ∨ k = 2 := by omega
  have e1 : (1000.0 : Float64) = 1000 := by norm_num
  have e2 : (80.0 : Float64) = 80 := by norm_num
  have e3 : (1010.0 : Float64) = 1010 := by norm_num
  have e4 : (40.0 : Float64) = 40 := by norm_num
  unfold WeatherService.calculateCondition
  dsimp only
  rw [e1, e2, e3, e4]
  refine ⟨?_, ?_, ?_, ?_, ?_⟩
  · intro h
    rw [if_pos h]
  · intro h1 h2
    rw [if_neg h1, if_pos h2]
  · intro h1 h2
    rw [if_neg (by intro h; linarith [h.1]), if_neg (by linarith), if_pos h2]
  · intro h1 h2
    rw [if_neg (by intro h; linarith [h.1]), if_neg (by linarith), if_neg (by linarith)]
  · split_ifs <;> rcases hk3 with rfl | rfl | rfl <;> simp

theorem forecastFrom_conditions (c : WeatherData) (baseTemp : Float64) (now : Time)
    (draws : List EntryDraws) (i : Nat) :
    (WeatherService.forecastFrom c baseTemp now i draws).map (fun w => w.Condition)
      = draws.map (fun d => WeatherService.calculateCondition c d.kCond) := by
  induction draws generalizing i with
  | nil => rfl
  | cons d rest ih => simp [WeatherService.forecastFrom, ih]

theorem historyFrom_conditions (c : WeatherData) (base : Time → Float64) (now : Time)
    (hours : Nat) (draws : List EntryDraws) (i : Nat) :
    (WeatherService.historyFrom c base now hours i draws).map (fun w => w.Condition)
      = draws.map (fun d => WeatherService.calculateCondition c d.kCond) := by
  induction draws generalizing i with
  | nil => rfl
  | cons d rest ih => simp [WeatherService.historyFrom, ih]

theorem truncToInt_range (x : Float64) :
    Scheduler.MinInt64 ≤ Scheduler.truncToInt x ∧ Scheduler.truncToInt x ≤ Scheduler.MaxInt64 := by
  unfold Scheduler.truncToInt
  split_ifs with h
  · exact h
  · exact ⟨le_refl _, by decide⟩

theorem truncToInt_of_range (x : Float64)
    (h : Scheduler.MinInt64 ≤ Scheduler.intPart x ∧ Scheduler.intPart x ≤ Scheduler.MaxInt64) :
    Scheduler.truncToInt x = Scheduler.intPart x := by
  unfold Scheduler.truncToInt
  rw [if_pos h]

theorem intPart_example : Scheduler.intPart 55.5 = 55 := by decide!

theorem getElem?_split {α : Type} (l : List α) (i : Nat) (c : α) (h : l[i]? = some c) :
    ∃ pre post, l = pre ++ c :: post ∧ ∀ c', l.set i c' = pre ++ c' :: post := by
  induction l generalizing i with
  | nil => simp at h
  | cons a l ih =>
    cases i with
    | zero =>
      simp at h
      subst h
      exact ⟨[], l, rfl, fun _ => rfl⟩
    | succ i =>
      obtain ⟨pre, post, h1, h2⟩ := ih i (by simpa using h)
      exact ⟨a :: pre, post, by rw [h1]; rfl, fun c' => by simp [List.set, h2 c']⟩

/-- A step of the scheduler replaces one call by its successor. -/
theorem AddState_step_split (st st' : AddState) (i : Nat) (h : st.step i = some st') :
    ∃ pre post c c', st.calls = pre ++ c :: post ∧ st'.calls = pre ++ c' :: post
      ∧ c.step st.store st.locked = some (st'.store, st'.locked, c') := by
  unfold AddState.step at h
  simp only [List.get?_eq_getElem?] at h
  cases hget : st.calls[i]? with
  | none => simp [hget] at h
  | some c =>
    obtain ⟨pre, post, h1, h2⟩ := getElem?_split st.calls i c hget
    cases hstep : c.step st.store st.locked with
    | none => simp [hget, hstep] at h
    | some r =>
      obtain ⟨store, locked, c'⟩ := r
      simp only [hget, hstep, Option.some.injEq] at h
      subst h
      exact ⟨pre, post, c, c', h1, h2 c', hstep⟩

/-- What one statement does, case by case. -/
theorem AddCall_step_cases (store store' : MemoryStore) (locked locked' : Bool)
    (c c' : AddCall) (h : c.step store locked = some (store', locked', c')) :
    c'.device.ID = c.device.ID ∧ c'.now = c.now
    ∧ ((c.pc = .lock ∧ locked = false ∧ locked' = true ∧ store' = store
          ∧ c'.device = c.device ∧ c'.pc = .check)
      ∨ (c.pc = .check ∧ locked' = locked ∧ store' = store ∧ c'.device = c.device
          ∧ ((store.devices.get? c.device.ID = none ∧ c'.pc = .stampCreated)
            ∨ ((store.devices.get? c.device.ID).isSome = true
                ∧ c'.pc = .unlock (some (.deviceExists c.device.ID)))))
      ∨ (c.pc = .stampCreated ∧ locked' = locked ∧ store' = store ∧ c'.pc = .stampUpdated
          ∧ c'.device = { c.device with CreatedAt := c.now })
      ∨ (c.pc = .stampUpdated ∧ locked' = locked ∧ store' = store ∧ c'.pc = .insert
          ∧ c'.device = { c.device with LastUpdated := c.now })
      ∨ (c.pc = .insert ∧ locked' = locked ∧ c'.pc = .event ∧ c'.device = c.device
          ∧ store' = { store with devices := store.devices.set c.device.ID c.device })
      ∨ (c.pc = .event ∧ locked' = locked ∧ c'.pc = .unlock none ∧ c'.device = c.device
          ∧ store'.devices = store.devices)
      ∨ (∃ err, c.pc = .unlock err ∧ locked' = false ∧ store' = store
          ∧ c'.device = c.device ∧ c'.pc = .done err)) := by
  unfold AddCall.step at h
  split at h
  · rename_i hpc
    by_cases hl : locked = true
    · simp [hl] at h
    · simp only [hl] at h
      simp only [Bool.false_eq_true, if_false, Option.some.injEq, Prod.mk.injEq] at h
      obtain ⟨h1, h2, h3⟩ := h
      subst h1 h2 h3
      exact ⟨rfl, rfl, Or.inl ⟨hpc, by simpa using hl, rfl, rfl, rfl, rfl⟩⟩
  · rename_i hpc
    split at h
    · rename_i d hd
      simp only [Option.some.injEq, Prod.mk.injEq] at h
      obtain ⟨h1, h2, h3⟩ := h
      subst h1 h2 h3
      exact ⟨rfl, rfl, Or.inr (Or.inl ⟨hpc, rfl, rfl, rfl, Or.inr ⟨by simp [hd], rfl⟩⟩)⟩
    · rename_i hd
      simp only [Option.some.injEq, Prod.mk.injEq] at h
      obtain ⟨h1, h2, h3⟩ := h
      subst h1 h2 h3
      exact ⟨rfl, rfl, Or.inr (Or.inl ⟨hpc, rfl, rfl, rfl, Or.inl ⟨hd, rfl⟩⟩)⟩
  · rename_i hpc
    simp only [Option.some.injEq, Prod.mk.injEq] at h
    obtain ⟨h1, h2, h3⟩ := h
    subst h1 h2 h3
    exact ⟨rfl, rfl, Or.inr (Or.inr (Or.inl ⟨hpc, rfl, rfl, rfl, rfl⟩))⟩
  · rename_i hpc
    simp only [Option.some.injEq, Prod.mk.injEq] at h
    obtain ⟨h1, h2, h3⟩ := h
    subst h1 h2 h3
    exact ⟨rfl, rfl, Or.inr (Or.inr (Or.inr (Or.inl ⟨hpc, rfl, rfl, rfl, rfl⟩)))⟩
  · rename_i hpc
    simp only [Option.some.injEq, Prod.mk.injEq] at h
    obtain ⟨h1, h2, h3⟩ := h
    subst h1 h2 h3
    exact ⟨rfl, rfl, Or.inr (Or.inr (Or.inr (Or.inr (Or.inl ⟨hpc, rfl, rfl, rfl, rfl⟩))))⟩
  · rename_i hpc
    simp only [Option.some.injEq, Prod.mk.injEq] at h
    obtain ⟨h1, h2, h3⟩ := h
    subst h1 h2 h3
    exact ⟨rfl, rfl, Or.inr (Or.inr (Or.inr (Or.inr (Or.inr (Or.inl
      ⟨hpc, rfl, rfl, rfl, (addSystemEvent_frame _ _ _ _ _ _).1⟩)))))⟩
  · rename_i err hpc
    simp only [Option.some.injEq, Prod.mk.injEq] at h
    obtain ⟨h1, h2, h3⟩ := h
    subst h1 h2 h3
    exact ⟨rfl, rfl, Or.inr (Or.inr (Or.inr (Or.inr (Or.inr (Or.inr
      ⟨err, hpc, rfl, rfl, rfl, rfl⟩)))))⟩
  · cases h
theorem filter_length_middle {α : Type} (p : α → Bool) (pre post : List α) (c : α) :
    ((pre ++ c :: post).filter p).length
      = (pre.filter p).length + (post.filter p).length + (if p c = true then 1 else 0) := by
  rw [List.filter_append, List.filter_cons, List.length_append]
  split
  · simp; omega
  · simp

theorem other_ids_ne (pre post : List AddCall) (c : AddCall)
    (N : ((pre ++ c :: post).map (fun c => c.device.ID)).Nodup) :
    ∀ x, x ∈ pre ∨ x ∈ post → x.device.ID ≠ c.device.ID := by
  intro x hx heq
  rw [List.map_append, List.map_cons, List.nodup_middle, List.nodup_cons] at N
  apply N.1
  rw [← heq, ← List.map_append]
  exact List.mem_map.2 ⟨x, List.mem_append.2 hx, rfl⟩

/-- Every statement keeps the invariant. -/
theorem AddInv_step (s0 : MemoryStore) (st st' : AddState) (i : Nat)
    (hinv : AddInv s0 st) (h : st.step i = some st') : AddInv s0 st' := by
  obtain ⟨pre, post, c, c', hc, hc', hstep⟩ := AddState_step_split st st' i h
  obtain ⟨hid, _, hcases⟩ := AddCall_step_cases _ _ _ _ _ _ hstep
  obtain ⟨N, F, M, A, B, L, K⟩ := hinv
  rw [hc] at N F M A B L
  have hne := other_ids_ne pre post c N
  have hN' : ((pre ++ c' :: post).map (fun c => c.device.ID)).Nodup := by
    have : (pre ++ c' :: post).map (fun c => c.device.ID)
        = (pre ++ c :: post).map (fun c => c.device.ID) := by simp [hid]
    rw [this]; exact N
  have hmem : ∀ x, x ∈ pre ++ c' :: post ↔ (x ∈ pre ∨ x ∈ post) ∨ x = c' := by
    intro x; simp; tauto
  have hmem0 : ∀ x, (x ∈ pre ∨ x ∈ post) → x ∈ pre ++ c :: post := by
    intro x hx; simp; tauto
  have hc0 : c ∈ pre ++ c :: post := by simp
  have hFc := F c hc0
  have hlocked : c.pc.inCS = true → st.locked = true := by
    intro hin
    by_contra hl
    rw [filter_length_middle, hin] at M
    simp only [hl] at M
    simp at M
  unfold AddInv
  rw [hc']
  refine ⟨hN', ?_, ?_, ?_, ?_, ?_, ?_⟩
  · -- no failure
    intro x hx
    rcases (hmem x).1 hx with hx | rfl
    · exact F x (hmem0 x hx)
    · rcases hcases with ⟨_, _, _, _, _, hpc'⟩ | ⟨hpc, _, hs, _, hchk⟩ | ⟨_, _, _, hpc', _⟩
        | ⟨_, _, _, hpc', _⟩ | ⟨_, _, hpc', _⟩ | ⟨_, _, hpc', _⟩ | ⟨err, hpc, _, _, _, hpc'⟩
      · rw [hpc']; rfl
      · rcases hchk with ⟨_, hpc'⟩ | ⟨hsome, _⟩
        · rw [hpc']; rfl
        · have := A c hc0 (by rw [hpc]; rfl)
          rw [this] at hsome
          cases hsome
      · rw [hpc']; rfl
      · rw [hpc']; rfl
      · rw [hpc']; rfl
      · rw [hpc']; rfl
      · rw [hpc']
        rw [hpc] at hFc
        cases err <;> simp_all [AddPC.failed]
  · -- mutual exclusion
    rw [filter_length_middle] at M ⊢
    have hM : ∀ (a b : Bool), c.pc.inCS = a → c'.pc.inCS = b →
        ((if a = true then 1 else 0) + (if st'.locked = true then 1 else 0)
          = (if b = true then 1 else 0) + (if st.locked = true then 1 else 0)) →
        (List.filter (fun c => c.pc.inCS) pre).length
            + (List.filter (fun c => c.pc.inCS) post).length
            + (if c'.pc.inCS = true then 1 else 0)
          = if st'.locked = true then 1 else 0 := by
      intro a b ha hb hab
      rw [ha] at M
      rw [hb]
      omega
    rcases hcases with ⟨hpc, hl, hl', _, _, hpc'⟩ | ⟨hpc, hl', hs, _, hchk⟩
      | ⟨hpc, hl', _, hpc', _⟩ | ⟨hpc, hl', _, hpc', _⟩ | ⟨hpc, hl', hpc', _⟩
      | ⟨hpc, hl', hpc', _⟩ | ⟨err, hpc, hl', _, _, hpc'⟩
    · exact hM false true (by rw [hpc]; rfl) (by rw [hpc']; rfl) (by rw [hl, hl']; rfl)
    · have hin : c'.pc.inCS = true := by
        rcases hchk with ⟨_, hpc'⟩ | ⟨_, hpc'⟩ <;> rw [hpc'] <;> rfl
      exact hM true true (by rw [hpc]; rfl) hin (by rw [hl'])
    · exact hM true true (by rw [hpc]; rfl) (by rw [hpc']; rfl) (by rw [hl'])
    · exact hM true true (by rw [hpc]; rfl) (by rw [hpc']; rfl) (by rw [hl'])
    · exact hM true true (by rw [hpc]; rfl) (by rw [hpc']; rfl) (by rw [hl'])
    · exact hM true true (by rw [hpc]; rfl) (by rw [hpc']; rfl) (by rw [hl'])
    · have hl := hlocked (by rw [hpc]; rfl)
      exact hM true false (by rw [hpc]; rfl) (by rw [hpc']; rfl) (by rw [hl, hl']; rfl)
  · -- not inserted: absent
    intro x hx hnot
    rcases hcases with ⟨hpc, hl, hl', hs, hd, hpc'⟩ | ⟨hpc, hl', hs, hd, hchk⟩
      | ⟨hpc, hl', hs, hpc', hd⟩ | ⟨hpc, hl', hs, hpc', hd⟩ | ⟨hpc, hl', hpc', hd, hs⟩
      | ⟨hpc, hl', hpc', hd, hs⟩ | ⟨err, hpc, hl', hs, hd, hpc'⟩
    · rw [hs]
      rcases (hmem x).1 hx with hx | rfl
      · exact A x (hmem0 x hx) hnot
      · rw [hid]; exact A c hc0 (by rw [hpc]; rfl)
    · rw [hs]
      rcases (hmem x).1 hx with hx | rfl
      · exact A x (hmem0 x hx) hnot
      · rw [hid]; exact A c hc0 (by rw [hpc]; rfl)
    · rw [hs]
      rcases (hmem x).1 hx with hx | rfl
      · exact A x (hmem0 x hx) hnot
      · rw [hid]; exact A c hc0 (by rw [hpc]; rfl)
    · rw [hs]
      rcases (hmem x).1 hx with hx | rfl
      · exact A x (hmem0 x hx) hnot
      · rw [hid]; exact A c hc0 (by rw [hpc]; rfl)
    · rw [hs]
      rcases (hmem x).1 hx with hx | rfl
      · show GoMap.get? (GoMap.set st.store.devices c.device.ID c.device) x.device.ID = none
        rw [get?_set_of_ne _ _ _ _ (hne x hx)]
        exact A x (hmem0 x hx) hnot
      · rw [hpc'] at hnot
        cases hnot
    · rw [hs]
      rcases (hmem x).1 hx with hx | rfl
      · exact A x (hmem0 x hx) hnot
      · rw [hpc'] at hnot
        cases hnot
    · rw [hs]
      rcases (hmem x).1 hx with hx | rfl
      · exact A x (hmem0 x hx) hnot
      · rw [hid]
        apply A c hc0
        rw [hpc'] at hnot
        rw [hpc]
        cases err <;> simp_all [AddPC.inserted]
  · -- inserted: present
    intro x hx hins
    rcases hcases with ⟨hpc, hl, hl', hs, hd, hpc'⟩ | ⟨hpc, hl', hs, hd, hchk⟩
      | ⟨hpc, hl', hs, hpc', hd⟩ | ⟨hpc, hl', hs, hpc', hd⟩ | ⟨hpc, hl', hpc', hd, hs⟩
      | ⟨hpc, hl', hpc', hd, hs⟩ | ⟨err, hpc, hl', hs, hd, hpc'⟩
    · rw [hs]
      rcases (hmem x).1 hx with hx | rfl
      · exact B x (hmem0 x hx) hins
      · rw [hpc'] at hins; cases hins
    · rw [hs]
      rcases (hmem x).1 hx with hx | rfl
      · exact B x (hmem0 x hx) hins
      · rcases hchk with ⟨_, hpc'⟩ | ⟨_, hpc'⟩ <;> rw [hpc'] at hins <;> cases hins
    · rw [hs]
      rcases (hmem x).1 hx with hx | rfl
      · exact B x (hmem0 x hx) hins
      · rw [hpc'] at hins; cases hins
    · rw [hs]
      rcases (hmem x).1 hx with hx | rfl
      · exact B x (hmem0 x hx) hins
      · rw [hpc'] at hins; cases hins
    · rw [hs]
      rcases (hmem x).1 hx with hx | rfl
      · show GoMap.get? (GoMap.set st.store.devices c.device.ID c.device) x.device.ID = _
        rw [get?_set_of_ne _ _ _ _ (hne x hx)]
        exact B x (hmem0 x hx) hins
      · show GoMap.get? (GoMap.set st.store.devices c.device.ID c.device) x.device.ID = _
        rw [hid, hd]
        exact get?_set_self _ _ _
    · rw [hs]
      rcases (hmem x).1 hx with hx | rfl
      · exact B x (hmem0 x hx) hins
      · rw [hid, hd]; exact B c hc0 (by rw [hpc]; rfl)
    · rw [hs]
      rcases (hmem x).1 hx with hx | rfl
      · exact B x (hmem0 x hx) hins
      · rw [hid, hd]
        apply B c hc0
        rw [hpc'] at hins
        rw [hpc]
        cases err <;> simp_all [AddPC.inserted]
  · -- the count
    rw [filter_length_middle] at L ⊢
    have hL : ∀ (a b : Bool) (n : Nat), c.pc.inserted = a → c'.pc.inserted = b →
        st'.store.devices.length = st.store.devices.length + n →
        ((if a = true then 1 else 0) + n = (if b = true then 1 else 0)) →
        st'.store.devices.length
          = s0.devices.length
            + ((List.filter (fun c => c.pc.inserted) pre).length
              + (List.filter (fun c => c.pc.inserted) post).length
              + (if c'.pc.inserted = true then 1 else 0)) := by
      intro a b n ha hb hlen hab
      rw [ha] at L
      rw [hb, hlen]
      omega
    rcases hcases with ⟨hpc, hl, hl', hs, hd, hpc'⟩ | ⟨hpc, hl', hs, hd, hchk⟩
      | ⟨hpc, hl', hs, hpc', hd⟩ | ⟨hpc, hl', hs, hpc', hd⟩ | ⟨hpc, hl', hpc', hd, hs⟩
      | ⟨hpc, hl', hpc', hd, hs⟩ | ⟨err, hpc, hl', hs, hd, hpc'⟩
    · exact hL false false 0 (by rw [hpc]; rfl) (by rw [hpc']; rfl) (by rw [hs]; rfl) rfl
    · have hni : c'.pc.inserted = false := by
        rcases hchk with ⟨_, hpc'⟩ | ⟨_, hpc'⟩ <;> rw [hpc'] <;> rfl
      exact hL false false 0 (by rw [hpc]; rfl) hni (by rw [hs]; rfl) rfl
    · exact hL false false 0 (by rw [hpc]; rfl) (by rw [hpc']; rfl) (by rw [hs]; rfl) rfl
    · exact hL false false 0 (by rw [hpc]; rfl) (by rw [hpc']; rfl) (by rw [hs]; rfl) rfl
    · have habs := A c hc0 (by rw [hpc]; rfl)
      refine hL false true 1 (by rw [hpc]; rfl) (by rw [hpc']; rfl) ?_ rfl
      rw [hs]
      show (GoMap.set st.store.devices c.device.ID c.device).length = _
      rw [set_of_get?_none _ _ _ habs]
      simp
    · exact hL true true 0 (by rw [hpc]; rfl) (by rw [hpc']; rfl) (by rw [hs]; rfl) rfl
    · rw [hpc] at hFc
      cases err with
      | none =>
        exact hL true true 0 (by rw [hpc]; rfl) (by rw [hpc']; rfl) (by rw [hs]; rfl) rfl
      | some e => simp [AddPC.failed] at hFc
  · -- the devices of the start are kept
    intro k d hk
    have hold := K k d hk
    rcases hcases with ⟨hpc, hl, hl', hs, hd, hpc'⟩ | ⟨hpc, hl', hs, hd, hchk⟩
      | ⟨hpc, hl', hs, hpc', hd⟩ | ⟨hpc, hl', hs, hpc', hd⟩ | ⟨hpc, hl', hpc', hd, hs⟩
      | ⟨hpc, hl', hpc', hd, hs⟩ | ⟨err, hpc, hl', hs, hd, hpc'⟩
    · rw [hs]; exact hold
    · rw [hs]; exact hold
    · rw [hs]; exact hold
    · rw [hs]; exact hold
    · rw [hs]
      show GoMap.get? (GoMap.set st.store.devices c.device.ID c.device) k = _
      have habs := A c hc0 (by rw [hpc]; rfl)
      have hkne : k ≠ c.device.ID := by
        intro heq
        rw [heq, habs] at hold
        cases hold
      rw [get?_set_of_ne _ _ _ _ hkne]
      exact hold
    · rw [hs]; exact hold
    · rw [hs]; exact hold
theorem AddInv_start (s : MemoryStore) (calls : List (Device × Time))
    (hdistinct : (calls.map (fun c => c.1.ID)).Nodup)
    (hfresh : ∀ c ∈ calls, s.devices.get? c.1.ID = none) :
    AddInv s (startAdds s calls) := by
  unfold AddInv startAdds
  have hnot : ∀ (p : AddPC → Bool), p .lock = false →
      (List.filter (fun c : AddCall => p c.pc)
        (calls.map (fun c => { device := c.1, now := c.2, pc := .lock }))) = [] := by
    intro p hp
    rw [List.filter_eq_nil_iff]
    intro a ha
    obtain ⟨c, _, rfl⟩ := List.mem_map.1 ha
    simp [hp]
  refine ⟨?_, ?_, ?_, ?_, ?_, ?_, ?_⟩
  · simpa [List.map_map, Function.comp] using hdistinct
  · intro c hc
    obtain ⟨c0, _, rfl⟩ := List.mem_map.1 hc
    rfl
  · rw [hnot AddPC.inCS rfl]
    rfl
  · intro c hc _
    obtain ⟨c0, hc0, rfl⟩ := List.mem_map.1 hc
    exact hfresh c0 hc0
  · intro c hc hins
    obtain ⟨c0, hc0, rfl⟩ := List.mem_map.1 hc
    cases hins
  · rw [hnot AddPC.inserted rfl]
    rfl
  · intro k d hk
    exact hk

theorem AddInv_run (s0 : MemoryStore) (schedule : List Nat) (st st' : AddState)
    (hinv : AddInv s0 st) (h : runSchedule schedule st = some st') : AddInv s0 st' := by
  induction schedule generalizing st with
  | nil =>
    simp only [runSchedule, Option.some.injEq] at h
    rw [← h]; exact hinv
  | cons i rest ih =>
    unfold runSchedule at h
    cases hstep : st.step i with
    | none => simp [hstep] at h
    | some st1 =>
      simp only [hstep] at h
      exact ih st1 (AddInv_step s0 st st1 i hinv hstep) h

/-- A statement changes no id and strictly lowers the bound on the statements left. -/
theorem AddState_step_ids (st st' : AddState) (i : Nat) (h : st.step i = some st') :
    st'.calls.map (fun c => c.device.ID) = st.calls.map (fun c => c.device.ID)
    ∧ st'.remaining < st.remaining := by
  obtain ⟨pre, post, c, c', hc, hc', hstep⟩ := AddState_step_split st st' i h
  obtain ⟨hid, _, hcases⟩ := AddCall_step_cases _ _ _ _ _ _ hstep
  refine ⟨by rw [hc, hc']; simp [hid], ?_⟩
  unfold AddState.remaining
  rw [hc, hc']
  simp only [List.map_append, List.map_cons, List.sum_append, List.sum_cons]
  have hlt : c'.pc.remaining < c.pc.remaining := by
    rcases hcases with ⟨hpc, _, _, _, _, hpc'⟩ | ⟨hpc, _, _, _, hchk⟩ | ⟨hpc, _, _, hpc', _⟩
      | ⟨hpc, _, _, hpc', _⟩ | ⟨hpc, _, hpc', _⟩ | ⟨hpc, _, hpc', _⟩
      | ⟨err, hpc, _, _, _, hpc'⟩
    · rw [hpc, hpc']; simp [AddPC.remaining]
    · rcases hchk with ⟨_, hpc'⟩ | ⟨_, hpc'⟩ <;> rw [hpc, hpc'] <;> simp [AddPC.remaining]
    · rw [hpc, hpc']; simp [AddPC.remaining]
    · rw [hpc, hpc']; simp [AddPC.remaining]
    · rw [hpc, hpc']; simp [AddPC.remaining]
    · rw [hpc, hpc']; simp [AddPC.remaining]
    · rw [hpc, hpc']; simp [AddPC.remaining]
  omega

theorem runSchedule_ids (schedule : List Nat) (st st' : AddState)
    (h : runSchedule schedule st = some st') :
    st'.calls.map (fun c => c.device.ID) = st.calls.map (fun c => c.device.ID)
    ∧ schedule.length + st'.remaining ≤ st.remaining := by
  induction schedule generalizing st with
  | nil =>
    simp only [runSchedule, Option.some.injEq] at h
    rw [← h]; exact ⟨rfl, by simp⟩
  | cons i rest ih =>
    unfold runSchedule at h
    cases hstep : st.step i with
    | none => simp [hstep] at h
    | some st1 =>
      simp only [hstep] at h
      obtain ⟨h1, h2⟩ := ih st1 h
      obtain ⟨g1, g2⟩ := AddState_step_ids st st1 i hstep
      exact ⟨h1.trans g1, by simp only [List.length_cons]; omega⟩

theorem startAdds_remaining (s : MemoryStore) (calls : List (Device × Time)) :
    (startAdds s calls).remaining = 7 * calls.length := by
  unfold AddState.remaining startAdds
  induction calls with
  | nil => rfl
  | cons c rest ih =>
    simp only [List.map_cons, List.sum_cons, List.length_cons] at ih ⊢
    rw [ih]
    show 7 + 7 * rest.length = 7 * (rest.length + 1)
    omega

/-- No deadlock: while a call has not returned, some goroutine can run a statement. -/
theorem AddInv_progress (s0 : MemoryStore) (st : AddState) (hinv : AddInv s0 st)
    (hnd : st.allDone = false) : ∃ i st', st.step i = some st' := by
  obtain ⟨_, _, M, _⟩ := hinv
  have hstep_of : ∀ c ∈ st.calls, (∃ r, c.step st.store st.locked = some r) →
      ∃ i st', st.step i = some st' := by
    intro c hc ⟨r, hr⟩
    obtain ⟨i, hi, hget⟩ := List.mem_iff_getElem.1 hc
    refine ⟨i, { store := r.1, locked := r.2.1, calls := st.calls.set i r.2.2 }, ?_⟩
    unfold AddState.step
    simp only [List.get?_eq_getElem?, List.getElem?_eq_getElem hi, hget, hr]
  by_cases hl : st.locked = true
  · rw [if_pos hl] at M
    have hne : List.filter (fun c => c.pc.inCS) st.calls ≠ [] := by
      intro h0
      rw [h0] at M
      cases M
    obtain ⟨c, hc⟩ := List.exists_mem_of_ne_nil _ hne
    obtain ⟨hc1, hc2⟩ := List.mem_filter.1 hc
    apply hstep_of c hc1
    unfold AddCall.step
    cases hpc : c.pc with
    | lock => rw [hpc] at hc2; cases hc2
    | done e => rw [hpc] at hc2; cases hc2
    | check => cases hd : st.store.devices.get? c.device.ID <;> exact ⟨_, rfl⟩
    | stampCreated => exact ⟨_, rfl⟩
    | stampUpdated => exact ⟨_, rfl⟩
    | insert => exact ⟨_, rfl⟩
    | event => exact ⟨_, rfl⟩
    | unlock e => exact ⟨_, rfl⟩
  · have hl0 : st.locked = false := by simpa using hl
    rw [if_neg hl] at M
    have hnil := List.length_eq_zero.1 M
    unfold AddState.allDone at hnd
    rw [List.all_eq_false] at hnd
    obtain ⟨c, hc, hcd⟩ := hnd
    have hnin : c.pc.inCS = false := by
      by_contra hin
      have : c ∈ List.filter (fun c => c.pc.inCS) st.calls :=
        List.mem_filter.2 ⟨hc, by simpa using hin⟩
      rw [hnil] at this
      cases this
    apply hstep_of c hc
    unfold AddCall.step
    cases hpc : c.pc with
    | lock => rw [hl0]; exact ⟨_, rfl⟩
    | done e => rw [hpc] at hcd; exact absurd rfl hcd
    | check => rw [hpc] at hnin; cases hnin
    | stampCreated => rw [hpc] at hnin; cases hnin
    | stampUpdated => rw [hpc] at hnin; cases hnin
    | insert => rw [hpc] at hnin; cases hnin
    | event => rw [hpc] at hnin; cases hnin
    | unlock e => rw [hpc] at hnin; cases hnin

theorem runSchedule_append (a b : List Nat) (st st1 st2 : AddState)
    (h1 : runSchedule a st = some st1) (h2 : runSchedule b st1 = some st2) :
    runSchedule (a ++ b) st = some st2 := by
  induction a generalizing st with
  | nil =>
    simp only [runSchedule, Option.some.injEq] at h1
    rw [h1]; exact h2
  | cons i rest ih =>
    unfold runSchedule at h1
    cases hstep : st.step i with
    | none => simp [hstep] at h1
    | some st' =>
      simp only [hstep] at h1
      show runSchedule (i :: (rest ++ b)) st = some st2
      unfold runSchedule
      simp only [hstep]
      exact ih st' h1

/-- Every state the calls can reach can be run on until every call has returned. -/
theorem AddInv_completes (s0 : MemoryStore) (n : Nat) (st : AddState) (hinv : AddInv s0 st)
    (hn : st.remaining ≤ n) :
    ∃ rest final, runSchedule rest st = some final ∧ final.allDone = true := by
  induction n generalizing st with
  | zero =>
    by_cases hd : st.allDone = true
    · exact ⟨[], st, rfl, hd⟩
    · obtain ⟨i, st', hstep⟩ := AddInv_progress s0 st hinv (by simpa using hd)
      have := (AddState_step_ids st st' i hstep).2
      omega
  | succ n ih =>
    by_cases hd : st.allDone = true
    · exact ⟨[], st, rfl, hd⟩
    · obtain ⟨i, st', hstep⟩ := AddInv_progress s0 st hinv (by simpa using hd)
      have hlt := (AddState_step_ids st st' i hstep).2
      obtain ⟨rest, final, hr, hf⟩ := ih st' (AddInv_step s0 st st' i hinv hstep) (by omega)
      refine ⟨i :: rest, final, ?_, hf⟩
      unfold runSchedule
      simp only [hstep]
      exact hr

/-- What the invariant gives once every call has returned. -/
theorem AddInv_final (s0 : MemoryStore) (st : AddState) (hinv : AddInv s0 st)
    (hd : st.allDone = true) :
    st.errors = List.replicate st.calls.length none
    ∧ st.store.devices.length = s0.devices.length + st.calls.length
    ∧ st.locked = false
    ∧ (∀ c ∈ st.calls, st.store.devices.get? c.device.ID = some c.device) := by
  obtain ⟨_, F, M, _, B, L, _⟩ := hinv
  unfold AddState.allDone at hd
  rw [List.all_eq_true] at hd
  have hpc : ∀ c ∈ st.calls, c.pc = .done none := by
    intro c hc
    have h1 := hd c hc
    have h2 := F c hc
    cases hp : c.pc with
    | done e =>
      cases e with
      | none => rfl
      | some e => rw [hp] at h2; cases h2
    | _ => rw [hp] at h1; cases h1
  have hins : ∀ c ∈ st.calls, c.pc.inserted = true := by
    intro c hc; rw [hpc c hc]; rfl
  have hcs : ∀ c ∈ st.calls, c.pc.inCS = false := by
    intro c hc; rw [hpc c hc]; rfl
  refine ⟨?_, ?_, ?_, fun c hc => B c hc (hins c hc)⟩
  · unfold AddState.errors
    rw [List.eq_replicate_iff]
    refine ⟨by simp, ?_⟩
    intro e he
    obtain ⟨c, hc, rfl⟩ := List.mem_map.1 he
    rw [hpc c hc]
  · rw [L, List.filter_eq_self.2 hins]
  · have h0 : List.filter (fun c => c.pc.inCS) st.calls = [] := by
      rw [List.filter_eq_nil_iff]
      intro c hc
      simp [hcs c hc]
    rw [h0] at M
    by_contra hl
    have : st.locked = true := by simpa using hl
    rw [if_pos this] at M
    cases M

/-- A call that runs alone is `AddDevice` when its id is new: seven statements, the store
and the error of `AddDevice`, the lock released. -/
theorem runSchedule_alone_fresh (s : MemoryStore) (device : Device) (now : Time)
    (h : s.devices.get? device.ID = none) :
    runSchedule [0, 0, 0, 0, 0, 0, 0] (startAdds s [(device, now)])
      = some { store := (s.AddDevice device now).1, locked := false,
               calls := [{ device := { device with CreatedAt := now, LastUpdated := now },
                           now := now, pc := .done (s.AddDevice device now).2 }] } := by
  simp [runSchedule, startAdds, AddState.step, AddCall.step, MemoryStore.AddDevice, h]

/-- A call that runs alone is `AddDevice` when its id is stored: it takes the lock, finds
the id, and returns the error with the store as it was. -/
theorem runSchedule_alone_stored (s : MemoryStore) (device d0 : Device) (now : Time)
    (h : s.devices.get? device.ID = some d0) :
    runSchedule [0, 0, 0] (startAdds s [(device, now)])
      = some { store := (s.AddDevice device now).1, locked := false,
               calls := [{ device := device, now := now,
                           pc := .done (s.AddDevice device now).2 }] } := by
  simp [runSchedule, startAdds, AddState.step, AddCall.step, MemoryStore.AddDevice, h]
theorem AddStamped_start (s : MemoryStore) (calls : List (Device × Time)) :
    AddStamped calls (startAdds s calls) := by
  refine ⟨by simp [startAdds, List.map_map, Function.comp], ?_⟩
  intro c hc
  obtain ⟨o, _, rfl⟩ := List.mem_map.1 hc
  exact ⟨(fun h => by cases h), (fun h => by cases h)⟩

theorem AddStamped_step (calls : List (Device × Time)) (st st' : AddState) (i : Nat)
    (hinv : AddStamped calls st) (h : st.step i = some st') : AddStamped calls st' := by
  obtain ⟨pre, post, c, c', hc, hc', hstep⟩ := AddState_step_split st st' i h
  obtain ⟨_, hnow, hcases⟩ := AddCall_step_cases _ _ _ _ _ _ hstep
  obtain ⟨hmap, hmem⟩ := hinv
  have hcm := hmem c (by rw [hc]; simp)
  have hkey : c'.device.unstamped = c.device.unstamped
      ∧ (c'.pc.createdSet = true → c'.device.CreatedAt = c.now)
      ∧ (c'.pc.updatedSet = true → c'.device.LastUpdated = c.now) := by
    rcases hcases with ⟨hpc, _, _, _, hdev, hpc'⟩ | ⟨hpc, _, _, hdev, hchk⟩
      | ⟨hpc, _, _, hpc', hdev⟩ | ⟨hpc, _, _, hpc', hdev⟩ | ⟨hpc, _, hpc', hdev, _⟩
      | ⟨hpc, _, hpc', hdev, _⟩ | ⟨err, hpc, _, _, hdev, hpc'⟩
    · rw [hdev, hpc']
      exact ⟨rfl, (fun h => by cases h), (fun h => by cases h)⟩
    · rcases hchk with ⟨_, hpc'⟩ | ⟨_, hpc'⟩ <;> rw [hdev, hpc'] <;>
        exact ⟨rfl, (fun h => by cases h), (fun h => by cases h)⟩
    · rw [hdev, hpc']
      exact ⟨rfl, (fun _ => rfl), (fun h => by cases h)⟩
    · rw [hdev, hpc']
      refine ⟨rfl, fun _ => ?_, fun _ => rfl⟩
      exact hcm.1 (by rw [hpc]; rfl)
    · rw [hdev, hpc']
      exact ⟨rfl, fun _ => hcm.1 (by rw [hpc]; rfl), fun _ => hcm.2 (by rw [hpc]; rfl)⟩
    · rw [hdev, hpc']
      exact ⟨rfl, fun _ => hcm.1 (by rw [hpc]; rfl), fun _ => hcm.2 (by rw [hpc]; rfl)⟩
    · rw [hdev, hpc']
      rw [hpc] at hcm
      cases err with
      | none => exact ⟨rfl, fun _ => hcm.1 rfl, fun _ => hcm.2 rfl⟩
      | some e => exact ⟨rfl, (fun h => by cases h), (fun h => by cases h)⟩
  refine ⟨?_, ?_⟩
  · rw [← hmap, hc, hc']
    simp [hkey.1, hnow]
  · intro x hx
    rw [hc'] at hx
    rcases List.mem_append.1 hx with hx | hx
    · exact hmem x (by rw [hc]; exact List.mem_append_left _ hx)
    · rcases List.mem_cons.1 hx with rfl | hx
      · rw [hnow]; exact hkey.2
      · exact hmem x (by rw [hc]; exact List.mem_append_right _ (List.mem_cons_of_mem _ hx))

theorem AddStamped_run (calls : List (Device × Time)) (schedule : List Nat)
    (st st' : AddState) (hinv : AddStamped calls st)
    (h : runSchedule schedule st = some st') : AddStamped calls st' := by
  induction schedule generalizing st with
  | nil =>
    simp only [runSchedule, Option.some.injEq] at h
    rw [← h]; exact hinv
  | cons i rest ih =>
    unfold runSchedule at h
    cases hstep : st.step i with
    | none => simp [hstep] at h
    | some st1 =>
      simp only [hstep] at h
      exact ih st1 (AddStamped_step calls st st1 i hinv hstep) h

/-- A device is its unstamped part and its two stamps. -/
theorem Device_of_unstamped (d o : Device) (t : Time) (h : d.unstamped = o.unstamped)
    (hc : d.CreatedAt = t) (hu : d.LastUpdated = t) :
    d = { o with CreatedAt := t, LastUpdated := t } := by
  cases d
  cases o
  simp only [Device.unstamped, Device.mk.injEq] at h hc hu ⊢
  simp_all

theorem roundHalfEven_cases (q : Rat) :
    (roundHalfEven q = ⌊q⌋ ∧ q - ⌊q⌋ ≤ 1 / 2)
    ∨ (roundHalfEven q = ⌊q⌋ + 1 ∧ 1 / 2 ≤ q - ⌊q⌋) := by
  unfold roundHalfEven
  split_ifs with h1 h2 h3
  · exact Or.inl ⟨rfl, le_of_lt h1⟩
  · exact Or.inr ⟨rfl, le_of_lt h2⟩
  · exact Or.inl ⟨rfl, not_lt.1 h2⟩
  · exact Or.inr ⟨rfl, not_lt.1 h1⟩

theorem roundHalfEven_mono {p q : Rat} (h : p ≤ q) : roundHalfEven p ≤ roundHalfEven q := by
  have hf : ⌊p⌋ ≤ ⌊q⌋ := Int.floor_mono h
  rcases lt_or_eq_of_le hf with hlt | heq
  · have h1 : roundHalfEven p ≤ ⌊p⌋ + 1 := by
      rcases roundHalfEven_cases p with ⟨e, _⟩ | ⟨e, _⟩ <;> omega
    have h2 : ⌊q⌋ ≤ roundHalfEven q := by
      rcases roundHalfEven_cases q with ⟨e, _⟩ | ⟨e, _⟩ <;> omega
    omega
  · unfold roundHalfEven
    rw [heq]
    split_ifs <;> first | omega | (exfalso; linarith)

theorem roundHalfEven_intCast (n : Int) : roundHalfEven (n : Rat) = n := by
  unfold roundHalfEven
  simp

theorem roundHalfEven_error (q : Rat) : |(roundHalfEven q : Rat) - q| ≤ 1 / 2 := by
  have h1 := Int.floor_le q
  have h2 := Int.lt_floor_add_one q
  rw [abs_le]
  rcases roundHalfEven_cases q with ⟨e, h⟩ | ⟨e, h⟩
  · rw [e]; constructor <;> linarith
  · rw [e]; push_cast; constructor <;> linarith

theorem two_zpow_pos (e : Int) : (0 : Rat) < 2 ^ e := zpow_pos (by norm_num) e

theorem two_zpow_succ (e : Int) : (2 : Rat) ^ (e + 1) = 2 ^ e * 2 :=
  zpow_add_one₀ (by norm_num) e

theorem two_zpow_mono {a b : Int} (h : a ≤ b) : (2 : Rat) ^ a ≤ 2 ^ b :=
  zpow_le_zpow_right₀ (by norm_num) h

theorem binadeFrom_spec (x : Rat) (k : Nat) (e : Int) :
    e ≤ binadeFrom x k e ∧ binadeFrom x k e < e + 2 ^ k
    ∧ (e < binadeFrom x k e → (2 : Rat) ^ binadeFrom x k e ≤ x)
    ∧ (binadeFrom x k e < e + 2 ^ k - 1 ∨ x < (2 : Rat) ^ (e + 2 ^ k) →
        x < (2 : Rat) ^ (binadeFrom x k e + 1)) := by
  induction k generalizing e with
  | zero =>
    refine ⟨le_refl _, by simp [binadeFrom], fun h => absurd h (lt_irrefl _), ?_⟩
    intro h
    rcases h with h | h
    · simp [binadeFrom] at h
    · simpa [binadeFrom] using h
  | succ n ih =>
    have hp : (0 : Int) < 2 ^ n := by positivity
    have h2 : (2 : Int) ^ (n + 1) = 2 ^ n + 2 ^ n := by rw [pow_succ]; ring
    unfold binadeFrom
    split_ifs with h
    · obtain ⟨h1, h3, h4, h5⟩ := ih (e + 2 ^ n)
      refine ⟨by omega, by omega, ?_, ?_⟩
      · intro _
        rcases lt_or_eq_of_le h1 with hlt | heq
        · exact h4 hlt
        · rw [← heq]; exact h
      · intro hh
        apply h5
        rcases hh with hh | hh
        · left; omega
        · right
          have e1 : e + 2 ^ n + 2 ^ n = e + 2 ^ (n + 1) := by omega
          rw [e1]; exact hh
    · obtain ⟨h1, h3, h4, h5⟩ := ih e
      refine ⟨h1, by omega, h4, ?_⟩
      intro _
      exact h5 (Or.inr (not_le.1 h))

theorem binadeFrom_mono {x y : Rat} (h : x ≤ y) (k : Nat) (e : Int) :
    binadeFrom x k e ≤ binadeFrom y k e := by
  induction k generalizing e with
  | zero => simp [binadeFrom]
  | succ n ih =>
    unfold binadeFrom
    split_ifs with h1 h2 h2
    · exact ih _
    · exact absurd (le_trans h1 h) h2
    · have a := (binadeFrom_spec x n e).2.1
      have b := (binadeFrom_spec y n (e + 2 ^ n)).1
      omega
    · exact ih _

theorem binade_spec (x : Rat) :
    -1022 ≤ binade x ∧ binade x ≤ 1023
    ∧ (-1022 < binade x → (2 : Rat) ^ binade x ≤ |x|)
    ∧ (binade x < 1023 → |x| < (2 : Rat) ^ (binade x + 1)) := by
  obtain ⟨h1, h2, h3, h4⟩ := binadeFrom_spec |x| 11 (-1022)
  unfold binade
  refine ⟨le_min (by norm_num) h1, min_le_left _ _, ?_, ?_⟩
  · intro hlt
    have hr : -1022 < binadeFrom |x| 11 (-1022) := lt_of_lt_of_le hlt (min_le_right _ _)
    exact le_trans (two_zpow_mono (min_le_right _ _)) (h3 hr)
  · intro hlt
    have hr : binadeFrom |x| 11 (-1022) < 1023 := by
      by_contra hn
      rw [min_eq_left (not_lt.1 hn)] at hlt
      exact absurd hlt (lt_irrefl _)
    rw [min_eq_right (le_of_lt hr)]
    exact h4 (Or.inl (by norm_num; omega))

theorem binade_mono {x y : Rat} (h : |x| ≤ |y|) : binade x ≤ binade y :=
  min_le_min (le_refl _) (binadeFrom_mono h 11 (-1022))

theorem ulp_pos (x : Rat) : 0 < ulp x := two_zpow_pos _

/-- From an integer bound on the scaled value to a bound on the rounded value. -/
theorem roundBinary64_le_of_le (x : Rat) (n : Int) (h : x ≤ n * ulp x) :
    roundBinary64 x ≤ n * ulp x := by
  unfold roundBinary64
  have hu := ulp_pos x
  have h1 : x / ulp x ≤ (n : Rat) := by rw [div_le_iff₀ hu]; exact h
  have h2 := roundHalfEven_mono h1
  rw [roundHalfEven_intCast] at h2
  have h3 : ((roundHalfEven (x / ulp x) : Int) : Rat) ≤ (n : Rat) := by exact_mod_cast h2
  exact mul_le_mul_of_nonneg_right h3 (le_of_lt hu)

theorem le_roundBinary64_of_le (x : Rat) (n : Int) (h : n * ulp x ≤ x) :
    n * ulp x ≤ roundBinary64 x := by
  unfold roundBinary64
  have hu := ulp_pos x
  have h1 : (n : Rat) ≤ x / ulp x := by rw [le_div_iff₀ hu]; exact h
  have h2 := roundHalfEven_mono h1
  rw [roundHalfEven_intCast] at h2
  have h3 : (n : Rat) ≤ ((roundHalfEven (x / ulp x) : Int) : Rat) := by exact_mod_cast h2
  exact mul_le_mul_of_nonneg_right h3 (le_of_lt hu)

theorem two_zpow_split (e : Int) : ((2 ^ 52 : Int) : Rat) * 2 ^ (e - 52) = 2 ^ e := by
  have : (2 : Rat) ^ e = 2 ^ (52 : Int) * 2 ^ (e - 52) := by
    rw [← zpow_add₀ (by norm_num : (2 : Rat) ≠ 0)]
    congr 1
    omega
  rw [this]
  norm_num

theorem two_zpow_split_succ (e : Int) : ((2 ^ 53 : Int) : Rat) * 2 ^ (e - 52) = 2 ^ (e + 1) := by
  have : (2 : Rat) ^ (e + 1) = 2 ^ (53 : Int) * 2 ^ (e - 52) := by
    rw [← zpow_add₀ (by norm_num : (2 : Rat) ≠ 0)]
    congr 1
    omega
  rw [this]
  norm_num
/-- Rounding to binary64 is monotone. -/
theorem roundBinary64_mono {x y : Rat} (h : x ≤ y) : roundBinary64 x ≤ roundBinary64 y := by
  have hsame : binade x = binade y → roundBinary64 x ≤ roundBinary64 y := by
    intro heq
    unfold roundBinary64 ulp
    rw [heq]
    have hu := two_zpow_pos (binade y - 52)
    have h1 := roundHalfEven_mono (div_le_div_of_nonneg_right h (le_of_lt hu))
    have h2 : ((roundHalfEven (x / 2 ^ (binade y - 52)) : Int) : Rat)
        ≤ ((roundHalfEven (y / 2 ^ (binade y - 52)) : Int) : Rat) := by exact_mod_cast h1
    exact mul_le_mul_of_nonneg_right h2 (le_of_lt hu)
  rcases le_total 0 x with hx | hx
  · have hy : 0 ≤ y := le_trans hx h
    have habs : |x| ≤ |y| := by rw [abs_of_nonneg hx, abs_of_nonneg hy]; exact h
    rcases lt_or_eq_of_le (binade_mono habs) with hlt | heq
    · obtain ⟨_, hx2, _, hx4⟩ := binade_spec x
      obtain ⟨hy1, _, hy3, _⟩ := binade_spec y
      have hxlt : x < 2 ^ (binade x + 1) := by
        have := hx4 (by omega)
        rwa [abs_of_nonneg hx] at this
      have hyge : (2 : Rat) ^ binade y ≤ y := by
        have := hy3 (by omega)
        rwa [abs_of_nonneg hy] at this
      have h1 : roundBinary64 x ≤ 2 ^ (binade x + 1) := by
        have := roundBinary64_le_of_le x (2 ^ 53)
          (by unfold ulp; rw [two_zpow_split_succ]; exact le_of_lt hxlt)
        unfold ulp at this
        rwa [two_zpow_split_succ] at this
      have h2 : (2 : Rat) ^ binade y ≤ roundBinary64 y := by
        have := le_roundBinary64_of_le y (2 ^ 52)
          (by unfold ulp; rw [two_zpow_split]; exact hyge)
        unfold ulp at this
        rwa [two_zpow_split] at this
      exact le_trans h1 (le_trans (two_zpow_mono (by omega)) h2)
    · exact hsame heq
  · rcases le_total y 0 with hy | hy
    · have habs : |y| ≤ |x| := by rw [abs_of_nonpos hx, abs_of_nonpos hy]; linarith
      rcases lt_or_eq_of_le (binade_mono habs) with hlt | heq
      · obtain ⟨_, hy2, _, hy4⟩ := binade_spec y
        obtain ⟨hx1, _, hx3, _⟩ := binade_spec x
        have hygt : -(2 : Rat) ^ (binade y + 1) < y := by
          have := hy4 (by omega)
          rw [abs_of_nonpos hy] at this
          linarith
        have hxle : x ≤ -(2 : Rat) ^ binade x := by
          have := hx3 (by omega)
          rw [abs_of_nonpos hx] at this
          linarith
        have h1 : -(2 : Rat) ^ (binade y + 1) ≤ roundBinary64 y := by
          have := le_roundBinary64_of_le y (-(2 ^ 53))
            (by unfold ulp; push_cast; rw [neg_mul]
                have e := two_zpow_split_succ (binade y)
                push_cast at e
                rw [e]; exact le_of_lt hygt)
          unfold ulp at this
          push_cast at this
          rw [neg_mul] at this
          have e := two_zpow_split_succ (binade y)
          push_cast at e
          rwa [e] at this
        have h2 : roundBinary64 x ≤ -(2 : Rat) ^ binade x := by
          have := roundBinary64_le_of_le x (-(2 ^ 52))
            (by unfold ulp; push_cast; rw [neg_mul]
                have e := two_zpow_split (binade x)
                push_cast at e
                rw [e]; exact hxle)
          unfold ulp at this
          push_cast at this
          rw [neg_mul] at this
          have e := two_zpow_split (binade x)
          push_cast at e
          rwa [e] at this
        have h3 : (2 : Rat) ^ (binade y + 1) ≤ 2 ^ binade x := two_zpow_mono (by omega)
        linarith
      · exact hsame heq.symm
    · have h1 : roundBinary64 x ≤ 0 := by
        have := roundBinary64_le_of_le x 0 (by simpa using hx)
        simpa using this
      have h2 : 0 ≤ roundBinary64 y := by
        have := le_roundBinary64_of_le y 0 (by simpa using hy)
        simpa using this
      exact le_trans h1 h2

/-- The rounding error is at most half the distance of neighbouring binary64 numbers. -/
theorem roundBinary64_error (x : Rat) : |roundBinary64 x - x| ≤ ulp x / 2 := by
  unfold roundBinary64
  have hu := ulp_pos x
  have h := roundHalfEven_error (x / ulp x)
  have e : (roundHalfEven (x / ulp x) : Rat) * ulp x - x
      = ((roundHalfEven (x / ulp x) : Rat) - x / ulp x) * ulp x := by
    field_simp
  rw [e, abs_mul, abs_of_pos hu]
  calc |(roundHalfEven (x / ulp x) : Rat) - x / ulp x| * ulp x ≤ 1 / 2 * ulp x :=
        mul_le_mul_of_nonneg_right h (le_of_lt hu)
    _ = ulp x / 2 := by ring

/-- Below `2^52` in magnitude neighbouring binary64 numbers are at most a half apart. -/
theorem ulp_le_half (x : Rat) (h : |x| < 2 ^ 52) : ulp x ≤ 1 / 2 := by
  obtain ⟨_, _, h3, _⟩ := binade_spec x
  have he : binade x ≤ 51 := by
    by_contra hne
    have hge : (52 : Int) ≤ binade x := by omega
    have h1 := h3 (by omega)
    have h2 : (2 : Rat) ^ (52 : Int) ≤ 2 ^ binade x := two_zpow_mono hge
    have h4 : (2 : Rat) ^ (52 : Int) = 2 ^ 52 := by norm_num
    linarith
  unfold ulp
  have h5 : (2 : Rat) ^ (binade x - 52) ≤ 2 ^ (-1 : Int) := two_zpow_mono (by omega)
  have h6 : (2 : Rat) ^ (-1 : Int) = 1 / 2 := by norm_num
  rw [h6] at h5
  exact h5

/-- The thermostat tick on a device that holds both readings, under non-zero weather:
one `UpdateDevice` with the updates of `thermostatUpdates`. -/
theorem updateThermostatWith_eq (fused : Bool) (s : MemoryStore) (device : Device)
    (c t : Float64) (now : Time)
    (hc : device.Properties.get? "temperature" = some (.float c))
    (ht : device.Properties.get? "target_temp" = some (.float t))
    (ha0 : s.weather.Temperature ≠ 0) :
    DeviceService.updateThermostatWith fused s device now
      = some (s.UpdateDevice device.ID
          (thermostatUpdates fused c t s.weather.Temperature) now).1 := by
  unfold DeviceService.updateThermostatWith thermostatUpdates thermostatStep
  simp only [MemoryStore.GetWeather, ha0, hc, ht, Option.bind, Value.asFloat, if_false]
  split_ifs <;> simp_all [GoMap.set]

theorem thermostatUpdates_entries (fused : Bool) (c t a : Float64) :
    (GoMap.keys (thermostatUpdates fused c t a)).Nodup
    ∧ (thermostatUpdates fused c t a).get? "heating"
        = some (.bool (decide (fsub t c > 1.0)))
    ∧ (thermostatUpdates fused c t a).get? "cooling"
        = some (.bool (decide (¬ fsub t c > 1.0 ∧ fsub t c < -1.0)))
    ∧ (fmul (fsub a c) pointOne ≠ 0 →
        (thermostatUpdates fused c t a).get? "temperature"
          = some (.float (fmulAdd fused (fsub a c) pointOne c)))
    ∧ (fmul (fsub a c) pointOne = 0 → fsub t c > 1.0 →
        (thermostatUpdates fused c t a).get? "temperature" = some (.float (fadd c 0.5)))
    ∧ (fmul (fsub a c) pointOne = 0 → ¬ fsub t c > 1.0 → fsub t c < -1.0 →
        (thermostatUpdates fused c t a).get? "temperature" = some (.float (fsub c 0.5)))
    ∧ (fmul (fsub a c) pointOne = 0 → ¬ fsub t c > 1.0 → ¬ fsub t c < -1.0 →
        (thermostatUpdates fused c t a).get? "temperature" = none) := by
  unfold thermostatUpdates thermostatStep
  split_ifs with h0 h1 h2 h1 h2 <;> simp_all [GoMap.set, GoMap.get?, GoMap.keys]

/-- What the thermostat tick leaves on a stored device that holds both readings, under
non-zero weather `a`: the flags chosen from the rounded `t - c`, and as temperature the
weather blend when the rounded blend term is not zero, else the step chosen, else the
old reading. -/
theorem updateThermostatWith_entries (fused : Bool) (s : MemoryStore) (device : Device)
    (c t : Float64) (now : Time)
    (hstored : s.devices.get? device.ID = some device)
    (hc : device.Properties.get? "temperature" = some (.float c))
    (ht : device.Properties.get? "target_temp" = some (.float t))
    (ha0 : s.weather.Temperature ≠ 0) :
    ∃ (s' : MemoryStore) (d' : Device),
      DeviceService.updateThermostatWith fused s device now = some s'
      ∧ s'.devices.get? device.ID = some d'
      ∧ d'.Properties.get? "heating" = some (.bool (decide (fsub t c > 1.0)))
      ∧ d'.Properties.get? "cooling"
          = some (.bool (decide (¬ fsub t c > 1.0 ∧ fsub t c < -1.0)))
      ∧ (fmul (fsub s.weather.Temperature c) pointOne ≠ 0 →
          d'.Properties.get? "temperature"
            = some (.float (fmulAdd fused (fsub s.weather.Temperature c) pointOne c)))
      ∧ (fmul (fsub s.weather.Temperature c) pointOne = 0 → fsub t c > 1.0 →
          d'.Properties.get? "temperature" = some (.float (fadd c 0.5)))
      ∧ (fmul (fsub s.weather.Temperature c) pointOne = 0 → ¬ fsub t c > 1.0 →
          fsub t c < -1.0 →
          d'.Properties.get? "temperature" = some (.float (fsub c 0.5)))
      ∧ (fmul (fsub s.weather.Temperature c) pointOne = 0 → ¬ fsub t c > 1.0 →
          ¬ fsub t c < -1.0 →
          d'.Properties.get? "temperature" = some (.float c)) := by
  obtain ⟨hnd, e1, e2, e3, e4, e5, e6⟩ :=
    thermostatUpdates_entries fused c t s.weather.Temperature
  obtain ⟨_, hdev⟩ := UpdateDevice_devices s device.ID device
    (thermostatUpdates fused c t s.weather.Temperature) now hstored
  obtain ⟨_, _, _, _, _, _, _, f8, f9⟩ := foldl_applyDeviceUpdate _ device hnd
  have hh : ¬ isFieldKey "heating" := by decide
  have hk : ¬ isFieldKey "cooling" := by decide
  have hT : ¬ isFieldKey "temperature" := by decide
  refine ⟨_, { (thermostatUpdates fused c t s.weather.Temperature).foldl
      (fun d kv => MemoryStore.applyDeviceUpdate d kv.1 kv.2) device with LastUpdated := now },
    updateThermostatWith_eq fused s device c t now hc ht ha0, ?_, f8 _ _ hh e1, f8 _ _ hk e2,
    fun h => f8 _ _ hT (e3 h), fun h h1 => f8 _ _ hT (e4 h h1),
    fun h h1 h2 => f8 _ _ hT (e5 h h1 h2),
    fun h h1 h2 => (f9 "temperature" (Or.inl (e6 h h1 h2))).trans hc⟩
  rw [hdev]; exact get?_set_self _ _ _

theorem roundBinary64_zero : roundBinary64 0 = 0 := by
  unfold roundBinary64
  simp [roundHalfEven]

theorem roundBinary64_one : roundBinary64 1 = 1 := by decide!

theorem roundBinary64_neg_one : roundBinary64 (-1) = -1 := by decide!

/-- When the ambient temperature is the current reading the blend term is zero. -/
theorem blend_zero_of_eq (c : Float64) : fmul (fsub c c) pointOne = 0 := by
  unfold fmul fsub
  rw [sub_self, roundBinary64_zero, zero_mul, roundBinary64_zero]

/-- A rounded difference above one comes from a difference above one. -/
theorem gt_one_of_fsub_gt_one (t c : Float64) (h : fsub t c > 1.0) : t - c > 1 := by
  by_contra hn
  have h1 := roundBinary64_mono (not_lt.1 hn)
  rw [roundBinary64_one] at h1
  unfold fsub at h
  norm_num at h
  linarith

theorem lt_neg_one_of_fsub_lt (t c : Float64) (h : fsub t c < -1.0) : t - c < -1 := by
  by_contra hn
  have h1 := roundBinary64_mono (not_lt.1 hn)
  rw [roundBinary64_neg_one] at h1
  unfold fsub at h
  norm_num at h
  linarith

/-- Below `2^52` a step of a half is not rounded away. -/
theorem roundBinary64_near (x : Rat) (h : |x| < 2 ^ 52) : |roundBinary64 x - x| ≤ 1 / 4 := by
  have h1 := roundBinary64_error x
  have h2 := ulp_le_half x h
  linarith

theorem roundBinary64_succ_one :
    roundBinary64 (1 + 2 ^ (-52 : Int)) = 1 + 2 ^ (-52 : Int) := by decide!

theorem roundBinary64_pred_neg_one :
    roundBinary64 (-(1 + 2 ^ (-52 : Int))) = -(1 + 2 ^ (-52 : Int)) := by decide!

theorem isBinary64_twenty : isBinary64 20 := by decide!

theorem isBinary64_twentyTwo : isBinary64 22 := by decide!

theorem fsub_twentyTwo_twenty : fsub 22 20 = 2 := by decide!

theorem fadd_twenty_half : fadd 20 0.5 = 20.5 := by decide!

theorem tenth_readings :
    isBinary64 (roundBinary64 0.1) ∧ isBinary64 (roundBinary64 1.1)
    ∧ roundBinary64 0.1 ≠ 0
    ∧ roundBinary64 1.1 - roundBinary64 0.1 > 1
    ∧ fsub (roundBinary64 1.1) (roundBinary64 0.1) = 1 := by decide!

theorem wide_readings :
    isBinary64 9007199254740992 ∧ isBinary64 9007199254740994
    ∧ fsub 9007199254740994 9007199254740992 = 2
    ∧ fadd 9007199254740992 0.5 = 9007199254740992 := by decide!

theorem minSubnormal_pos : 0 < minSubnormal := two_zpow_pos _

theorem blend_thresholds :
    0 < pointOne
    ∧ roundBinary64 minSubnormal = minSubnormal
    ∧ roundBinary64 (-minSubnormal) = -minSubnormal
    ∧ roundBinary64 (5 * minSubnormal) = 5 * minSubnormal
    ∧ roundBinary64 (-(5 * minSubnormal)) = -(5 * minSubnormal)
    ∧ roundBinary64 (4 * minSubnormal) = 4 * minSubnormal
    ∧ roundBinary64 (-(4 * minSubnormal)) = -(4 * minSubnormal)
    ∧ roundBinary64 (5 * minSubnormal * pointOne) = minSubnormal
    ∧ roundBinary64 (-(5 * minSubnormal) * pointOne) = -minSubnormal
    ∧ roundBinary64 (4 * minSubnormal * pointOne) = 0
    ∧ roundBinary64 (-(4 * minSubnormal) * pointOne) = 0 := by decide!

theorem roundBinary64_maxFloat64 :
    roundBinary64 maxFloat64 = maxFloat64 ∧ roundBinary64 (-maxFloat64) = -maxFloat64 := by
  decide!

/-- A binary64 number is a multiple of the smallest positive one. -/
theorem isBinary64_grid (x : Rat) (h : roundBinary64 x = x) :
    ∃ m : Int, x = m * minSubnormal := by
  obtain ⟨h1, _, _, _⟩ := binade_spec x
  have hk : binade x - 52 = ((binade x + 1022).toNat : Int) + (-1074) := by
    rw [Int.toNat_of_nonneg (by omega)]
    omega
  have hu : ulp x = ((2 ^ (binade x + 1022).toNat : Int) : Rat) * minSubnormal := by
    unfold ulp minSubnormal
    rw [hk, zpow_add₀ (by norm_num : (2 : Rat) ≠ 0), zpow_natCast]
    push_cast
    rfl
  refine ⟨roundHalfEven (x / ulp x) * 2 ^ (binade x + 1022).toNat, ?_⟩
  have h2 : x = (roundHalfEven (x / ulp x) : Rat) * ulp x := h.symm
  push_cast
  rw [mul_assoc, ← Int.cast_two, ← Int.cast_pow, ← hu]
  exact h2

/-- Two binary64 numbers differ by nothing, by at most four, or by at least five times
the smallest positive binary64 number. -/
theorem binary64_diff_cases (a c : Rat) (ha : roundBinary64 a = a) (hc : roundBinary64 c = c) :
    (a ≠ c → minSubnormal ≤ |a - c|)
    ∧ (|a - c| ≤ 4 * minSubnormal ∨ 5 * minSubnormal ≤ |a - c|) := by
  obtain ⟨m, hm⟩ := isBinary64_grid a ha
  obtain ⟨n, hn⟩ := isBinary64_grid c hc
  have hp := minSubnormal_pos
  have hd : |a - c| = ((|m - n| : Int) : Rat) * minSubnormal := by
    rw [hm, hn, ← sub_mul, abs_mul, abs_of_pos hp]
    push_cast
    rfl
  constructor
  · intro hne
    have h1 : (1 : Int) ≤ |m - n| := by
      have : m - n ≠ 0 := by
        intro h0
        apply hne
        rw [hm, hn]
        have : m = n := by omega
        rw [this]
      exact Int.one_le_abs this
    have h2 : ((1 : Int) : Rat) ≤ ((|m - n| : Int) : Rat) := by exact_mod_cast h1
    rw [hd]
    calc minSubnormal = ((1 : Int) : Rat) * minSubnormal := by simp
      _ ≤ ((|m - n| : Int) : Rat) * minSubnormal := mul_le_mul_of_nonneg_right h2 (le_of_lt hp)
  · rcases le_or_lt (|m - n|) 4 with h4 | h5
    · left
      have h2 : ((|m - n| : Int) : Rat) ≤ ((4 : Int) : Rat) := by exact_mod_cast h4
      rw [hd]
      calc ((|m - n| : Int) : Rat) * minSubnormal
          ≤ ((4 : Int) : Rat) * minSubnormal := mul_le_mul_of_nonneg_right h2 (le_of_lt hp)
        _ = 4 * minSubnormal := by norm_num
    · right
      have h5' : (5 : Int) ≤ |m - n| := h5
      have h2 : ((5 : Int) : Rat) ≤ ((|m - n| : Int) : Rat) := by exact_mod_cast h5'
      rw [hd]
      calc 5 * minSubnormal = ((5 : Int) : Rat) * minSubnormal := by norm_num
        _ ≤ ((|m - n| : Int) : Rat) * minSubnormal :=
          mul_le_mul_of_nonneg_right h2 (le_of_lt hp)

/-- The rounded difference of two different binary64 numbers is not zero. -/
theorem fsub_ne_zero (a c : Rat) (h : minSubnormal ≤ |a - c|) : fsub a c ≠ 0 := by
  obtain ⟨_, t1, t2, _⟩ := blend_thresholds
  have hp := minSubnormal_pos
  unfold fsub
  rcases le_abs.1 h with h1 | h1
  · have := roundBinary64_mono h1
    rw [t1] at this
    intro h0
    rw [h0] at this
    linarith
  · have := roundBinary64_mono (show a - c ≤ -minSubnormal by linarith)
    rw [t2] at this
    intro h0
    rw [h0] at this
    linarith

/-- From five times the smallest positive binary64 number on, a difference gives a
blend term that is not zero. -/
theorem blend_ne_zero (a c : Rat) (h : 5 * minSubnormal ≤ |a - c|) :
    fmul (fsub a c) pointOne ≠ 0 := by
  obtain ⟨hk, _, _, t5, t5n, _, _, p5, p5n, _, _⟩ := blend_thresholds
  have hp := minSubnormal_pos
  unfold fmul fsub
  rcases le_abs.1 h with h1 | h1
  · have hd := roundBinary64_mono h1
    rw [t5] at hd
    have hw := roundBinary64_mono (mul_le_mul_of_nonneg_right hd (le_of_lt hk))
    rw [p5] at hw
    intro h0
    rw [h0] at hw
    linarith
  · have hd := roundBinary64_mono (show a - c ≤ -(5 * minSubnormal) by linarith)
    rw [t5n] at hd
    have hw := roundBinary64_mono (mul_le_mul_of_nonneg_right hd (le_of_lt hk))
    rw [p5n] at hw
    intro h0
    rw [h0] at hw
    linarith

/-- Up to four times the smallest positive binary64 number, a difference gives a blend
term that underflows to zero. -/
theorem blend_eq_zero (a c : Rat) (h : |a - c| ≤ 4 * minSubnormal) :
    fmul (fsub a c) pointOne = 0 := by
  obtain ⟨hk, _, _, _, _, t4, t4n, _, _, p4, p4n⟩ := blend_thresholds
  obtain ⟨h1, h2⟩ := abs_le.1 h
  unfold fmul fsub
  have hd1 := roundBinary64_mono h2
  rw [t4] at hd1
  have hd2 := roundBinary64_mono (show -(4 * minSubnormal) ≤ a - c by linarith)
  rw [t4n] at hd2
  have hw1 := roundBinary64_mono (mul_le_mul_of_nonneg_right hd1 (le_of_lt hk))
  rw [p4] at hw1
  have hw2 := roundBinary64_mono (mul_le_mul_of_nonneg_right hd2 (le_of_lt hk))
  rw [p4n] at hw2
  exact le_antisymm hw1 hw2

/-- A difference within the largest binary64 number is rounded within it. -/
theorem fsub_in_range (a c : Rat) (h : |a - c| ≤ maxFloat64) : |fsub a c| ≤ maxFloat64 := by
  obtain ⟨m1, m2⟩ := roundBinary64_maxFloat64
  obtain ⟨h1, h2⟩ := abs_le.1 h
  unfold fsub
  rw [abs_le]
  constructor
  · have := roundBinary64_mono h1
    rwa [m2] at this
  · have := roundBinary64_mono h2
    rwa [m1] at this

theorem cold_day_readings :
    isBinary64 10 ∧ |(10 : Float64) - 20| ≤ maxFloat64 ∧ 5 * minSubnormal ≤ |(10 : Float64) - 20|
    ∧ fmul (fsub 10 20) pointOne = -1
    ∧ fmulAdd false (fsub 10 20) pointOne 20 = 19
    ∧ fmulAdd true (fsub 10 20) pointOne 20 = 19 := by decide!

theorem underflow_readings :
    isBinary64 minSubnormal ∧ isBinary64 0 ∧ minSubnormal ≠ 0
    ∧ |minSubnormal - 0| ≤ maxFloat64 ∧ |minSubnormal - 0| < 5 * minSubnormal
    ∧ fsub minSubnormal 0 = minSubnormal
    ∧ fmul (fsub minSubnormal 0) pointOne = 0
    ∧ fsub 22 0 = 22 ∧ fadd 0 0.5 = 0.5
    ∧ fmulAdd false (fsub minSubnormal 0) pointOne 0 = 0
    ∧ fmulAdd true (fsub minSubnormal 0) pointOne 0 = 0 := by decide!

/-! ## Theorems -/

/-- C1: after any sequence of `n` calls of `AddEnergyUsage` on a fresh store the
energy log is the last `min n 1000` records passed in, in arrival order, and so never
holds more than 1000 records. -/
theorem energy_log_keeps_last_1000 (now : Time) (rs : List EnergyUsage) :
    let s := rs.foldl MemoryStore.AddEnergyUsage (MemoryStore.NewMemoryStore now)
    s.energyUsage = rs.drop (rs.length - 1000)
      ∧ s.energyUsage.length = min rs.length 1000
      ∧ s.energyUsage.length ≤ 1000 := by
  intro s
  have h : s.energyUsage = lastN 1000 rs := by
    show (rs.foldl MemoryStore.AddEnergyUsage (MemoryStore.NewMemoryStore now)).energyUsage = _
    rw [foldl_AddEnergyUsage_energyUsage _ _ (by simp [MemoryStore.NewMemoryStore])]
    simp [MemoryStore.NewMemoryStore]
  refine ⟨h, ?_, ?_⟩
  · rw [h, lastN_length]
  · rw [h, lastN_length]; omega

/-- C2: in every store reached from `NewMemoryStore` by a history of store operations
(the six event-emitting mutators, `AddSystemEvent`, and the mutators that emit nothing)
the event log holds at most 500 entries and is the last `min k 500` of the `k` events
emitted so far, in emission order. -/
theorem event_log_keeps_last_500 (now : Time) (ops : List StoreOp) :
    let s := runOps (MemoryStore.NewMemoryStore now) ops
    let emitted := emittedBy (MemoryStore.NewMemoryStore now) ops
    s.systemEvents.length ≤ 500
      ∧ s.systemEvents.length = min emitted.length 500
      ∧ s.systemEvents = emitted.drop (emitted.length - 500) := by
  intro s emitted
  have h : s.systemEvents = lastN 500 emitted := by
    show (runOps (MemoryStore.NewMemoryStore now) ops).systemEvents = _
    rw [runOps_systemEvents _ _ (by simp [MemoryStore.NewMemoryStore])]
    simp [MemoryStore.NewMemoryStore, emitted]
  refine ⟨?_, ?_, h⟩
  · rw [h, lastN_length]; omega
  · rw [h, lastN_length]

/-- C3: `AddDevice` with a device whose id is already present, and `AddTask` with a
task whose id is already present, return a `Conflict` error and leave the whole
store exactly as it was. -/
theorem add_duplicate_is_conflict (s : MemoryStore) (now : Time) :
    (∀ (device existing : Device), s.devices.get? device.ID = some existing →
        s.AddDevice device now = (s, some (StoreError.deviceExists device.ID))
          ∧ (StoreError.deviceExists device.ID).isConflict = true)
    ∧ (∀ (task existing : ScheduledTask), s.tasks.get? task.ID = some existing →
        s.AddTask task now = (s, some (StoreError.taskExists task.ID))
          ∧ (StoreError.taskExists task.ID).isConflict = true) := by
  constructor
  · intro device existing h
    simp [MemoryStore.AddDevice, h, StoreError.isConflict]
  · intro task existing h
    simp [MemoryStore.AddTask, h, StoreError.isConflict]

theorem add_duplicate_is_conflict_witness :
    (sampleStore.AddDevice { sampleLight with Name := "Another" } 2000
        = (sampleStore, some (StoreError.deviceExists "light_001")))
    ∧ (sampleStore.AddTask { sampleTask with Action := "unlock" } 2000
        = (sampleStore, some (StoreError.taskExists "task_1"))) :=
  ⟨((add_duplicate_is_conflict sampleStore 2000).1 { sampleLight with Name := "Another" }
      { sampleLight with CreatedAt := 1001, LastUpdated := 1001 } rfl).1,
   ((add_duplicate_is_conflict sampleStore 2000).2 { sampleTask with Action := "unlock" }
      { sampleTask with CreatedAt := 1003 } rfl).1⟩

/-- C4: for an id that is not in the device map, `UpdateDevice` (for every update
map) and `DeleteDevice` return a `NotFound` error and leave the whole store as it
was; for an id that is not in the task map, so does `UpdateTask`. -/
theorem missing_id_is_not_found (s : MemoryStore) (id : String) (updates : GoMap Value)
    (now : Time) :
    (s.devices.get? id = none →
        s.UpdateDevice id updates now = (s, some (StoreError.deviceNotFound id))
          ∧ s.DeleteDevice id now = (s, some (StoreError.deviceNotFound id))
          ∧ (StoreError.deviceNotFound id).isNotFound = true)
    ∧ (s.tasks.get? id = none →
        s.UpdateTask id updates = (s, some (StoreError.taskNotFound id))
          ∧ (StoreError.taskNotFound id).isNotFound = true) := by
  constructor
  · intro h
    simp [MemoryStore.UpdateDevice, MemoryStore.DeleteDevice, h, StoreError.isNotFound]
  · intro h
    simp [MemoryStore.UpdateTask, h, StoreError.isNotFound]

theorem missing_id_is_not_found_witness :
    (sampleStore.UpdateDevice "ghost" [("power", .bool true)] 2000
        = (sampleStore, some (StoreError.deviceNotFound "ghost")))
    ∧ (sampleStore.DeleteDevice "ghost" 2000
        = (sampleStore, some (StoreError.deviceNotFound "ghost")))
    ∧ (sampleStore.UpdateTask "ghost" [("power", .bool true)]
        = (sampleStore, some (StoreError.taskNotFound "ghost"))) :=
  have h := missing_id_is_not_found sampleStore "ghost" [("power", .bool true)] 2000
  ⟨(h.1 rfl).1, (h.1 rfl).2.1, (h.2 rfl).1⟩

/-- C5: when the log holds at most 500 entries (as it does in every reachable store),
each successful `AddDevice`, `UpdateDevice`, `DeleteDevice`, `UpdateWeather`,
`UpdateSecurity` and `AddTask` appends exactly one event, of type `device_added`,
`device_updated`, `device_deleted`, `weather_updated`, `security_updated` and
`task_added` respectively, as the newest entry; the earlier events keep their order,
and only the single oldest one is dropped, and only when the log was full. -/
theorem mutators_append_one_event (s : MemoryStore) (device : Device) (id : String)
    (updates : GoMap Value) (weather : WeatherData) (security : SecuritySystem)
    (task : ScheduledTask) (now : Time) (hs : s.systemEvents.length ≤ 500) :
    ((s.AddDevice device now).2 = none →
        AppendsOneEvent s (s.AddDevice device now).1 "device_added")
    ∧ ((s.UpdateDevice id updates now).2 = none →
        AppendsOneEvent s (s.UpdateDevice id updates now).1 "device_updated")
    ∧ ((s.DeleteDevice id now).2 = none →
        AppendsOneEvent s (s.DeleteDevice id now).1 "device_deleted")
    ∧ AppendsOneEvent s (s.UpdateWeather weather now) "weather_updated"
    ∧ AppendsOneEvent s (s.UpdateSecurity security now) "security_updated"
    ∧ ((s.AddTask task now).2 = none →
        AppendsOneEvent s (s.AddTask task now).1 "task_added") := by
  refine ⟨?_, ?_, ?_, ?_, ?_, ?_⟩
  · unfold MemoryStore.AddDevice
    cases h : s.devices.get? device.ID with
    | some d => simp
    | none => intro _; exact addSystemEvent_appendsOne _ s _ _ _ _ _ rfl hs
  · unfold MemoryStore.UpdateDevice
    cases h : s.devices.get? id with
    | none => simp
    | some d => intro _; exact addSystemEvent_appendsOne _ s _ _ _ _ _ rfl hs
  · unfold MemoryStore.DeleteDevice
    cases h : s.devices.get? id with
    | none => simp
    | some d => intro _; exact addSystemEvent_appendsOne _ s _ _ _ _ _ rfl hs
  · exact addSystemEvent_appendsOne _ s _ _ _ _ _ rfl hs
  · exact addSystemEvent_appendsOne _ s _ _ _ _ _ rfl hs
  · unfold MemoryStore.AddTask
    cases h : s.tasks.get? task.ID with
    | some d => simp
    | none => intro _; exact addSystemEvent_appendsOne _ s _ _ _ _ _ rfl hs

theorem mutators_append_one_event_witness :
    sampleStore.systemEvents.length ≤ 500
    ∧ AppendsOneEvent sampleStore (sampleStore.AddDevice sampleLock 2000).1 "device_added"
    ∧ AppendsOneEvent sampleStore
        (sampleStore.UpdateDevice "light_001" [("power", .bool false)] 2000).1 "device_updated"
    ∧ AppendsOneEvent sampleStore (sampleStore.DeleteDevice "light_001" 2000).1 "device_deleted"
    ∧ AppendsOneEvent sampleStore
        (sampleStore.AddTask { sampleTask with ID := "task_2" } 2000).1 "task_added" :=
  have h := mutators_append_one_event sampleStore sampleLock "light_001"
    [("power", .bool false)] WeatherData.zero sampleStore.security
    { sampleTask with ID := "task_2" } 2000 (by decide)
  ⟨by decide, h.1 rfl, h.2.1 rfl, h.2.2.1 rfl, h.2.2.2.2.2 rfl⟩

/-- C6 (as the code has it): for an existing device and an update map (its keys
unique, as in every Go map), after `UpdateDevice` the keys `name`, `status` and `location` set the matching field when the
supplied value is a string, and leave the field as it was when the value is not a
string (such a value is not stored in the attribute map either); every other key of
the map is stored in the attribute map with exactly the supplied value; attribute keys
not mentioned keep their values; the id, type and createdAt of the device, and every
other device, are unchanged. -/
theorem update_device_effect (s : MemoryStore) (id : String) (device : Device)
    (updates : GoMap Value) (now : Time)
    (hd : s.devices.get? id = some device) (hu : (GoMap.keys updates).Nodup) :
    ∃ d' : Device,
      (s.UpdateDevice id updates now).2 = none
      ∧ (s.UpdateDevice id updates now).1.devices.get? id = some d'
      ∧ d'.Name = ((updates.get? "name").bind Value.asString).getD device.Name
      ∧ d'.Status = ((updates.get? "status").bind Value.asString).getD device.Status
      ∧ d'.Location = ((updates.get? "location").bind Value.asString).getD device.Location
      ∧ (∀ k v, ¬ isFieldKey k → updates.get? k = some v → d'.Properties.get? k = some v)
      ∧ (∀ k, updates.get? k = none ∨ isFieldKey k →
          d'.Properties.get? k = device.Properties.get? k)
      ∧ d'.ID = device.ID ∧ d'.Typ = device.Typ ∧ d'.CreatedAt = device.CreatedAt
      ∧ (∀ id', id' ≠ id →
          (s.UpdateDevice id updates now).1.devices.get? id' = s.devices.get? id') := by
  obtain ⟨herr, hdev⟩ := UpdateDevice_devices s id device updates now hd
  obtain ⟨f1, f2, f3, _, f5, f6, f7, f8, f9⟩ := foldl_applyDeviceUpdate updates device hu
  refine ⟨{ updates.foldl (fun d kv => MemoryStore.applyDeviceUpdate d kv.1 kv.2) device with
      LastUpdated := now }, herr, ?_, f5, f6, f7, f8, f9, f1, f2, f3, ?_⟩
  · rw [hdev]; exact get?_set_self _ _ _
  · intro id' hne
    rw [hdev]; exact get?_set_of_ne _ _ _ _ hne

theorem update_device_effect_witness :
    ∃ d' : Device,
      (sampleStore.UpdateDevice "light_001"
          [("name", .str "Lamp"), ("power", .bool false)] 2000).1.devices.get? "light_001"
        = some d'
      ∧ d'.Name = "Lamp"
      ∧ d'.Properties.get? "power" = some (.bool false)
      ∧ d'.Properties.get? "brightness" = some (.int 80) :=
  have ⟨d', _, h2, h3, _, _, h6, h7, _⟩ := update_device_effect sampleStore "light_001"
    { sampleLight with CreatedAt := 1001, LastUpdated := 1001 }
    [("name", .str "Lamp"), ("power", .bool false)] 2000 rfl (by decide)
  ⟨d', h2, h3, h6 "power" (.bool false) (by decide) rfl, h7 "brightness" (Or.inl rfl)⟩

/-- C6, the claim as written fails: the update `name := 42` (an integer) on the
sample light leaves the name `Living Room Light`, which is not the supplied value, and
the value is not put into the attribute map either. -/
theorem update_device_ignores_non_string_name :
    ∃ d' : Device,
      (sampleStore.UpdateDevice "light_001" [("name", .int 42)] 2000).1.devices.get? "light_001"
        = some d'
      ∧ d'.Name = "Living Room Light"
      ∧ Value.str d'.Name ≠ Value.int 42
      ∧ d'.Properties.get? "name" = none :=
  ⟨_, rfl, rfl, by simp, rfl⟩

/-- C7 (as the code has it): for an existing task and an update map (its keys unique,
as in every Go map), `UpdateTask` sets `Enabled` when the key `enabled` carries a boolean, `NextRun` when `next_run`
carries a time and `LastRun` when `last_run` carries a time; a value of another type
leaves the field as it was. Every other field of the task, every other task, and the
rest of the store, the event log included, are unchanged: no event is emitted. -/
theorem update_task_effect (s : MemoryStore) (id : String) (task : ScheduledTask)
    (updates : GoMap Value)
    (ht : s.tasks.get? id = some task) (hu : (GoMap.keys updates).Nodup) :
    let t' : ScheduledTask :=
      { task with
        Enabled := ((updates.get? "enabled").bind Value.asBool).getD task.Enabled,
        NextRun := ((updates.get? "next_run").bind Value.asTime).getD task.NextRun,
        LastRun := ((updates.get? "last_run").bind Value.asTime).getD task.LastRun }
    s.UpdateTask id updates = ({ s with tasks := s.tasks.set id t' }, none)
      ∧ (s.UpdateTask id updates).1.tasks.get? id = some t'
      ∧ (∀ id', id' ≠ id → (s.UpdateTask id updates).1.tasks.get? id' = s.tasks.get? id')
      ∧ (s.UpdateTask id updates).1.systemEvents = s.systemEvents := by
  intro t'
  have h : s.UpdateTask id updates = ({ s with tasks := s.tasks.set id t' }, none) := by
    unfold MemoryStore.UpdateTask
    simp only [ht]
    rw [foldl_applyTaskUpdate updates task hu]
  refine ⟨h, ?_, ?_, ?_⟩
  · rw [h]; exact get?_set_self _ _ _
  · intro id' hne
    rw [h]; exact get?_set_of_ne _ _ _ _ hne
  · rw [h]

theorem update_task_effect_witness :
    sampleStore.UpdateTask "task_1" [("enabled", .bool false), ("last_run", .time 77)]
      = ({ sampleStore with
            tasks := sampleStore.tasks.set "task_1"
              { sampleTask with CreatedAt := 1003, Enabled := false, LastRun := 77 } },
          none) :=
  (update_task_effect sampleStore "task_1" { sampleTask with CreatedAt := 1003 }
    [("enabled", .bool false), ("last_run", .time 77)] rfl (by decide)).1

/-- C7, the claim as written fails: with the key `next_run` present and carrying a
string (what a decoded JSON body supplies) and the key `enabled` carrying a string, the
task keeps its `NextRun` and its `Enabled` flag; they are not set to the supplied
values. -/
theorem update_task_ignores_mistyped_values :
    ∃ t' : ScheduledTask,
      (sampleStore.UpdateTask "task_1"
          [("next_run", .str "2030-01-01T00:00:00Z"), ("enabled", .str "false")]).1.tasks.get?
          "task_1" = some t'
      ∧ t'.NextRun = 0
      ∧ Value.time t'.NextRun ≠ Value.str "2030-01-01T00:00:00Z"
      ∧ t'.Enabled = true
      ∧ Value.bool t'.Enabled ≠ Value.str "false" :=
  ⟨_, rfl, rfl, by simp, rfl, by simp⟩

/-- C8: in a sensor tick in which the sensor reports motion (both draws fall under
their thresholds), an Armed security system becomes Triggered with `TriggeredBy` the
sensor's id and `LastTriggered` the current time; a Disarmed or already Triggered
system is left exactly as it was. -/
theorem sensor_motion_triggers_when_armed (s : MemoryStore) (device : Device)
    (r1 r2 : Float64) (now : Time) (h1 : r1 < 0.05) (h2 : r2 < 0.3) :
    let s' := DeviceService.updateSensor s device r1 r2 now
    (s.security.State = SecurityStateArmed →
        s'.security.State = SecurityStateTriggered
          ∧ s'.security.TriggeredBy = device.ID
          ∧ s'.security.LastTriggered = now)
    ∧ (s.security.State = SecurityStateDisarmed ∨ s.security.State = SecurityStateTriggered →
        s'.security = s.security) := by
  intro s'
  have hs' : s' = (MemoryStore.UpdateDevice
      (if s.security.State = SecurityStateArmed then
        s.UpdateSecurity { s.security with
          State := SecurityStateTriggered, LastTriggered := now, TriggeredBy := device.ID } now
       else s) device.ID [("motion_detected", .bool true)] now).1 := by
    show DeviceService.updateSensor s device r1 r2 now = _
    unfold DeviceService.updateSensor
    simp [h1, h2, MemoryStore.GetSecurity]
  constructor
  · intro harmed
    rw [hs', (UpdateDevice_frame _ _ _ _).2.1, if_pos harmed, UpdateSecurity_security]
    exact ⟨rfl, rfl, rfl⟩
  · intro hother
    have hne : s.security.State ≠ SecurityStateArmed := by
      rcases hother with h | h <;> rw [h] <;> decide
    rw [hs', (UpdateDevice_frame _ _ _ _).2.1, if_neg hne]

theorem sensor_motion_triggers_when_armed_witness :
    (DeviceService.updateSensor armedStore sampleSensor 0 0 3000).security.State
        = SecurityStateTriggered
    ∧ (DeviceService.updateSensor armedStore sampleSensor 0 0 3000).security.TriggeredBy
        = "sensor_001"
    ∧ (DeviceService.updateSensor armedStore sampleSensor 0 0 3000).security.LastTriggered
        = 3000 :=
  (sensor_motion_triggers_when_armed armedStore sampleSensor 0 0 3000
    (by norm_num) (by norm_num)).1 rfl

/-- C9 (as the code has it): one run of the security monitor sets a Triggered system
to Armed when `LastTriggered` lies strictly more than 5 minutes before the current
time, changing no other field of the security system; when it has been Triggered for
5 minutes or less, or is not Triggered, the security system is left as it was. -/
theorem security_monitor_resets_after_timeout (s : MemoryStore) (now : Time) :
    let s' := Scheduler.checkSecurityStatus s now
    (s.security.State = SecurityStateTriggered → now - s.security.LastTriggered > 5 * Minute →
        s'.security = { s.security with State := SecurityStateArmed })
    ∧ (s.security.State = SecurityStateTriggered → now - s.security.LastTriggered ≤ 5 * Minute →
        s'.security = s.security)
    ∧ (s.security.State ≠ SecurityStateTriggered → s'.security = s.security) := by
  intro s'
  have hs' : s'.security
      = (if s.security.State = SecurityStateTriggered then
          if Since now s.security.LastTriggered > 5 * Minute then
            { s.security with State := SecurityStateArmed }
          else s.security
        else s.security) := by
    show (Scheduler.checkSecurityStatus s now).security = _
    unfold Scheduler.checkSecurityStatus
    simp only [MemoryStore.GetSecurity]
    rw [foldl_sensorOffline_security]
    split
    · split
      · rw [(AddSystemEvent_frame _ _).2.2.1, UpdateSecurity_security]
      · rfl
    · rfl
  refine ⟨?_, ?_, ?_⟩
  · intro ht hgt
    rw [hs', if_pos ht, if_pos ((Since_gt_iff _ _).2 hgt)]
  · intro ht hle
    rw [hs', if_pos ht, if_neg (fun h => absurd ((Since_gt_iff _ _).1 h) (not_lt.2 hle))]
  · intro hnt
    rw [hs', if_neg hnt]

theorem security_monitor_resets_after_timeout_witness :
    (Scheduler.checkSecurityStatus triggeredStore (3000 + 5 * Minute + 1)).security
      = { triggeredStore.security with State := SecurityStateArmed } :=
  (security_monitor_resets_after_timeout triggeredStore (3000 + 5 * Minute + 1)).1
    rfl (by decide)

/-- C9, the claim as written fails at exactly 5 minutes: the store was Triggered at
time 3000, the monitor runs at 3000 + 5 minutes, and the state is still Triggered, not
Armed. -/
theorem security_monitor_keeps_triggered_at_five_minutes :
    triggeredStore.security.State = SecurityStateTriggered
    ∧ (3000 + 5 * Minute) - triggeredStore.security.LastTriggered = 5 * Minute
    ∧ (Scheduler.checkSecurityStatus triggeredStore (3000 + 5 * Minute)).security.State
        = SecurityStateTriggered
    ∧ (Scheduler.checkSecurityStatus triggeredStore (3000 + 5 * Minute)).security.State
        ≠ SecurityStateArmed := by
  have h : (Scheduler.checkSecurityStatus triggeredStore (3000 + 5 * Minute)).security.State
      = SecurityStateTriggered := rfl
  refine ⟨rfl, by decide, h, ?_⟩
  rw [h]
  decide

/-- C10, evaluated on a store that is Armed with active sensor `sensor_001`: the
`DisarmSecurity` handler leaves the system Disarmed with no active sensors, whereas a
task with action `disarm_security` and the `morning_routine` scenario leave it
Disarmed with `sensor_001` still listed as active. -/
theorem disarm_paths_on_armed_store :
    armedStoreWithDisarmTask.security.State = SecurityStateArmed
    ∧ armedStoreWithDisarmTask.security.ActiveSensors = ["sensor_001"]
    ∧ armedStoreWithDisarmTask.GetTask "task_disarm" = .ok storedDisarmTask
    ∧ (Handler.DisarmSecurity armedStoreWithDisarmTask 9000).security.State
        = SecurityStateDisarmed
    ∧ (Handler.DisarmSecurity armedStoreWithDisarmTask 9000).security.ActiveSensors = []
    ∧ (Scheduler.executeTask armedStoreWithDisarmTask storedDisarmTask 9000).security.State
        = SecurityStateDisarmed
    ∧ (Scheduler.executeTask armedStoreWithDisarmTask storedDisarmTask
          9000).security.ActiveSensors = ["sensor_001"]
    ∧ (Scheduler.executeMorningRoutine armedStoreWithDisarmTask 9000).1.security.State
        = SecurityStateDisarmed
    ∧ (Scheduler.executeMorningRoutine armedStoreWithDisarmTask 9000).1.security.ActiveSensors
        = ["sensor_001"] :=
  ⟨rfl, rfl, rfl, rfl, rfl, rfl, rfl, rfl, rfl⟩

/-- C11, evaluated on a store that is Disarmed with no active sensors and holds the
online sensor `sensor_001`: the `ArmSecurity` handler leaves the system Armed with
`sensor_001` as the active sensor, whereas a task with action `arm_security` and the
`away_mode` scenario leave it Armed with an empty list of active sensors. -/
theorem arm_paths_on_disarmed_store :
    storeWithArmTask.security.State = SecurityStateDisarmed
    ∧ storeWithArmTask.security.ActiveSensors = []
    ∧ (DeviceService.GetDevicesByType storeWithArmTask DeviceTypeSensor).map
        (fun d => (d.ID, d.Status)) = [("sensor_001", DeviceStatusOnline)]
    ∧ storeWithArmTask.GetTask "task_arm" = .ok storedArmTask
    ∧ (Handler.ArmSecurity storeWithArmTask 9000).security.State = SecurityStateArmed
    ∧ (Handler.ArmSecurity storeWithArmTask 9000).security.ActiveSensors = ["sensor_001"]
    ∧ (Scheduler.executeTask storeWithArmTask storedArmTask 9000).security.State
        = SecurityStateArmed
    ∧ (Scheduler.executeTask storeWithArmTask storedArmTask 9000).security.ActiveSensors = []
    ∧ (Scheduler.TriggerAutomationScenario storeWithArmTask "away_mode" 9000).1.security.State
        = SecurityStateArmed
    ∧ (Scheduler.TriggerAutomationScenario storeWithArmTask "away_mode"
          9000).1.security.ActiveSensors = [] :=
  ⟨rfl, rfl, rfl, rfl, rfl, rfl, rfl, rfl, rfl, rfl⟩

/-- C15: for every scenario name other than the five known ones,
`TriggerAutomationScenario` returns the unknown-scenario error and the store it leaves
is the store it was given: devices, security, tasks, weather and both logs are as
before. -/
theorem unknown_scenario_is_error_and_noop (s : MemoryStore) (scenario : String) (now : Time)
    (h1 : scenario ≠ "morning_routine") (h2 : scenario ≠ "evening_routine")
    (h3 : scenario ≠ "away_mode") (h4 : scenario ≠ "sleep_mode")
    (h5 : scenario ≠ "security_breach") :
    Scheduler.TriggerAutomationScenario s scenario now
      = (s, some ("unknown automation scenario: " ++ scenario)) := by
  unfold Scheduler.TriggerAutomationScenario
  split <;> simp_all

theorem unknown_scenario_is_error_and_noop_witness :
    Scheduler.TriggerAutomationScenario sampleStore "bogus" 2000
      = (sampleStore, some "unknown automation scenario: bogus") :=
  unknown_scenario_is_error_and_noop sampleStore "bogus" 2000
    (by decide) (by decide) (by decide) (by decide) (by decide)

/-- C17 (as the code has it): for every Online device of the store,
`CalculateEnergyUsage` holds a record with the device's id and name whose usage follows
`UsageRule`: for a light, brightness × 0.001 when powered and the brightness is stored
as an `int`, 0.05 when powered and the brightness is stored otherwise, 0 when not
powered; for a thermostat 3.0 when cooling, 2.5 when heating and not cooling, 0.1
otherwise; for a camera 0.8 when recording and 0.2 otherwise; 0.01 for a sensor and
0.005 for a lock. -/
theorem reported_usage_by_type (s : MemoryStore) (now : Time) (d : Device)
    (hd : d ∈ s.ListDevices) (hon : d.Status = DeviceStatusOnline) :
    ∃ r ∈ DeviceService.CalculateEnergyUsage s now,
      r.DeviceID = d.ID ∧ r.DeviceName = d.Name ∧ UsageRule d r.Usage := by
  refine ⟨usageRecord d now, ?_, rfl, rfl, deviceUsage_table d⟩
  rw [CalculateEnergyUsage_eq]
  exact List.mem_map.2 ⟨d, List.mem_filter.2 ⟨hd, by simpa using hon⟩, rfl⟩

theorem reported_usage_by_type_witness :
    ∃ r ∈ DeviceService.CalculateEnergyUsage sampleStore 2000,
      r.DeviceID = "light_001" ∧ r.DeviceName = "Living Room Light" ∧ r.Usage = 80 * 0.001 :=
  have ⟨r, hr, h1, h2, h3⟩ := reported_usage_by_type sampleStore 2000
    { sampleLight with CreatedAt := 1001, LastUpdated := 1001 }
    (by simp [sampleStore, MemoryStore.ListDevices, GoMap.values, MemoryStore.AddDevice,
      MemoryStore.AddTask, MemoryStore.NewMemoryStore, MemoryStore.addSystemEvent, GoMap.get?,
      GoMap.set, sampleLight, sampleSensor, sampleTask])
    rfl
  ⟨r, hr, h1, h2, by simpa using (h3.1 rfl).1 rfl 80 rfl⟩

/-- C17, the claim as written fails for a numeric brightness that is not stored as an
`int`: after the update `brightness := 80.0` the powered, online sample light is
reported with usage 0.05, which is not 80 × 0.001. It also fails for a thermostat whose
heating and cooling flags are both true: the reported usage is 3.0, not 2.5. -/
theorem float_brightness_light_reports_flat_usage :
    (DeviceService.CalculateEnergyUsage floatLightStore 2000).map
        (fun r => (r.DeviceID, r.Usage)) = [("light_001", 0.05), ("sensor_001", 0.01)]
    ∧ (floatLightStore.devices.get? "light_001").map
        (fun d => (d.Typ, d.Status, d.Properties.get? "power", d.Properties.get? "brightness"))
        = some (DeviceTypeLight, DeviceStatusOnline, some (.bool true), some (.float 80))
    ∧ (80 : Float64) * 0.001 ≠ 0.05
    ∧ bothFlagsStore.devices.get? "thermostat_001" = some bothFlagsThermostat
    ∧ bothFlagsThermostat.Typ = DeviceTypeThermostat
    ∧ bothFlagsThermostat.Status = DeviceStatusOnline
    ∧ bothFlagsThermostat.Properties.get? "heating" = some (.bool true)
    ∧ bothFlagsThermostat.Properties.get? "cooling" = some (.bool true)
    ∧ usageRecord bothFlagsThermostat 2000
        ∈ DeviceService.CalculateEnergyUsage bothFlagsStore 2000
    ∧ (usageRecord bothFlagsThermostat 2000).Usage = 3.0
    ∧ (3.0 : Float64) ≠ 2.5 := by
  refine ⟨rfl, rfl, by norm_num, rfl, rfl, rfl, rfl, rfl, ?_, ?_, by norm_num⟩
  · rw [CalculateEnergyUsage_eq]
    refine List.mem_map.2 ⟨bothFlagsThermostat, List.mem_filter.2 ⟨?_, rfl⟩, rfl⟩
    have h : bothFlagsStore.ListDevices = [_, _, bothFlagsThermostat] := rfl
    rw [h]
    simp
  · exact ((deviceUsage_table bothFlagsThermostat).2.1 rfl).1 rfl

/-- C18: the records of `CalculateEnergyUsage` are, in listing order, one record per
device whose status is Online, carrying that device's id and name; a device with any
other status contributes no record; and every record has cost = usage × 0.12. -/
theorem energy_records_are_the_online_devices (s : MemoryStore) (now : Time) :
    (DeviceService.CalculateEnergyUsage s now).map (fun r => (r.DeviceID, r.DeviceName))
        = (s.ListDevices.filter (fun d => decide (d.Status = DeviceStatusOnline))).map
            (fun d => (d.ID, d.Name))
    ∧ (∀ r ∈ DeviceService.CalculateEnergyUsage s now, r.Cost = r.Usage * 0.12) := by
  rw [CalculateEnergyUsage_eq]
  constructor
  · simp [List.map_map, Function.comp_def, usageRecord]
  · intro r hr
    simp only [List.mem_map] at hr
    obtain ⟨d, _, rfl⟩ := hr
    rfl

/-- C19: `GetWeatherAlert` returns the alert of the first condition that holds in the
order temperature > 35, temperature < 0, wind speed > 20, condition `stormy`,
pressure < 990, and returns none exactly when none of the five holds. -/
theorem weather_alert_priority (w : WeatherData) :
    (w.Temperature > 35 →
        WeatherService.GetWeatherAlert w = some "Extreme heat warning - Temperature above 35°C")
    ∧ (¬ w.Temperature > 35 → w.Temperature < 0 →
        WeatherService.GetWeatherAlert w
          = some "Freezing temperature alert - Temperature below 0°C")
    ∧ (¬ w.Temperature > 35 → ¬ w.Temperature < 0 → w.WindSpeed > 20 →
        WeatherService.GetWeatherAlert w = some "High wind warning - Wind speed above 20 km/h")
    ∧ (¬ w.Temperature > 35 → ¬ w.Temperature < 0 → ¬ w.WindSpeed > 20 →
        w.Condition = "stormy" →
        WeatherService.GetWeatherAlert w = some "Storm warning - Severe weather conditions")
    ∧ (¬ w.Temperature > 35 → ¬ w.Temperature < 0 → ¬ w.WindSpeed > 20 →
        w.Condition ≠ "stormy" → w.Pressure < 990 →
        WeatherService.GetWeatherAlert w
          = some "Low pressure system - Potential weather instability")
    ∧ (WeatherService.GetWeatherAlert w = none ↔
        ¬ w.Temperature > 35 ∧ ¬ w.Temperature < 0 ∧ ¬ w.WindSpeed > 20
          ∧ w.Condition ≠ "stormy" ∧ ¬ w.Pressure < 990) := by
  have e35 : (35.0 : Float64) = 35 := by norm_num
  have e0 : (0.0 : Float64) = 0 := by norm_num
  have e20 : (20.0 : Float64) = 20 := by norm_num
  have e990 : (990.0 : Float64) = 990 := by norm_num
  unfold WeatherService.GetWeatherAlert
  rw [e35, e0, e20, e990]
  refine ⟨?_, ?_, ?_, ?_, ?_, ?_⟩
  · intro h; simp [h]
  · intro h1 h2; simp [h1, h2]
  · intro h1 h2 h3; simp [h1, h2, h3]
  · intro h1 h2 h3 h4; simp [h1, h2, h3, h4]
  · intro h1 h2 h3 h4 h5; simp [h1, h2, h3, h4, h5]
  · split_ifs <;> simp_all

theorem weather_alert_priority_witness :
    WeatherService.GetWeatherAlert
        { WeatherData.zero with Temperature := 20, Condition := "stormy", Pressure := 980 }
      = some "Storm warning - Severe weather conditions" :=
  (weather_alert_priority
    { WeatherData.zero with Temperature := 20, Condition := "stormy", Pressure := 980 }).2.2.2.1
    (by norm_num) (by norm_num) (by norm_num [WeatherData.zero]) rfl

/-- C12 (as the code has it): from a valid security state, every step that writes the
security system other than the `security_breach` scenario either leaves the state as
it was or performs one of the four transitions Disarmed to Armed, Armed to Triggered,
Triggered to Armed, any state to Disarmed; the `security_breach` scenario sets the
state to Triggered from every state. -/
theorem security_steps_follow_state_machine (s : MemoryStore) (step : SecurityStep)
    (hv : validState s.security.State) :
    (step.isBreach = false → (step.run s).security.State ≠ s.security.State →
        allowedTransition s.security.State (step.run s).security.State)
    ∧ (step.isBreach = true → (step.run s).security.State = SecurityStateTriggered) := by
  cases step with
  | arm now =>
    refine ⟨fun _ hne => ?_, fun h => by simp [SecurityStep.isBreach] at h⟩
    exact allowed_of_armed_or_disarmed _ _ hv (Or.inl (ArmSecurity_state s now)) hne
  | disarm now =>
    refine ⟨fun _ hne => ?_, fun h => by simp [SecurityStep.isBreach] at h⟩
    exact allowed_of_armed_or_disarmed _ _ hv (Or.inr (DisarmSecurity_state s now)) hne
  | sensorTick device r1 r2 now =>
    refine ⟨fun _ hne => ?_, fun h => by simp [SecurityStep.isBreach] at h⟩
    rcases updateSensor_security s device r1 r2 now with h | ⟨ha, ht⟩
    · exact absurd (congrArg SecuritySystem.State h) hne
    · exact Or.inr (Or.inl ⟨ha, ht⟩)
  | monitor now =>
    refine ⟨fun _ hne => ?_, fun h => by simp [SecurityStep.isBreach] at h⟩
    have h := checkSecurityStatus_security s now
    simp only [SecurityStep.run] at hne ⊢
    rw [h] at hne ⊢
    split at hne
    · rename_i ht
      split at hne
      · rw [if_pos ht, if_pos (by assumption)]
        exact Or.inr (Or.inr (Or.inl ⟨ht, rfl⟩))
      · exact absurd rfl hne
    · exact absurd rfl hne
  | runTask t now =>
    refine ⟨fun _ hne => ?_, fun h => by simp [SecurityStep.isBreach] at h⟩
    rcases executeTask_security s t now with h | h | h
    · exact absurd (congrArg SecuritySystem.State h) hne
    · exact allowed_of_armed_or_disarmed _ _ hv (Or.inl h) hne
    · exact allowed_of_armed_or_disarmed _ _ hv (Or.inr h) hne
  | scenario name now =>
    constructor
    · intro hb hne
      have hname : name ≠ "security_breach" := by simpa [SecurityStep.isBreach] using hb
      rcases scenario_security s name now hname with h | h | h
      · exact absurd (congrArg SecuritySystem.State h) hne
      · exact allowed_of_armed_or_disarmed _ _ hv (Or.inl h) hne
      · exact allowed_of_armed_or_disarmed _ _ hv (Or.inr h) hne
    · intro hb
      have hname : name = "security_breach" := by simpa [SecurityStep.isBreach] using hb
      subst hname
      show (Scheduler.executeSecurityBreach s now).1.security.State = _
      rw [executeSecurityBreach_security]

theorem security_steps_follow_state_machine_witness :
    allowedTransition sampleStore.security.State
      ((SecurityStep.scenario "away_mode" 3000).run sampleStore).security.State :=
  (security_steps_follow_state_machine sampleStore (.scenario "away_mode" 3000)
    (Or.inl rfl)).1 rfl
    (by
      rw [show ((SecurityStep.scenario "away_mode" 3000).run sampleStore).security.State
        = SecurityStateArmed from rfl, show sampleStore.security.State
        = SecurityStateDisarmed from rfl]
      decide)

/-- C12, the claim as written fails: on the sample store, which is Disarmed, the
`security_breach` scenario takes the state directly to Triggered, which is none of the
four transitions. -/
theorem security_breach_goes_from_disarmed_to_triggered :
    sampleStore.security.State = SecurityStateDisarmed
    ∧ ((SecurityStep.scenario "security_breach" 3000).run sampleStore).security.State
        = SecurityStateTriggered
    ∧ ¬ allowedTransition SecurityStateDisarmed SecurityStateTriggered := by
  refine ⟨rfl, rfl, ?_⟩
  unfold allowedTransition
  decide

/-- C14: on a store whose devices are stored under their own unique ids, the
`morning_routine` scenario succeeds and afterwards every device of type Light has
power = true and brightness = 80, every device of type Thermostat has
target_temp = 22.0, the security state is Disarmed, every device of another type is
exactly as it was, and no device was added or removed. -/
theorem morning_routine_effect (s : MemoryStore) (now : Time) (hwf : WellFormed s) :
    (Scheduler.TriggerAutomationScenario s "morning_routine" now).2 = none
    ∧ (Scheduler.TriggerAutomationScenario s "morning_routine" now).1.security.State
        = SecurityStateDisarmed
    ∧ AllOfTypeHave (Scheduler.TriggerAutomationScenario s "morning_routine" now).1
        DeviceTypeLight [("power", .bool true), ("brightness", .int 80)]
    ∧ AllOfTypeHave (Scheduler.TriggerAutomationScenario s "morning_routine" now).1
        DeviceTypeThermostat [("target_temp", .float 22.0)]
    ∧ OthersKept s (Scheduler.TriggerAutomationScenario s "morning_routine" now).1
        [DeviceTypeLight, DeviceTypeThermostat]
    ∧ SameDevices s (Scheduler.TriggerAutomationScenario s "morning_routine" now).1 := by
  have hr : Scheduler.TriggerAutomationScenario s "morning_routine" now
      = Scheduler.executeMorningRoutine s now := rfl
  rw [hr]
  obtain ⟨h1, h2⟩ := two_loops_devices s DeviceTypeLight DeviceTypeThermostat
    [("power", .bool true), ("brightness", .int 80)] [("target_temp", .float 22.0)] now hwf
  have hdev : (Scheduler.executeMorningRoutine s now).1.devices
      = (Scheduler.updateAll s (DeviceService.GetDevicesByType s DeviceTypeLight)
          [("power", .bool true), ("brightness", .int 80)] now).devices.map
          (touchType DeviceTypeThermostat [("target_temp", .float 22.0)] now) := by
    rw [executeMorningRoutine_eq, UpdateSecurity_devices, h2]
  obtain ⟨a1, a2, o, d⟩ := two_loops_outcome s _ (Scheduler.executeMorningRoutine s now).1
    DeviceTypeLight DeviceTypeThermostat _ _ now h1 hdev light_ne_thermostat
    (by simp [GoMap.keys]) (by simp [GoMap.keys, isFieldKey])
    (by simp [GoMap.keys]) (by simp [GoMap.keys, isFieldKey])
  refine ⟨?_, ?_, a1, a2, o, d⟩
  · rw [executeMorningRoutine_eq]
  · rw [executeMorningRoutine_security]

theorem morning_routine_effect_witness :
    ∃ l1 l2 th : Device,
      (Scheduler.TriggerAutomationScenario twoLightsStore "morning_routine" 3000).1.devices.get?
          "light_001" = some l1
      ∧ (Scheduler.TriggerAutomationScenario twoLightsStore "morning_routine"
          3000).1.devices.get? "light_002" = some l2
      ∧ (Scheduler.TriggerAutomationScenario twoLightsStore "morning_routine"
          3000).1.devices.get? "thermostat_001" = some th
      ∧ l1.Properties.get? "power" = some (.bool true)
      ∧ l1.Properties.get? "brightness" = some (.int 80)
      ∧ l2.Properties.get? "power" = some (.bool true)
      ∧ l2.Properties.get? "brightness" = some (.int 80)
      ∧ th.Properties.get? "target_temp" = some (.float 22.0)
      ∧ (Scheduler.TriggerAutomationScenario twoLightsStore "morning_routine"
          3000).1.security.State = SecurityStateDisarmed :=
  have ⟨_, hsec, hl, ht, _, _⟩ := morning_routine_effect twoLightsStore 3000
    (by constructor <;> decide)
  ⟨_, _, _, rfl, rfl, rfl,
    hl "light_001" _ rfl rfl ("power", .bool true) (by simp),
    hl "light_001" _ rfl rfl ("brightness", .int 80) (by simp),
    hl "light_002" _ rfl rfl ("power", .bool true) (by simp),
    hl "light_002" _ rfl rfl ("brightness", .int 80) (by simp),
    ht "thermostat_001" _ rfl rfl ("target_temp", .float 22.0) (by simp),
    hsec⟩

/-- C16: on a store whose devices are stored under their own unique ids, each of the
other four scenarios succeeds and leaves: `evening_routine`, every light with
power = true and brightness = 40 and every thermostat with target_temp = 20;
`away_mode`, every light with power = false, every thermostat with target_temp = 18
and security Armed; `sleep_mode`, every light with power = false and every lock with
locked = true; `security_breach`, security Triggered and every light with power = true
and brightness = 100. In each case every device of a type the scenario does not name
is exactly as it was, and no device was added or removed. -/
theorem other_scenarios_effect (s : MemoryStore) (now : Time) (hwf : WellFormed s) :
    ((Scheduler.TriggerAutomationScenario s "evening_routine" now).2 = none
      ∧ AllOfTypeHave (Scheduler.TriggerAutomationScenario s "evening_routine" now).1
          DeviceTypeLight [("power", .bool true), ("brightness", .int 40)]
      ∧ AllOfTypeHave (Scheduler.TriggerAutomationScenario s "evening_routine" now).1
          DeviceTypeThermostat [("target_temp", .float 20.0)]
      ∧ OthersKept s (Scheduler.TriggerAutomationScenario s "evening_routine" now).1
          [DeviceTypeLight, DeviceTypeThermostat]
      ∧ SameDevices s (Scheduler.TriggerAutomationScenario s "evening_routine" now).1)
    ∧ ((Scheduler.TriggerAutomationScenario s "away_mode" now).2 = none
      ∧ AllOfTypeHave (Scheduler.TriggerAutomationScenario s "away_mode" now).1
          DeviceTypeLight [("power", .bool false)]
      ∧ AllOfTypeHave (Scheduler.TriggerAutomationScenario s "away_mode" now).1
          DeviceTypeThermostat [("target_temp", .float 18.0)]
      ∧ (Scheduler.TriggerAutomationScenario s "away_mode" now).1.security.State
          = SecurityStateArmed
      ∧ OthersKept s (Scheduler.TriggerAutomationScenario s "away_mode" now).1
          [DeviceTypeLight, DeviceTypeThermostat]
      ∧ SameDevices s (Scheduler.TriggerAutomationScenario s "away_mode" now).1)
    ∧ ((Scheduler.TriggerAutomationScenario s "sleep_mode" now).2 = none
      ∧ AllOfTypeHave (Scheduler.TriggerAutomationScenario s "sleep_mode" now).1
          DeviceTypeLight [("power", .bool false)]
      ∧ AllOfTypeHave (Scheduler.TriggerAutomationScenario s "sleep_mode" now).1
          DeviceTypeLock [("locked", .bool true)]
      ∧ OthersKept s (Scheduler.TriggerAutomationScenario s "sleep_mode" now).1
          [DeviceTypeLight, DeviceTypeLock]
      ∧ SameDevices s (Scheduler.TriggerAutomationScenario s "sleep_mode" now).1)
    ∧ ((Scheduler.TriggerAutomationScenario s "security_breach" now).2 = none
      ∧ (Scheduler.TriggerAutomationScenario s "security_breach" now).1.security.State
          = SecurityStateTriggered
      ∧ AllOfTypeHave (Scheduler.TriggerAutomationScenario s "security_breach" now).1
          DeviceTypeLight [("power", .bool true), ("brightness", .int 100)]
      ∧ OthersKept s (Scheduler.TriggerAutomationScenario s "security_breach" now).1
          [DeviceTypeLight]
      ∧ SameDevices s (Scheduler.TriggerAutomationScenario s "security_breach" now).1) := by
  refine ⟨?_, ?_, ?_, ?_⟩
  · have hr : Scheduler.TriggerAutomationScenario s "evening_routine" now
        = Scheduler.executeEveningRoutine s now := rfl
    rw [hr]
    obtain ⟨h1, h2⟩ := two_loops_devices s DeviceTypeLight DeviceTypeThermostat
      [("power", .bool true), ("brightness", .int 40)] [("target_temp", .float 20.0)] now hwf
    obtain ⟨a1, a2, o, d⟩ := two_loops_outcome s _ (Scheduler.executeEveningRoutine s now).1
      DeviceTypeLight DeviceTypeThermostat _ _ now h1 h2 light_ne_thermostat
      (by simp [GoMap.keys]) (by simp [GoMap.keys, isFieldKey])
      (by simp [GoMap.keys]) (by simp [GoMap.keys, isFieldKey])
    exact ⟨rfl, a1, a2, o, d⟩
  · have hr : Scheduler.TriggerAutomationScenario s "away_mode" now
        = Scheduler.executeAwayMode s now := rfl
    rw [hr]
    obtain ⟨h1, h2⟩ := two_loops_devices s DeviceTypeLight DeviceTypeThermostat
      [("power", .bool false)] [("target_temp", .float 18.0)] now hwf
    have hdev : (Scheduler.executeAwayMode s now).1.devices
        = (Scheduler.updateAll s (DeviceService.GetDevicesByType s DeviceTypeLight)
            [("power", .bool false)] now).devices.map
            (touchType DeviceTypeThermostat [("target_temp", .float 18.0)] now) := by
      rw [← h2]
      unfold Scheduler.executeAwayMode
      exact UpdateSecurity_devices _ _ _
    obtain ⟨a1, a2, o, d⟩ := two_loops_outcome s _ (Scheduler.executeAwayMode s now).1
      DeviceTypeLight DeviceTypeThermostat _ _ now h1 hdev light_ne_thermostat
      (by simp [GoMap.keys]) (by simp [GoMap.keys, isFieldKey])
      (by simp [GoMap.keys]) (by simp [GoMap.keys, isFieldKey])
    refine ⟨rfl, a1, a2, ?_, o, d⟩
    rw [executeAwayMode_security]
  · have hr : Scheduler.TriggerAutomationScenario s "sleep_mode" now
        = Scheduler.executeSleepMode s now := rfl
    rw [hr]
    obtain ⟨h1, h2⟩ := two_loops_devices s DeviceTypeLight DeviceTypeLock
      [("power", .bool false)] [("locked", .bool true)] now hwf
    obtain ⟨a1, a2, o, d⟩ := two_loops_outcome s _ (Scheduler.executeSleepMode s now).1
      DeviceTypeLight DeviceTypeLock _ _ now h1 h2 light_ne_lock
      (by simp [GoMap.keys]) (by simp [GoMap.keys, isFieldKey])
      (by simp [GoMap.keys]) (by simp [GoMap.keys, isFieldKey])
    exact ⟨rfl, a1, a2, o, d⟩
  · have hr : Scheduler.TriggerAutomationScenario s "security_breach" now
        = Scheduler.executeSecurityBreach s now := rfl
    rw [hr]
    have hwf0 : WellFormed (s.UpdateSecurity
        { s.security with
          State := SecurityStateTriggered, LastTriggered := now, TriggeredBy := "simulation" }
        now) := by
      unfold WellFormed
      rw [UpdateSecurity_devices]
      exact hwf
    have h1 := updateAll_byType_devices _ DeviceTypeLight
      [("power", .bool true), ("brightness", .int 100)] now hwf0
    rw [UpdateSecurity_devices] at h1
    obtain ⟨a1, o, d⟩ := one_loop_outcome s (Scheduler.executeSecurityBreach s now).1
      DeviceTypeLight _ now h1
      (by simp [GoMap.keys]) (by simp [GoMap.keys, isFieldKey])
    refine ⟨rfl, ?_, a1, o, d⟩
    rw [executeSecurityBreach_security]

theorem other_scenarios_effect_witness :
    ∃ l : Device,
      (Scheduler.TriggerAutomationScenario twoLightsStore "away_mode" 3000).1.devices.get?
          "light_001" = some l
      ∧ l.Properties.get? "power" = some (.bool false)
      ∧ (Scheduler.TriggerAutomationScenario twoLightsStore "away_mode" 3000).1.security.State
          = SecurityStateArmed :=
  have ⟨_, hl, _, hsec, _, _⟩ := (other_scenarios_effect twoLightsStore 3000
    (by constructor <;> decide)).2.1
  ⟨_, rfl, hl "light_001" _ rfl rfl ("power", .bool false) (by simp), hsec⟩

/-- C20: one tick of the task runner executes exactly the listed tasks that are
enabled and whose `NextRun` is zero or strictly before the current time, in listing
order; when no listed task is due the store is left as it was (no device, security or
event-log change); and, the tasks being stored under their own unique ids, a task that
is not due is still stored unchanged after the tick. -/
theorem task_runner_runs_exactly_due_tasks (s : MemoryStore) (now : Time) :
    (∀ t : ScheduledTask, Scheduler.isDue t now = true
        ↔ (t.Enabled = true ∧ (t.NextRun = 0 ∨ t.NextRun < now)))
    ∧ Scheduler.processTasks s now
        = (s.ListTasks.filter (fun t => Scheduler.isDue t now)).foldl
            (fun s t => Scheduler.executeTask s t now) s
    ∧ ((∀ t ∈ s.ListTasks, Scheduler.isDue t now = false) → Scheduler.processTasks s now = s)
    ∧ (TasksWellFormed s → ∀ t ∈ s.ListTasks, Scheduler.isDue t now = false →
        (Scheduler.processTasks s now).tasks.get? t.ID = some t) := by
  have heq : Scheduler.processTasks s now
      = (s.ListTasks.filter (fun t => Scheduler.isDue t now)).foldl
          (fun s t => Scheduler.executeTask s t now) s := by
    unfold Scheduler.processTasks
    exact foldl_if_eq_foldl_filter (fun t => Scheduler.isDue t now) _ _ _
  refine ⟨?_, heq, ?_, ?_⟩
  · intro t
    simp [Scheduler.isDue]
  · intro h
    rw [heq, List.filter_eq_nil_iff.2 (fun t ht => by simp [h t ht])]
    rfl
  · intro hwf t ht hnd
    obtain ⟨k, hk⟩ := (mem_values_iff s.tasks t).1 ht
    have hkid : t.ID = k := hwf.2 (k, t) hk
    have hget : s.tasks.get? t.ID = some t := by
      rw [hkid]; exact get?_of_mem_nodup s.tasks (k, t) hwf.1 hk
    rw [heq, foldl_executeTask_tasks_other _ _ _ _ ?_, hget]
    intro t' ht' hid
    obtain ⟨ht'mem, ht'due⟩ := List.mem_filter.1 ht'
    obtain ⟨k', hk'⟩ := (mem_values_iff s.tasks t').1 ht'mem
    have hk'id : t'.ID = k' := hwf.2 (k', t') hk'
    have hget' : s.tasks.get? t'.ID = some t' := by
      rw [hk'id]; exact get?_of_mem_nodup s.tasks (k', t') hwf.1 hk'
    rw [← hid, hget] at hget'
    have : t = t' := Option.some.inj hget'
    subst this
    rw [hnd] at ht'due
    cases ht'due

theorem task_runner_runs_exactly_due_tasks_witness :
    (Scheduler.processTasks twoTasksStore 5000).tasks.get? "task_off"
      = some storedDisabledTask :=
  (task_runner_runs_exactly_due_tasks twoTasksStore 5000).2.2.2
    (by constructor <;> decide) storedDisabledTask
    (by
      have h : twoTasksStore.ListTasks
          = [{ sampleTask with CreatedAt := 1003 }, storedArmTask, storedDisabledTask] := rfl
      rw [h]
      simp)
    rfl

/-- C21: for a stored task whose device exists and whose action is one of the eight
recognised actions, executing it at time `now` leaves the task stored with
`LastRun = now` and `NextRun = now + scheduleOffset schedule` (15 minutes, 30 minutes,
1 hour, 1 day, 7 days for the five keywords, 1 hour for any other; a day is 24 hours)
and every other field as it was, and appends, after whatever the action itself logged
(nothing, or one `device_updated` or `security_updated` event), exactly one
`task_executed` event carrying the task id, the device id and the action. -/
theorem task_execution_records_run (s : MemoryStore) (task : ScheduledTask) (device : Device)
    (now : Time)
    (hdev : s.devices.get? task.DeviceID = some device)
    (hact : task.Action ∈ recognizedActions)
    (hstored : s.tasks.get? task.ID = some task) :
    (Scheduler.executeTask s task now).tasks.get? task.ID
        = some { task with LastRun := now, NextRun := now + scheduleOffset task.Schedule }
    ∧ (scheduleOffset "every_15_minutes" = 15 * Minute
        ∧ scheduleOffset "every_30_minutes" = 30 * Minute
        ∧ scheduleOffset "hourly" = Hour
        ∧ scheduleOffset "daily" = 24 * Hour
        ∧ scheduleOffset "weekly" = 7 * (24 * Hour)
        ∧ (task.Schedule ∉ ["every_15_minutes", "every_30_minutes", "hourly", "daily", "weekly"]
            → scheduleOffset task.Schedule = Hour))
    ∧ ∃ (s1 : MemoryStore) (e : SystemEvent),
        Scheduler.executeAction s task device now = some s1
        ∧ (s1.systemEvents = s.systemEvents
            ∨ ∃ e1 : SystemEvent, (e1.Typ = "device_updated" ∨ e1.Typ = "security_updated")
                ∧ s1.systemEvents = lastN 500 (s.systemEvents ++ [e1]))
        ∧ e.Typ = "task_executed"
        ∧ e.Data = [("task_id", .str task.ID), ("device_id", .str task.DeviceID),
                    ("action", .str task.Action)]
        ∧ (Scheduler.executeTask s task now).systemEvents
            = lastN 500 (s1.systemEvents ++ [e]) := by
  obtain ⟨s1, hs1⟩ := executeAction_isSome_of_recognized s task device now hact
  have hrun : Scheduler.executeTask s task now
      = MemoryStore.AddSystemEvent
          (s1.UpdateTask task.ID
            [("last_run", .time now),
             ("next_run", .time (Scheduler.calculateNextRun task.Schedule now))]).1
          { ID := "task_" ++ toString (MemoryStore.UnixNano now),
            Typ := "task_executed",
            Source := "scheduler",
            Message := "Task " ++ task.Name ++ " executed successfully",
            Data := [("task_id", .str task.ID), ("device_id", .str task.DeviceID),
                     ("action", .str task.Action)],
            Timestamp := now,
            Severity := "info" } := by
    unfold Scheduler.executeTask
    simp only [DeviceService.GetDevice, MemoryStore.GetDevice, hdev, hs1]
  refine ⟨?_, ⟨rfl, rfl, rfl, rfl, rfl, ?_⟩, s1,
    { ID := "task_" ++ toString (MemoryStore.UnixNano now),
      Typ := "task_executed",
      Source := "scheduler",
      Message := "Task " ++ task.Name ++ " executed successfully",
      Data := [("task_id", .str task.ID), ("device_id", .str task.DeviceID),
               ("action", .str task.Action)],
      Timestamp := now,
      Severity := "info" }, hs1,
    executeAction_systemEvents s s1 task device now hs1, rfl, rfl, ?_⟩
  · rw [hrun, (AddSystemEvent_frame _ _).2.2.2.1]
    have ht : s1.tasks.get? task.ID = some task := by
      rw [executeAction_tasks s s1 task device now hs1]; exact hstored
    unfold MemoryStore.UpdateTask
    simp only [ht]
    rw [get?_set_self, foldl_applyTaskUpdate _ _ (by simp [GoMap.keys]), calculateNextRun_eq]
    simp [GoMap.get?, Value.asTime]
  · intro h
    simp only [List.mem_cons, List.mem_singleton, List.mem_nil_iff, or_false, not_or] at h
    unfold scheduleOffset
    simp [h.1, h.2.1, h.2.2.1, h.2.2.2.1, h.2.2.2.2]
  · rw [hrun, AddSystemEvent_systemEvents, (UpdateTask_frame _ _ _).2.2.2.2.1]

theorem task_execution_records_run_witness :
    (Scheduler.executeTask storeWithArmTask storedArmTask 5000).tasks.get? storedArmTask.ID
      = some { storedArmTask with
          LastRun := 5000, NextRun := 5000 + scheduleOffset storedArmTask.Schedule } :=
  (task_execution_records_run storeWithArmTask storedArmTask
    { sampleLight with CreatedAt := 1001, LastUpdated := 1001 } 5000 rfl (by decide) rfl).1

/-- C22 (amended): for a task whose device is stored under the task's device id,
executing it does what its action says. `turn_on` / `turn_off` write `power := true` /
`false`, `lock` / `unlock` write `locked := true` / `false`; `set_temperature` writes
`target_temp` when the parameter is a float; `set_brightness`, when the parameter is a
float, writes as `brightness` its integer part if a 64-bit `int` can hold that, and in
every case some 64-bit `int`; neither touches the devices when the parameter is missing
or not a float; these six leave the security system as it was, every other attribute of
the device and every other device as they were. `arm_security` sets the state Armed with
`LastArmed = now` and `disarm_security` sets it Disarmed, both leaving all devices as
they were. -/
theorem task_action_effect (s : MemoryStore) (task : ScheduledTask) (device : Device)
    (now : Time)
    (hdev : s.devices.get? task.DeviceID = some device)
    (hid : device.ID = task.DeviceID) :
    (task.Action = "turn_on" →
        SetsAttr s (Scheduler.executeTask s task now) task.DeviceID "power" (.bool true)
        ∧ (Scheduler.executeTask s task now).security = s.security)
    ∧ (task.Action = "turn_off" →
        SetsAttr s (Scheduler.executeTask s task now) task.DeviceID "power" (.bool false)
        ∧ (Scheduler.executeTask s task now).security = s.security)
    ∧ (task.Action = "lock" →
        SetsAttr s (Scheduler.executeTask s task now) task.DeviceID "locked" (.bool true)
        ∧ (Scheduler.executeTask s task now).security = s.security)
    ∧ (task.Action = "unlock" →
        SetsAttr s (Scheduler.executeTask s task now) task.DeviceID "locked" (.bool false)
        ∧ (Scheduler.executeTask s task now).security = s.security)
    ∧ (task.Action = "set_temperature" →
        (∀ t, task.Parameters.get? "temperature" = some (.float t) →
          SetsAttr s (Scheduler.executeTask s task now) task.DeviceID "target_temp" (.float t))
        ∧ ((task.Parameters.get? "temperature").bind Value.asFloat = none →
            (Scheduler.executeTask s task now).devices = s.devices)
        ∧ (Scheduler.executeTask s task now).security = s.security)
    ∧ (task.Action = "set_brightness" →
        (∀ b, task.Parameters.get? "brightness" = some (.float b) →
          (Scheduler.MinInt64 ≤ Scheduler.intPart b ∧ Scheduler.intPart b ≤ Scheduler.MaxInt64 →
            SetsAttr s (Scheduler.executeTask s task now) task.DeviceID "brightness"
              (.int (Scheduler.intPart b)))
          ∧ ∃ n : Int, Scheduler.MinInt64 ≤ n ∧ n ≤ Scheduler.MaxInt64
              ∧ SetsAttr s (Scheduler.executeTask s task now) task.DeviceID "brightness"
                  (.int n))
        ∧ ((task.Parameters.get? "brightness").bind Value.asFloat = none →
            (Scheduler.executeTask s task now).devices = s.devices)
        ∧ (Scheduler.executeTask s task now).security = s.security)
    ∧ (task.Action = "arm_security" →
        (Scheduler.executeTask s task now).security
          = { s.security with State := SecurityStateArmed, LastArmed := now }
        ∧ (Scheduler.executeTask s task now).devices = s.devices)
    ∧ (task.Action = "disarm_security" →
        (Scheduler.executeTask s task now).security
          = { s.security with State := SecurityStateDisarmed }
        ∧ (Scheduler.executeTask s task now).devices = s.devices) := by
  have hupd : ∀ (k : String) (v : Value), k ≠ "name" → k ≠ "status" → k ≠ "location" →
      Scheduler.executeAction s task device now
        = some (DeviceService.UpdateDevice s device.ID [(k, v)] now).1 →
      SetsAttr s (Scheduler.executeTask s task now) task.DeviceID k v
      ∧ (Scheduler.executeTask s task now).security = s.security := by
    intro k v h1 h2 h3 hact
    obtain ⟨e1, e2⟩ := executeTask_of_action s _ task device now hdev hact
    refine ⟨SetsAttr_of_devices_eq s _ _ _ _ _ ?_ e1, ?_⟩
    · rw [hid]
      exact UpdateDevice_SetsAttr s task.DeviceID k v device now hdev h1 h2 h3
    · rw [e2]
      exact (UpdateDevice_frame _ _ _ _).2.1
  have hsame : Scheduler.executeAction s task device now = some s →
      (Scheduler.executeTask s task now).devices = s.devices
      ∧ (Scheduler.executeTask s task now).security = s.security := fun hact =>
    executeTask_of_action s s task device now hdev hact
  have hsec : ∀ security : SecuritySystem,
      Scheduler.executeAction s task device now = some (s.UpdateSecurity security now) →
      (Scheduler.executeTask s task now).security = security
      ∧ (Scheduler.executeTask s task now).devices = s.devices := by
    intro security hact
    obtain ⟨e1, e2⟩ := executeTask_of_action s _ task device now hdev hact
    exact ⟨e2.trans (UpdateSecurity_security _ _ _), e1.trans (UpdateSecurity_devices _ _ _)⟩
  refine ⟨?_, ?_, ?_, ?_, ?_, ?_, ?_, ?_⟩
  · intro ha
    exact hupd _ _ (by decide) (by decide) (by decide) (by simp [Scheduler.executeAction, ha])
  · intro ha
    exact hupd _ _ (by decide) (by decide) (by decide) (by simp [Scheduler.executeAction, ha])
  · intro ha
    exact hupd _ _ (by decide) (by decide) (by decide) (by simp [Scheduler.executeAction, ha])
  · intro ha
    exact hupd _ _ (by decide) (by decide) (by decide) (by simp [Scheduler.executeAction, ha])
  · intro ha
    refine ⟨?_, ?_, ?_⟩
    · intro t ht
      exact (hupd _ _ (by decide) (by decide) (by decide)
        (by simp [Scheduler.executeAction, ha, ht, Value.asFloat])).1
    · intro hn
      exact (hsame (by simp [Scheduler.executeAction, ha, hn])).1
    · cases hp : (task.Parameters.get? "temperature").bind Value.asFloat with
      | none => exact (hsame (by simp [Scheduler.executeAction, ha, hp])).2
      | some t =>
        exact (hupd "target_temp" (.float t) (by decide) (by decide) (by decide)
          (by simp [Scheduler.executeAction, ha, hp])).2
  · intro ha
    refine ⟨?_, ?_, ?_⟩
    · intro b hb
      have hset := (hupd "brightness" (.int (Scheduler.truncToInt b)) (by decide) (by decide)
        (by decide) (by simp [Scheduler.executeAction, ha, hb, Value.asFloat])).1
      refine ⟨?_, Scheduler.truncToInt b, (truncToInt_range b).1, (truncToInt_range b).2, hset⟩
      intro hr
      rw [← truncToInt_of_range b hr]
      exact hset
    · intro hn
      exact (hsame (by simp [Scheduler.executeAction, ha, hn])).1
    · cases hp : (task.Parameters.get? "brightness").bind Value.asFloat with
      | none => exact (hsame (by simp [Scheduler.executeAction, ha, hp])).2
      | some b =>
        exact (hupd "brightness" (.int (Scheduler.truncToInt b)) (by decide) (by decide)
          (by decide) (by simp [Scheduler.executeAction, ha, hp])).2
  · intro ha
    exact hsec _ (by simp [Scheduler.executeAction, ha, MemoryStore.GetSecurity])
  · intro ha
    exact hsec _ (by simp [Scheduler.executeAction, ha, MemoryStore.GetSecurity])

theorem task_action_effect_witness :
    SetsAttr sampleStore (Scheduler.executeTask sampleStore dimTask 5000) "light_001"
      "brightness" (.int 55) :=
  intPart_example ▸
    (((task_action_effect sampleStore dimTask
        { sampleLight with CreatedAt := 1001, LastUpdated := 1001 } 5000 rfl rfl).2.2.2.2.2.1
      rfl).1 55.5 rfl).1 (by rw [intPart_example]; decide)

theorem set_temperature_ignores_text_parameter :
    thermostatStore.devices.get? textTempTask.DeviceID = some storedThermostat
    ∧ textTempTask.Action = "set_temperature"
    ∧ textTempTask.Parameters.get? "temperature" = some (.str "25")
    ∧ (Scheduler.executeTask thermostatStore textTempTask 5000).devices.get? "thermostat_001"
        = some storedThermostat
    ∧ storedThermostat.Properties.get? "target_temp" = some (.float 22)
    ∧ (22 : Float64) ≠ 25 :=
  ⟨rfl, rfl, rfl, rfl, rfl, by norm_num⟩

/-- C23: a task whose device id is not in the store, or whose action is not one of
the eight recognised actions, is skipped: executing it returns the store as it was (so
its `LastRun` and `NextRun`, all devices, the security system and the event log are the
same), `TriggerTask` on it returns no error and the same store, a run of executions
with the task in it is the run without it, and one tick of the task runner is the run of
the due tasks that are not skipped. -/
theorem skipped_task_changes_nothing (s : MemoryStore) (task : ScheduledTask) (now : Time)
    (h : s.devices.get? task.DeviceID = none ∨ task.Action ∉ recognizedActions) :
    Scheduler.executeTask s task now = s
    ∧ (∀ id, s.tasks.get? id = some task → Scheduler.TriggerTask s id now = (s, none))
    ∧ (∀ pre post : List ScheduledTask,
        (pre ++ task :: post).foldl (fun s t => Scheduler.executeTask s t now) s
          = (pre ++ post).foldl (fun s t => Scheduler.executeTask s t now) s)
    ∧ Scheduler.processTasks s now
        = (s.ListTasks.filter (fun t => Scheduler.isDue t now && !isSkipped s t)).foldl
            (fun s t => Scheduler.executeTask s t now) s := by
  have hsk : isSkipped s task = true := (isSkipped_iff s task).2 h
  refine ⟨executeTask_of_isSkipped s task now hsk, ?_, ?_, ?_⟩
  · intro id hid
    unfold Scheduler.TriggerTask MemoryStore.GetTask
    simp only [hid]
    rw [executeTask_of_isSkipped s task now hsk]
  · intro pre post
    rw [List.foldl_append, List.foldl_append, List.foldl_cons,
      executeTask_of_isSkipped _ task now
        ((isSkipped_foldl_executeTask pre s task now).trans hsk)]
  · unfold Scheduler.processTasks
    dsimp only
    rw [foldl_if_eq_foldl_filter (fun t => Scheduler.isDue t now), foldl_executeTask_filter,
      List.filter_filter]
    congr 1
    apply List.filter_congr
    intro t _
    exact Bool.and_comm _ _

theorem skipped_task_changes_nothing_witness :
    Scheduler.executeTask skippedTasksStore unknownActionTask 5000 = skippedTasksStore
    ∧ Scheduler.TriggerTask skippedTasksStore "task_1" 5000 = (skippedTasksStore, none)
    ∧ (Scheduler.processTasks skippedTasksStore 5000).tasks.get? "task_dance"
        = some { unknownActionTask with CreatedAt := 1400 }
    ∧ (Scheduler.processTasks skippedTasksStore 5000).security.State = SecurityStateArmed :=
  ⟨(skipped_task_changes_nothing skippedTasksStore unknownActionTask 5000
      (Or.inr (by decide))).1,
   (skipped_task_changes_nothing skippedTasksStore { sampleTask with CreatedAt := 1003 } 5000
      (Or.inl rfl)).2.1 "task_1" rfl,
   rfl, rfl⟩

/-- C24 (amended): for a task whose resulting id is not already stored,
`Scheduler.AddTask` returns no error and stores the task under that id with
`Enabled = true` whatever was supplied and `CreatedAt = now`; the id is the supplied one
when that is not empty and a generated, non-empty `task_<nanoseconds>` otherwise; and
`NextRun` is `now + scheduleOffset schedule` when the supplied `NextRun` is the zero
time, and the supplied `NextRun` otherwise. -/
theorem scheduler_add_task_effect (s : MemoryStore) (task : ScheduledTask) (now : Time)
    (hfree : s.tasks.get? (addedTaskID task now) = none) :
    (Scheduler.AddTask s task now).2 = none
    ∧ (Scheduler.AddTask s task now).1.tasks.get? (addedTaskID task now)
        = some { task with
            ID := addedTaskID task now,
            NextRun := if task.NextRun = 0 then now + scheduleOffset task.Schedule
                       else task.NextRun,
            Enabled := true,
            CreatedAt := now }
    ∧ addedTaskID task now ≠ ""
    ∧ (task.ID ≠ "" → addedTaskID task now = task.ID) := by
  have hbuilt : Scheduler.AddTask s task now
      = s.AddTask { task with
          ID := addedTaskID task now,
          NextRun := if task.NextRun = 0 then now + scheduleOffset task.Schedule
                     else task.NextRun,
          Enabled := true,
          CreatedAt := now } now := by
    unfold Scheduler.AddTask addedTaskID
    rw [← calculateNextRun_eq]
    by_cases h1 : task.ID = "" <;> by_cases h2 : task.NextRun = 0 <;> simp [h1, h2]
  refine ⟨?_, ?_, addedTaskID_ne_empty task now, ?_⟩
  · rw [hbuilt]; exact (AddTask_fresh s _ now hfree).1
  · rw [hbuilt]; exact (AddTask_fresh s _ now hfree).2
  · intro h; unfold addedTaskID; rw [if_neg h]

theorem scheduler_add_task_effect_witness :
    ∃ t : ScheduledTask,
      (Scheduler.AddTask sampleStore anonymousTask 5000).1.tasks.get?
          (addedTaskID anonymousTask 5000) = some t
      ∧ t.Enabled = true
      ∧ t.NextRun = 5000 + 15 * Minute
      ∧ t.ID ≠ "" :=
  have h := scheduler_add_task_effect sampleStore anonymousTask 5000 rfl
  ⟨_, h.2.1, rfl, rfl, h.2.2.1⟩

theorem scheduler_add_task_keeps_supplied_next_run :
    sampleStore.tasks.get? "task_preset" = none
    ∧ presetTask.NextRun = 777
    ∧ ((Scheduler.AddTask sampleStore presetTask 5000).1.tasks.get? "task_preset").map
        (fun t => (t.NextRun, t.Enabled)) = some (777, true)
    ∧ (777 : Time) ≠ 5000 + scheduleOffset presetTask.Schedule := by
  refine ⟨rfl, rfl, rfl, ?_⟩
  decide

/-- C25: for every store and every integer `limit`, `GetEnergyUsage limit` is the last
`limit` records of the energy log in arrival order when `0 < limit ≤ n` (`n` the size of
the log) and the entire log when `limit ≤ 0` or `limit > n`; `GetSystemEvents limit`
does the same on the event log. -/
theorem log_readers_return_last_limit (s : MemoryStore) (limit : Int) :
    (0 < limit → limit ≤ s.energyUsage.length →
        s.GetEnergyUsage limit = s.energyUsage.drop (s.energyUsage.length - limit.toNat)
        ∧ ((s.GetEnergyUsage limit).length : Int) = limit)
    ∧ (limit ≤ 0 ∨ limit > s.energyUsage.length → s.GetEnergyUsage limit = s.energyUsage)
    ∧ (0 < limit → limit ≤ s.systemEvents.length →
        s.GetSystemEvents limit = s.systemEvents.drop (s.systemEvents.length - limit.toNat)
        ∧ ((s.GetSystemEvents limit).length : Int) = limit)
    ∧ (limit ≤ 0 ∨ limit > s.systemEvents.length → s.GetSystemEvents limit = s.systemEvents) := by
  refine ⟨?_, ?_, ?_, ?_⟩
  · intro h1 h2
    have hc : ¬ (limit ≤ 0 ∨ limit > s.energyUsage.length) := by omega
    unfold MemoryStore.GetEnergyUsage
    rw [if_neg hc]
    refine ⟨rfl, ?_⟩
    rw [lastN_length]
    omega
  · intro h
    unfold MemoryStore.GetEnergyUsage
    rw [if_pos h]
  · intro h1 h2
    have hc : ¬ (limit ≤ 0 ∨ limit > s.systemEvents.length) := by omega
    unfold MemoryStore.GetSystemEvents
    rw [if_neg hc]
    refine ⟨rfl, ?_⟩
    rw [lastN_length]
    omega
  · intro h
    unfold MemoryStore.GetSystemEvents
    rw [if_pos h]

theorem log_readers_return_last_limit_witness :
    sampleStore.GetSystemEvents 2
        = sampleStore.systemEvents.drop (sampleStore.systemEvents.length - 2)
    ∧ sampleStore.GetSystemEvents 7 = sampleStore.systemEvents :=
  ⟨((log_readers_return_last_limit sampleStore 2).2.2.1 (by decide) (by decide)).1,
   (log_readers_return_last_limit sampleStore 7).2.2.2 (Or.inr (by decide))⟩

/-- C26: from every store, `Reset` leaves no devices, no tasks, an empty energy log,
the zero weather snapshot, a Disarmed security system with no active sensors, the start
time set to the time of the call, and an event log of exactly one event, of type
`system_reset`. -/
theorem reset_clears_the_store (s : MemoryStore) (now : Time) :
    (s.Reset now).devices = []
    ∧ (s.Reset now).tasks = []
    ∧ (s.Reset now).energyUsage = []
    ∧ (s.Reset now).weather = WeatherData.zero
    ∧ (s.Reset now).security.State = SecurityStateDisarmed
    ∧ (s.Reset now).security.ActiveSensors = []
    ∧ (s.Reset now).startTime = now
    ∧ ∃ e : SystemEvent, (s.Reset now).systemEvents = [e] ∧ e.Typ = "system_reset" := by
  unfold MemoryStore.Reset
  obtain ⟨h1, h2, h3, h4, h5, h6⟩ := addSystemEvent_frame
    ({ s with
      devices := [], weather := WeatherData.zero,
      security := { State := SecurityStateDisarmed, LastArmed := 0, LastTriggered := 0,
                    ActiveSensors := [], TriggeredBy := "" },
      tasks := [], energyUsage := [], systemEvents := [], startTime := now } : MemoryStore)
    "system_reset" "storage" "System state reset" [] now
  refine ⟨h1, h4, h5, h2, ?_, ?_, h6, ?_⟩
  · exact congrArg SecuritySystem.State h3
  · exact congrArg SecuritySystem.ActiveSensors h3
  · refine ⟨MemoryStore.storageEvent "system_reset" "storage" "System state reset" [] now, ?_, rfl⟩
    rw [addSystemEvent_systemEvents]
    simp [lastN]

/-- C27 (amended): for every prior snapshot and draws in [0,1) (and a direction draw
below 3), one weather tick writes to the store the snapshot it computes, with humidity
in [30, 90], pressure in [980, 1040] and wind speed in [0, 30]; each of the three is a
clamp bound or differs from its previous value by at most 5, 10 and 2.5; the wind
direction is one of the eight compass points, within one cyclic step of the previous
direction when that is a compass point, and within one step of `N` when it is not. -/
theorem weather_tick_stays_in_range (current : WeatherData) (s : MemoryStore)
    (baseTemp rTemp rHum rPres : Float64) (kCond : Nat) (rWind : Float64) (kDir : Nat)
    (now : Time)
    (hHum : 0 ≤ rHum ∧ rHum < 1) (hPres : 0 ≤ rPres ∧ rPres < 1)
    (hWind : 0 ≤ rWind ∧ rWind < 1) (hDir : kDir < 3) :
    let w :=
      (WeatherService.updateWeather current s baseTemp rTemp rHum rPres kCond rWind kDir now).1
    (WeatherService.updateWeather current s baseTemp rTemp rHum rPres kCond rWind kDir now).2.weather
        = w
    ∧ (30 ≤ w.Humidity ∧ w.Humidity ≤ 90)
    ∧ (w.Humidity = 30 ∨ w.Humidity = 90
        ∨ (-5 ≤ w.Humidity - current.Humidity ∧ w.Humidity - current.Humidity ≤ 5))
    ∧ (980 ≤ w.Pressure ∧ w.Pressure ≤ 1040)
    ∧ (w.Pressure = 980 ∨ w.Pressure = 1040
        ∨ (-10 ≤ w.Pressure - current.Pressure ∧ w.Pressure - current.Pressure ≤ 10))
    ∧ (0 ≤ w.WindSpeed ∧ w.WindSpeed ≤ 30)
    ∧ (w.WindSpeed = 0 ∨ w.WindSpeed = 30
        ∨ (-(5 / 2) ≤ w.WindSpeed - current.WindSpeed
            ∧ w.WindSpeed - current.WindSpeed ≤ 5 / 2))
    ∧ w.WindDir ∈ WeatherService.directions
    ∧ (current.WindDir ∈ WeatherService.directions → compassStep current.WindDir w.WindDir)
    ∧ (current.WindDir ∉ WeatherService.directions → compassStep "N" w.WindDir) := by
  intro w
  obtain ⟨a1, a2, a3⟩ := calculateHumidity_range
    { current with Temperature := baseTemp + (rTemp - 0.5) * 4.0 } rHum hHum.1 hHum.2
  obtain ⟨b1, b2, b3⟩ := calculatePressure_range
    { current with
      Temperature := baseTemp + (rTemp - 0.5) * 4.0,
      Humidity := WeatherService.calculateHumidity
        { current with Temperature := baseTemp + (rTemp - 0.5) * 4.0 } rHum }
    rPres hPres.1 hPres.2
  obtain ⟨c1, c2, c3⟩ := calculateWindSpeed_range
    { current with
      Temperature := baseTemp + (rTemp - 0.5) * 4.0,
      Humidity := WeatherService.calculateHumidity
        { current with Temperature := baseTemp + (rTemp - 0.5) * 4.0 } rHum,
      Pressure := WeatherService.calculatePressure
        { current with
          Temperature := baseTemp + (rTemp - 0.5) * 4.0,
          Humidity := WeatherService.calculateHumidity
            { current with Temperature := baseTemp + (rTemp - 0.5) * 4.0 } rHum } rPres,
      Condition := WeatherService.calculateCondition
        { current with
          Temperature := baseTemp + (rTemp - 0.5) * 4.0,
          Humidity := WeatherService.calculateHumidity
            { current with Temperature := baseTemp + (rTemp - 0.5) * 4.0 } rHum,
          Pressure := WeatherService.calculatePressure
            { current with
              Temperature := baseTemp + (rTemp - 0.5) * 4.0,
              Humidity := WeatherService.calculateHumidity
                { current with Temperature := baseTemp + (rTemp - 0.5) * 4.0 } rHum } rPres }
        kCond }
    rWind hWind.1 hWind.2
  obtain ⟨d1, d2, d3⟩ := calculateWindDirection_step
    { current with
      Temperature := w.Temperature, Humidity := w.Humidity, Pressure := w.Pressure,
      Condition := w.Condition, WindSpeed := w.WindSpeed } kDir hDir
  refine ⟨UpdateWeather_weather _ _ _, ⟨a1, a2⟩, ?_, ⟨b1, b2⟩, ?_, ⟨c1, c2⟩, ?_, d1, d2, d3⟩
  · rcases a3 with h | h | h
    · exact Or.inl h
    · exact Or.inr (Or.inl h)
    · exact Or.inr (Or.inr h.2)
  · rcases b3 with h | h | h
    · exact Or.inl h
    · exact Or.inr (Or.inl h)
    · exact Or.inr (Or.inr h.2)
  · rcases c3 with h | h | h
    · exact Or.inl h
    · exact Or.inr (Or.inl h)
    · exact Or.inr (Or.inr h.2)

theorem weather_tick_stays_in_range_witness :
    30 ≤ (WeatherService.updateWeather (WeatherService.initialWeather 1000) sampleStore
            18 0.5 0.5 0.5 0 0.5 1 2000).1.Humidity
    ∧ (WeatherService.updateWeather (WeatherService.initialWeather 1000) sampleStore
            18 0.5 0.5 0.5 0 0.5 1 2000).1.Humidity ≤ 90 :=
  (weather_tick_stays_in_range (WeatherService.initialWeather 1000) sampleStore
    18 0.5 0.5 0.5 0 0.5 1 2000 ⟨by norm_num, by norm_num⟩ ⟨by norm_num, by norm_num⟩
    ⟨by norm_num, by norm_num⟩ (by decide)).2.1

theorem weather_tick_after_fog_restarts_from_north :
    fogStore.weather = fogWeather
    ∧ fogWeather.WindDir = "Calm"
    ∧ (WeatherService.updateWeather fogWeather fogStore 18 0.5 0.5 0.5 0 0.5 1 3000).1.WindDir
        = "N"
    ∧ ¬ compassStep fogWeather.WindDir
        (WeatherService.updateWeather fogWeather fogStore 18 0.5 0.5 0.5 0 0.5 1 3000).1.WindDir :=
  ⟨UpdateWeather_weather _ _ _, rfl, rfl, not_compassStep_calm _⟩

/-- C28 (amended): every snapshot the simulator writes to the store has pressure in
[980, 1040] and wind speed in [0, 30]. The initial snapshot and the snapshot of every
tick also have humidity in [30, 90] and a compass wind direction. A scenario snapshot
has humidity in [40, 60] for `cold_snap` and in [50, 70] for any unlisted name, both
inside [30, 90]; in [85, 95] for `storm`, [20, 35] for `heatwave`, [80, 95] for `rain`
and [95, 100] for `fog`, which leave [30, 90]; its wind direction is a compass point
except for `fog`, which sets it to `Calm`. All bounds are closed: they also hold of the
rounded sums the code computes. -/
theorem scenario_snapshot_ranges (current : WeatherData) (s : MemoryStore) (scenario : String)
    (r1 r2 r3 r4 : Float64) (now : Time)
    (h2 : 0 ≤ r2 ∧ r2 < 1) (h3 : 0 ≤ r3 ∧ r3 < 1) (h4 : 0 ≤ r4 ∧ r4 < 1) :
    let w := (WeatherService.SimulateWeatherScenario current s scenario r1 r2 r3 r4 now).1
    (WeatherService.SimulateWeatherScenario current s scenario r1 r2 r3 r4 now).2.weather = w
    ∧ (980 ≤ w.Pressure ∧ w.Pressure ≤ 1040)
    ∧ (0 ≤ w.WindSpeed ∧ w.WindSpeed ≤ 30)
    ∧ (scenario ∉ ["storm", "heatwave", "rain", "fog"] → InModelRanges w)
    ∧ (scenario = "storm" →
        85 ≤ w.Humidity ∧ w.Humidity ≤ 95 ∧ w.WindDir ∈ WeatherService.directions)
    ∧ (scenario = "heatwave" →
        20 ≤ w.Humidity ∧ w.Humidity ≤ 35 ∧ w.WindDir ∈ WeatherService.directions)
    ∧ (scenario = "rain" →
        80 ≤ w.Humidity ∧ w.Humidity ≤ 95 ∧ w.WindDir ∈ WeatherService.directions)
    ∧ (scenario = "fog" → 95 ≤ w.Humidity ∧ w.Humidity ≤ 100 ∧ w.WindDir = "Calm")
    ∧ (scenario = "cold_snap" → 40 ≤ w.Humidity ∧ w.Humidity ≤ 60)
    ∧ (scenario ∉ ["storm", "heatwave", "cold_snap", "rain", "fog"] →
        50 ≤ w.Humidity ∧ w.Humidity ≤ 70)
    ∧ InModelRanges (WeatherService.initialWeather now)
    ∧ (∀ (baseTemp rTemp rHum rPres : Float64) (kCond : Nat) (rWind : Float64) (kDir : Nat),
        (0 ≤ rHum ∧ rHum < 1) → (0 ≤ rPres ∧ rPres < 1) → (0 ≤ rWind ∧ rWind < 1) → kDir < 3 →
        InModelRanges
          (WeatherService.updateWeather current s baseTemp rTemp rHum rPres kCond rWind kDir
            now).1) := by
  intro w
  obtain ⟨p1, p2, p3, p4⟩ := scenario_pressure_wind current s scenario r1 r2 r3 r4 now h3 h4
  have hh := scenario_humidity current s scenario r1 r2 r3 r4 now
  have hd := scenario_windDir current s scenario r1 r2 r3 r4 now
  obtain ⟨h20, h21⟩ := h2
  refine ⟨?_, ⟨p1, p2⟩, ⟨p3, p4⟩, ?_, ?_, ?_, ?_, ?_, ?_, ?_, ?_, ?_⟩
  · unfold WeatherService.SimulateWeatherScenario
    exact UpdateWeather_weather _ _ _
  · intro hn
    simp only [List.mem_cons, List.mem_singleton, List.mem_nil_iff, or_false, not_or] at hn
    obtain ⟨n1, n2, n3, n4⟩ := hn
    refine ⟨?_, ?_, p1, p2, p3, p4, ?_⟩
    · show 30 ≤ w.Humidity
      rw [hh]
      simp only [n1, n2, n3, n4, if_false]
      split <;> linarith
    · show w.Humidity ≤ 90
      rw [hh]
      simp only [n1, n2, n3, n4, if_false]
      split <;> linarith
    · show w.WindDir ∈ WeatherService.directions
      rw [hd]
      simp only [n1, n2, n3, n4, if_false]
      split <;> decide
  · intro hs
    subst hs
    refine ⟨?_, ?_, ?_⟩
    · show 85 ≤ w.Humidity
      rw [hh]; simp; linarith
    · show w.Humidity ≤ 95
      rw [hh]; simp; linarith
    · show w.WindDir ∈ WeatherService.directions
      rw [hd]; decide
  · intro hs
    subst hs
    refine ⟨?_, ?_, ?_⟩
    · show 20 ≤ w.Humidity
      rw [hh]; simp; linarith
    · show w.Humidity ≤ 35
      rw [hh]; simp; linarith
    · show w.WindDir ∈ WeatherService.directions
      rw [hd]; decide
  · intro hs
    subst hs
    refine ⟨?_, ?_, ?_⟩
    · show 80 ≤ w.Humidity
      rw [hh]; simp; linarith
    · show w.Humidity ≤ 95
      rw [hh]; simp; linarith
    · show w.WindDir ∈ WeatherService.directions
      rw [hd]; decide
  · intro hs
    subst hs
    refine ⟨?_, ?_, ?_⟩
    · show 95 ≤ w.Humidity
      rw [hh]; simp; linarith
    · show w.Humidity ≤ 100
      rw [hh]; simp; linarith
    · show w.WindDir = "Calm"
      rw [hd]; rfl
  · intro hs
    subst hs
    refine ⟨?_, ?_⟩
    · show 40 ≤ w.Humidity
      rw [hh]; simp; linarith
    · show w.Humidity ≤ 60
      rw [hh]; simp; linarith
  · intro hn
    simp only [List.mem_cons, List.mem_singleton, List.mem_nil_iff, or_false, not_or] at hn
    obtain ⟨n1, n2, n3, n4, n5⟩ := hn
    refine ⟨?_, ?_⟩
    · show 50 ≤ w.Humidity
      rw [hh]
      simp only [n1, n2, n3, n4, n5, if_false]
      linarith
    · show w.Humidity ≤ 70
      rw [hh]
      simp only [n1, n2, n3, n4, n5, if_false]
      linarith
  · unfold InModelRanges WeatherService.initialWeather
    norm_num
    decide
  · intro baseTemp rTemp rHum rPres kCond rWind kDir hHum hPres hWind hDir
    exact updateWeather_InModelRanges current s baseTemp rTemp rHum rPres kCond rWind kDir now
      hHum hPres hWind hDir

theorem scenario_snapshot_ranges_witness :
    InModelRanges
      (WeatherService.SimulateWeatherScenario (WeatherService.initialWeather 1000) sampleStore
        "cold_snap" 0 0 0 0 2000).1 :=
  (scenario_snapshot_ranges (WeatherService.initialWeather 1000) sampleStore "cold_snap"
    0 0 0 0 2000 ⟨by norm_num, by norm_num⟩ ⟨by norm_num, by norm_num⟩
    ⟨by norm_num, by norm_num⟩).2.2.2.1 (by decide)

theorem fog_scenario_leaves_model_ranges :
    fogStore.weather = fogWeather
    ∧ fogWeather.Humidity = 95
    ∧ fogWeather.WindDir = "Calm"
    ∧ ¬ InModelRanges fogStore.weather := by
  have hw : fogStore.weather = fogWeather := UpdateWeather_weather _ _ _
  have hhum : fogWeather.Humidity = 95 := by
    show (95.0 + 0 * 5.0 : Float64) = 95
    norm_num
  refine ⟨hw, hhum, rfl, ?_⟩
  rw [hw]
  intro h
  have h90 := h.2.1
  rw [hhum] at h90
  norm_num at h90

/-- C29: one system-health tick appends the events of `healthEvents`, among which
there is a `system_health_warning` if and only if `2 * k > n`, for `n` devices of which
`k` are Offline; then it is exactly one such event; there is none when there are no
devices and none when exactly half of the devices are Offline. -/
theorem health_warning_iff_more_than_half_offline (s : MemoryStore) (current : WeatherData)
    (now : Time) :
    Scheduler.checkSystemHealth s current now
        = (healthEvents s current now).foldl MemoryStore.AddSystemEvent s
    ∧ ((∃ e ∈ healthEvents s current now, e.Typ = "system_health_warning")
        ↔ 2 * offlineCount s > s.ListDevices.length)
    ∧ (2 * offlineCount s > s.ListDevices.length →
        ((healthEvents s current now).filter
          (fun e => decide (e.Typ = "system_health_warning")))
          = [Scheduler.systemHealthEvent (offlineCount s) s.ListDevices.length now])
    ∧ (s.ListDevices.length = 0 →
        ∀ e ∈ healthEvents s current now, e.Typ ≠ "system_health_warning")
    ∧ (2 * offlineCount s = s.ListDevices.length →
        ∀ e ∈ healthEvents s current now, e.Typ ≠ "system_health_warning") := by
  have hno : 2 * offlineCount s ≤ s.ListDevices.length →
      ∀ e ∈ healthEvents s current now, e.Typ ≠ "system_health_warning" := by
    intro hle e he
    unfold healthEvents at he
    rw [if_neg (by omega)] at he
    cases ha : WeatherService.GetWeatherAlert current with
    | none => rw [ha] at he; simp at he
    | some a =>
      rw [ha] at he
      simp only [List.nil_append, List.mem_singleton] at he
      rw [he]
      simp [Scheduler.weatherAlertEvent]
  refine ⟨checkSystemHealth_eq s current now, ?_, ?_, ?_, ?_⟩
  · constructor
    · rintro ⟨e, he, hty⟩
      by_contra hle
      exact hno (by omega) e he hty
    · intro h
      refine ⟨Scheduler.systemHealthEvent (offlineCount s) s.ListDevices.length now, ?_, rfl⟩
      unfold healthEvents
      rw [if_pos h]
      simp
  · intro h
    unfold healthEvents
    rw [if_pos h]
    cases WeatherService.GetWeatherAlert current <;>
      simp [Scheduler.systemHealthEvent, Scheduler.weatherAlertEvent, List.filter_cons]
  · intro h0
    exact hno (by
      have : offlineCount s ≤ s.ListDevices.length := by
        unfold offlineCount; exact List.length_filter_le _ _
      omega)
  · intro hhalf
    exact hno (by omega)

theorem health_warning_iff_more_than_half_offline_witness :
    (∃ e ∈ healthEvents offlineStore WeatherData.zero 5000, e.Typ = "system_health_warning")
    ∧ (∀ e ∈ healthEvents sampleStore WeatherData.zero 5000,
        e.Typ ≠ "system_health_warning") :=
  ⟨(health_warning_iff_more_than_half_offline offlineStore WeatherData.zero 5000).2.1.2
      (by decide),
   fun e he hty =>
    absurd ((health_warning_iff_more_than_half_offline sampleStore WeatherData.zero 5000).2.1.1
      ⟨e, he, hty⟩) (by decide)⟩

/-- C30: the thermostat tick fails at run time on stores the operations can build:
on the thermostat whose `temperature` was written as the string `"21"` through
`UpdateDevice`, and on a thermostat added without `target_temp`, with a non-zero weather
temperature, the unchecked `.(float64)` assertion panics (`none`). -/
theorem thermostat_tick_fails_on_mistyped_temperature :
    stringTempStore.devices.get? "thermostat_001" = some stringTempThermostat
    ∧ stringTempThermostat.Typ = DeviceTypeThermostat
    ∧ stringTempThermostat.Properties.get? "temperature" = some (.str "21")
    ∧ stringTempStore.weather.Temperature = 20
    ∧ DeviceService.updateThermostat stringTempStore stringTempThermostat 3000 = none
    ∧ bareThermostatStore.devices.get? "thermostat_002" = some bareThermostat
    ∧ bareThermostat.Properties.get? "target_temp" = none
    ∧ DeviceService.updateThermostat bareThermostatStore bareThermostat 3000 = none := by
  have hw1 : stringTempStore.weather.Temperature = 20 := rfl
  have hw2 : bareThermostatStore.weather.Temperature = 20 := rfl
  refine ⟨rfl, rfl, rfl, hw1, ?_, rfl, rfl, ?_⟩
  · exact updateThermostat_panics_of_bad_temperature _ _ _ (by rw [hw1]; norm_num) rfl
  · exact updateThermostat_panics_of_bad_target _ _ _ (by rw [hw2]; norm_num) rfl

/-- C31 (amended): `ValidateDeviceProperties` checks the brightness of a light only
when it is stored as an integer: an integer brightness is rejected exactly when it lies
outside [0, 100], and a brightness that is absent or not an integer (a float, say) is
accepted whatever its value; likewise the sensitivity of a sensor is rejected exactly
when it is an integer outside [1, 10]. -/
theorem validate_checks_integer_ranges (properties : GoMap Value) :
    (∀ b : Int, properties.get? "brightness" = some (.int b) →
        (Utils.ValidateDeviceProperties "light" properties ≠ none ↔ (b < 0 ∨ b > 100)))
    ∧ ((properties.get? "brightness").bind Value.asInt = none →
        Utils.ValidateDeviceProperties "light" properties = none)
    ∧ (∀ n : Int, properties.get? "sensitivity" = some (.int n) →
        (Utils.ValidateDeviceProperties "sensor" properties ≠ none ↔ (n < 1 ∨ n > 10)))
    ∧ ((properties.get? "sensitivity").bind Value.asInt = none →
        Utils.ValidateDeviceProperties "sensor" properties = none) := by
  refine ⟨?_, ?_, ?_, ?_⟩
  · intro b hb
    simp only [Utils.ValidateDeviceProperties, hb, Option.bind, Value.asInt]
    split_ifs with h <;> simp [h]
  · intro hn
    simp only [Utils.ValidateDeviceProperties, hn]
  · intro n hn
    simp only [Utils.ValidateDeviceProperties, hn, Option.bind, Value.asInt]
    split_ifs with h <;> simp [h]
  · intro hn
    simp only [Utils.ValidateDeviceProperties, hn]

theorem validate_checks_integer_ranges_witness :
    Utils.ValidateDeviceProperties "light" intBrightProperties ≠ none :=
  ((validate_checks_integer_ranges intBrightProperties).1 150 rfl).2 (Or.inr (by decide))

theorem float_brightness_out_of_range_is_accepted :
    floatBrightProperties.get? "brightness" = some (.float 150)
    ∧ ¬ ((0 : Float64) ≤ 150 ∧ (150 : Float64) ≤ 100)
    ∧ Utils.ValidateDeviceProperties "light" floatBrightProperties = none :=
  ⟨rfl, by norm_num, rfl⟩

/-- C32 (amended): `GetForecast` and `GetWeatherHistory` leave the live snapshot and the
store as they were, and read the live snapshot only through its wind direction, its
pressure and its humidity: for two live snapshots that agree on these three (and may
differ in temperature, condition, wind speed and timestamp), the same clock and the same
draws, both calls return the same series. The condition of every entry is
`calculateCondition` of the live snapshot at the entry's draw, that is, it is drawn from
the band the live pressure and humidity select: rainy / stormy / cloudy when pressure
is below 1000 and humidity above 80; else cloudy / partly_cloudy / overcast when pressure
is below 1010; else `clear` when humidity is below 40; else clear / partly_cloudy /
sunny. -/
theorem forecast_reads_direction_pressure_humidity (c1 c2 : WeatherData) (s : MemoryStore)
    (baseTemp : Float64) (base : Time → Float64) (draws : List EntryDraws) (now : Time)
    (hd : c1.WindDir = c2.WindDir) (hp : c1.Pressure = c2.Pressure)
    (hh : c1.Humidity = c2.Humidity) :
    (WeatherService.GetForecast c1 s baseTemp draws now).1
        = (WeatherService.GetForecast c2 s baseTemp draws now).1
    ∧ (WeatherService.GetWeatherHistory c1 s base draws now).1
        = (WeatherService.GetWeatherHistory c2 s base draws now).1
    ∧ (WeatherService.GetForecast c1 s baseTemp draws now).2 = (c1, s)
    ∧ (WeatherService.GetWeatherHistory c1 s base draws now).2 = (c1, s)
    ∧ (WeatherService.GetForecast c1 s baseTemp draws now).1.length = draws.length
    ∧ (WeatherService.GetWeatherHistory c1 s base draws now).1.length = draws.length
    ∧ (WeatherService.GetForecast c1 s baseTemp draws now).1.map (fun w => w.Condition)
        = draws.map (fun d => WeatherService.calculateCondition c1 d.kCond)
    ∧ (WeatherService.GetWeatherHistory c1 s base draws now).1.map (fun w => w.Condition)
        = draws.map (fun d => WeatherService.calculateCondition c1 d.kCond)
    ∧ (∀ k, k < 3 →
        (c1.Pressure < 1000 ∧ c1.Humidity > 80 →
          WeatherService.calculateCondition c1 k = ["rainy", "stormy", "cloudy"].getD k "")
        ∧ (¬ (c1.Pressure < 1000 ∧ c1.Humidity > 80) → c1.Pressure < 1010 →
            WeatherService.calculateCondition c1 k
              = ["cloudy", "partly_cloudy", "overcast"].getD k "")
        ∧ (1010 ≤ c1.Pressure → c1.Humidity < 40 →
            WeatherService.calculateCondition c1 k = "clear")
        ∧ (1010 ≤ c1.Pressure → 40 ≤ c1.Humidity →
            WeatherService.calculateCondition c1 k
              = ["clear", "partly_cloudy", "sunny"].getD k "")) := by
  have hlenF : ∀ (draws : List EntryDraws) (i : Nat),
      (WeatherService.forecastFrom c1 baseTemp now i draws).length = draws.length := by
    intro draws
    induction draws with
    | nil => intro i; rfl
    | cons d rest ih => intro i; simp [WeatherService.forecastFrom, ih]
  have hlenH : ∀ (hours : Nat) (draws : List EntryDraws) (i : Nat),
      (WeatherService.historyFrom c1 base now hours i draws).length = draws.length := by
    intro hours draws
    induction draws with
    | nil => intro i; rfl
    | cons d rest ih => intro i; simp [WeatherService.historyFrom, ih]
  refine ⟨forecastFrom_congr c1 c2 baseTemp now draws 0 hd hp hh,
    historyFrom_congr c1 c2 base now draws.length draws 0 hd hp hh, rfl, rfl,
    hlenF draws 0, hlenH draws.length draws 0,
    forecastFrom_conditions c1 baseTemp now draws 0,
    historyFrom_conditions c1 base now draws.length draws 0, ?_⟩
  intro k hk
  obtain ⟨b1, b2, b3, b4, _⟩ := calculateCondition_band c1 k hk
  exact ⟨b1, b2, b3, b4⟩

theorem forecast_reads_direction_pressure_humidity_witness :
    (WeatherService.GetForecast (WeatherService.initialWeather 1000) sampleStore 18
        [middleDraws, middleDraws] 5000).1
      = (WeatherService.GetForecast
          { WeatherService.initialWeather 1000 with Temperature := 31, WindSpeed := 12 }
          sampleStore 18 [middleDraws, middleDraws] 5000).1 :=
  (forecast_reads_direction_pressure_humidity (WeatherService.initialWeather 1000)
    { WeatherService.initialWeather 1000 with Temperature := 31, WindSpeed := 12 }
    sampleStore 18 (fun _ => 18) [middleDraws, middleDraws] 5000 rfl rfl rfl).1

theorem forecast_condition_follows_live_pressure :
    (WeatherService.initialWeather 1000).WindDir = lowPressureWeather.WindDir
    ∧ (WeatherService.GetForecast (WeatherService.initialWeather 1000) sampleStore 18
          [middleDraws] 5000).1.map (fun w => w.Condition) = ["partly_cloudy"]
    ∧ (WeatherService.GetForecast lowPressureWeather sampleStore 18
          [middleDraws] 5000).1.map (fun w => w.Condition) = ["stormy"]
    ∧ (WeatherService.GetWeatherHistory (WeatherService.initialWeather 1000) sampleStore
          (fun _ => 18) [middleDraws] 5000).1.map (fun w => w.Condition) = ["partly_cloudy"]
    ∧ (WeatherService.GetWeatherHistory lowPressureWeather sampleStore
          (fun _ => 18) [middleDraws] 5000).1.map (fun w => w.Condition) = ["stormy"] := by
  refine ⟨rfl, ?_, ?_, ?_, ?_⟩
  · show [WeatherService.calculateCondition (WeatherService.initialWeather 1000) 1] = _
    rw [calculateCondition_initial]
  · show [WeatherService.calculateCondition lowPressureWeather 1] = _
    rw [calculateCondition_lowPressure]
  · show [WeatherService.calculateCondition (WeatherService.initialWeather 1000) 1] = _
    rw [calculateCondition_initial]
  · show [WeatherService.calculateCondition lowPressureWeather 1] = _
    rw [calculateCondition_lowPressure]

/-- C35: for every weather snapshot, `GetWeatherAlert` returns an alert if and only if
`IsExtremeWeather` returns true, both holding exactly when the temperature is below 0
or above 35, the wind speed above 20, the condition `stormy`, or the pressure below
990. -/
theorem alert_iff_extreme_weather (w : WeatherData) :
    (WeatherService.GetWeatherAlert w ≠ none ↔ WeatherService.IsExtremeWeather w = true)
    ∧ (WeatherService.IsExtremeWeather w = true
        ↔ (w.Temperature < 0 ∨ w.Temperature > 35 ∨ w.WindSpeed > 20 ∨ w.Condition = "stormy"
            ∨ w.Pressure < 990)) := by
  have hx : WeatherService.IsExtremeWeather w = true
      ↔ (w.Temperature < 0 ∨ w.Temperature > 35 ∨ w.WindSpeed > 20 ∨ w.Condition = "stormy"
          ∨ w.Pressure < 990) := by
    unfold WeatherService.IsExtremeWeather
    simp only [Bool.or_eq_true, decide_eq_true_eq]
    norm_num
    tauto
  refine ⟨?_, hx⟩
  rw [hx]
  unfold WeatherService.GetWeatherAlert
  split_ifs with h1 h2 h3 h4 h5 <;> norm_num at * <;> simp_all

/-- C36: when the stored weather temperature is exactly 0 the thermostat tick returns
the store as it was, whatever the device holds: no attribute and no `LastUpdated` is
written and no event is logged. -/
theorem thermostat_tick_idle_at_zero_weather (s : MemoryStore) (device : Device) (now : Time)
    (h : s.weather.Temperature = 0) :
    DeviceService.updateThermostat s device now = some s := by
  unfold DeviceService.updateThermostat DeviceService.updateThermostatWith
  simp only [MemoryStore.GetWeather, h, if_true]

theorem thermostat_tick_idle_at_zero_weather_witness :
    DeviceService.updateThermostat twoLightsStore
        { sampleThermostat with CreatedAt := 2200, LastUpdated := 2200 } 5000
      = some twoLightsStore :=
  thermostat_tick_idle_at_zero_weather twoLightsStore _ 5000 rfl

/-- C37 (amended): for the keywords `every_15_minutes`, `every_30_minutes` and
`hourly`, `calculateNextRun` advances the clock by exactly the duration `ParseSchedule`
returns; for `daily` and `weekly` it advances by one and by seven calendar days
(`AddDate`), which is the duration `ParseSchedule` returns less the change `shift` of
the local zone's UTC offset over that span, hence exactly that duration if and only if
the offset does not change; for the two other keywords `ParseSchedule` accepts,
`every_minute` and `every_5_minutes`, `calculateNextRun` advances by one hour, whereas
`ParseSchedule` returns one and five minutes. -/
theorem next_run_agrees_with_parse_schedule (schedule : String) (d : Duration)
    (shift : Duration) (now : Time)
    (h : Utils.ParseSchedule schedule = .ok d) :
    (schedule ∈ ["every_15_minutes", "every_30_minutes", "hourly", "daily", "weekly",
        "every_minute", "every_5_minutes"])
    ∧ (schedule ∈ ["every_15_minutes", "every_30_minutes", "hourly"] →
        Scheduler.calculateNextRunIn shift schedule now = now + d)
    ∧ (schedule ∈ ["daily", "weekly"] →
        Scheduler.calculateNextRunIn shift schedule now = now + d - shift
        ∧ (Scheduler.calculateNextRunIn shift schedule now = now + d ↔ shift = 0))
    ∧ (schedule = "every_minute" →
        d = Minute ∧ Scheduler.calculateNextRunIn shift schedule now = now + Hour)
    ∧ (schedule = "every_5_minutes" →
        d = 5 * Minute ∧ Scheduler.calculateNextRunIn shift schedule now = now + Hour)
    ∧ Scheduler.calculateNextRun schedule now = Scheduler.calculateNextRunIn 0 schedule now := by
  have hday : Scheduler.calculateNextRunIn shift "daily" now = now + 24 * Hour - shift := by
    show now + 1 * (24 * Hour) - shift = _
    rw [one_mul]
  have hweek : Scheduler.calculateNextRunIn shift "weekly" now
      = now + 7 * 24 * Hour - shift := by
    show now + 7 * (24 * Hour) - shift = _
    rw [mul_assoc]
  have hiff : ∀ x : Time, (x - shift = x ↔ shift = 0) := by
    intro x
    unfold Time Duration at *
    omega
  rcases (ParseSchedule_ok_iff schedule d).1 h with
    ⟨rfl, rfl⟩ | ⟨rfl, rfl⟩ | ⟨rfl, rfl⟩ | ⟨rfl, rfl⟩ | ⟨rfl, rfl⟩ | ⟨rfl, rfl⟩ | ⟨rfl, rfl⟩
  · exact ⟨by decide, fun hm => absurd hm (by decide), fun hm => absurd hm (by decide),
      fun _ => ⟨rfl, rfl⟩, fun hm => absurd hm (by decide), rfl⟩
  · exact ⟨by decide, fun hm => absurd hm (by decide), fun hm => absurd hm (by decide),
      fun hm => absurd hm (by decide), fun _ => ⟨rfl, rfl⟩, rfl⟩
  · exact ⟨by decide, fun _ => rfl, fun hm => absurd hm (by decide),
      fun hm => absurd hm (by decide), fun hm => absurd hm (by decide), rfl⟩
  · exact ⟨by decide, fun _ => rfl, fun hm => absurd hm (by decide),
      fun hm => absurd hm (by decide), fun hm => absurd hm (by decide), rfl⟩
  · exact ⟨by decide, fun _ => rfl, fun hm => absurd hm (by decide),
      fun hm => absurd hm (by decide), fun hm => absurd hm (by decide), rfl⟩
  · exact ⟨by decide, fun hm => absurd hm (by decide),
      fun _ => ⟨hday, by rw [hday]; exact hiff _⟩,
      fun hm => absurd hm (by decide), fun hm => absurd hm (by decide), rfl⟩
  · exact ⟨by decide, fun hm => absurd hm (by decide),
      fun _ => ⟨hweek, by rw [hweek]; exact hiff _⟩,
      fun hm => absurd hm (by decide), fun hm => absurd hm (by decide), rfl⟩

theorem next_run_agrees_with_parse_schedule_witness :
    Scheduler.calculateNextRunIn 0 "daily" 5000 = 5000 + 24 * Hour
    ∧ Scheduler.calculateNextRunIn Hour "hourly" 5000 = 5000 + Hour :=
  ⟨((next_run_agrees_with_parse_schedule "daily" (24 * Hour) 0 5000 rfl).2.2.1
      (by decide)).2.2 rfl,
   (next_run_agrees_with_parse_schedule "hourly" Hour Hour 5000 rfl).2.1 (by decide)⟩

theorem every_minute_task_runs_hourly :
    Utils.ParseSchedule "every_minute" = .ok Minute
    ∧ (∀ shift, Scheduler.calculateNextRunIn shift "every_minute" 5000 = 5000 + Hour)
    ∧ Utils.ParseSchedule "every_5_minutes" = .ok (5 * Minute)
    ∧ (∀ shift, Scheduler.calculateNextRunIn shift "every_5_minutes" 5000 = 5000 + Hour)
    ∧ (5000 : Time) + Hour ≠ 5000 + Minute
    ∧ (5000 : Time) + Hour ≠ 5000 + 5 * Minute
    ∧ Utils.ParseSchedule "daily" = .ok (24 * Hour)
    ∧ Scheduler.calculateNextRunIn Hour "daily" 5000 = 5000 + 23 * Hour
    ∧ (5000 : Time) + 23 * Hour ≠ 5000 + 24 * Hour :=
  ⟨rfl, fun _ => rfl, rfl, fun _ => rfl, by decide, by decide, rfl, by decide, by decide⟩

/-- C38: for a stored `set_temperature` (resp. `set_brightness`) task whose device
exists and whose `temperature` (resp. `brightness`) parameter is missing or is not a
float, executing the task leaves every device as it was (attributes and `LastUpdated`
included) and appends to the event log exactly one event, of type `task_executed` (so
no `device_updated` event), while the task is stored with `LastRun = now` and
`NextRun = now + scheduleOffset schedule`. -/
theorem unparsed_parameter_task_is_still_recorded (s : MemoryStore) (task : ScheduledTask)
    (device : Device) (now : Time)
    (hdev : s.devices.get? task.DeviceID = some device)
    (hstored : s.tasks.get? task.ID = some task)
    (hact : (task.Action = "set_temperature"
              ∧ ∀ x, task.Parameters.get? "temperature" ≠ some (.float x))
          ∨ (task.Action = "set_brightness"
              ∧ ∀ x, task.Parameters.get? "brightness" ≠ some (.float x))) :
    (Scheduler.executeTask s task now).devices = s.devices
    ∧ (∃ e : SystemEvent, e.Typ = "task_executed"
        ∧ (Scheduler.executeTask s task now).systemEvents = lastN 500 (s.systemEvents ++ [e]))
    ∧ (Scheduler.executeTask s task now).tasks.get? task.ID
        = some { task with LastRun := now, NextRun := now + scheduleOffset task.Schedule } := by
  have hsame : Scheduler.executeAction s task device now = some s := by
    rcases hact with ⟨ha, hp⟩ | ⟨ha, hp⟩
    · simp [Scheduler.executeAction, ha, bind_asFloat_eq_none _ _ hp]
    · simp [Scheduler.executeAction, ha, bind_asFloat_eq_none _ _ hp]
  obtain ⟨ht, he⟩ := executeTask_after_action s s task device now hdev hstored hsame
  exact ⟨(executeTask_of_action s s task device now hdev hsame).1, he, ht⟩

theorem unparsed_parameter_task_is_still_recorded_witness :
    (Scheduler.executeTask bareDimStore bareDimTask 5000).devices = bareDimStore.devices
    ∧ (Scheduler.executeTask bareDimStore bareDimTask 5000).tasks.get? "task_bare_dim"
        = some { bareDimTask with
            LastRun := 5000, NextRun := 5000 + scheduleOffset bareDimTask.Schedule } :=
  have h := unparsed_parameter_task_is_still_recorded bareDimStore bareDimTask
    { sampleLight with CreatedAt := 1001, LastUpdated := 1001 } 5000 rfl rfl
    (Or.inr ⟨rfl, fun x hx => by cases hx⟩)
  ⟨h.1, h.2.2⟩

/-- C39: the `device_failure` scenario does not set the first listed device Offline.
For every store whose first listed device is stored under its id, the scenario leaves
that device with the status it had and only stamps `LastUpdated`; on the sample store
the first device `light_001` is Online before and after, although a `device_updated`
event is logged. -/
theorem device_failure_keeps_the_status :
    (∀ (s : MemoryStore) (device : Device) (rest : List Device) (now : Time),
        s.ListDevices = device :: rest → s.devices.get? device.ID = some device →
        ∃ d', (Handler.TriggerDeviceFailure s now).devices.get? device.ID = some d'
          ∧ d'.Status = device.Status ∧ d'.LastUpdated = now)
    ∧ sampleStore.ListDevices.head?.map (fun d => (d.ID, d.Status))
        = some ("light_001", DeviceStatusOnline)
    ∧ ((Handler.TriggerDeviceFailure sampleStore 5000).devices.get? "light_001").map
        (fun d => (d.Status, d.LastUpdated)) = some (DeviceStatusOnline, 5000)
    ∧ ((Handler.TriggerDeviceFailure sampleStore 5000).systemEvents.getLast?).map
        (fun e => e.Typ) = some "device_updated"
    ∧ DeviceStatusOnline ≠ DeviceStatusOffline := by
  refine ⟨?_, rfl, rfl, rfl, by decide⟩
  intro s device rest now hlist hstored
  exact ⟨_, TriggerDeviceFailure_first s device rest now hlist hstored, rfl, rfl⟩

/-- C33 (amended): `AddDevice` is run statement by statement under the store's mutex, by
one goroutine per call, in every order a scheduler can pick. For `n` simultaneous calls
whose ids are pairwise distinct and not yet stored, in every state an interleaving
reaches: at most one call stands between its lock and its unlock, no call has returned an
error, at most `7 n` statements have run, some goroutine can run while a call has not
returned (no deadlock), and the interleaving can be run on until every call has returned.
Once every call has returned, all `n` calls returned no error, the number of devices is
the initial number plus `n`, the lock is free, every call's device is stored under its id
with both stamps set to the time of the call, and the devices stored before are stored as
they were. -/
theorem concurrent_adds_all_succeed (s : MemoryStore) (calls : List (Device × Time))
    (schedule : List Nat) (st : AddState)
    (hdistinct : (calls.map (fun c => c.1.ID)).Nodup)
    (hfresh : ∀ c ∈ calls, s.devices.get? c.1.ID = none)
    (hrun : runSchedule schedule (startAdds s calls) = some st) :
    (st.calls.filter (fun c => c.pc.inCS)).length ≤ 1
    ∧ (∀ c ∈ st.calls, c.pc.failed = false)
    ∧ schedule.length ≤ 7 * calls.length
    ∧ (st.allDone = false → ∃ i st', st.step i = some st')
    ∧ (∃ rest final, runSchedule (schedule ++ rest) (startAdds s calls) = some final
        ∧ final.allDone = true)
    ∧ (st.allDone = true →
        st.errors = List.replicate calls.length none
        ∧ st.store.devices.length = s.devices.length + calls.length
        ∧ st.locked = false
        ∧ (∀ c ∈ calls, st.store.devices.get? c.1.ID
            = some { c.1 with CreatedAt := c.2, LastUpdated := c.2 })
        ∧ (∀ k d, s.devices.get? k = some d → st.store.devices.get? k = some d)) := by
  have hinv := AddInv_run s schedule _ st (AddInv_start s calls hdistinct hfresh) hrun
  obtain ⟨hids, hrem⟩ := runSchedule_ids schedule _ st hrun
  rw [startAdds_remaining] at hrem
  have hlen : st.calls.length = calls.length := by
    have := congrArg List.length hids
    simpa [startAdds] using this
  refine ⟨?_, hinv.2.1, by omega, AddInv_progress s st hinv, ?_, ?_⟩
  · rw [hinv.2.2.1]; split <;> omega
  · obtain ⟨rest, final, hr, hf⟩ := AddInv_completes s st.remaining st hinv (le_refl _)
    exact ⟨rest, final, runSchedule_append schedule rest _ st final hrun hr, hf⟩
  · intro hd
    obtain ⟨h1, h2, h3, h4⟩ := AddInv_final s st hinv hd
    rw [hlen] at h1 h2
    refine ⟨h1, h2, h3, ?_, hinv.2.2.2.2.2.2⟩
    intro o ho
    obtain ⟨hmap, hmem⟩ := AddStamped_run calls schedule _ st (AddStamped_start s calls) hrun
    have hin : (o.1.unstamped, o.2) ∈ st.calls.map (fun c => (c.device.unstamped, c.now)) := by
      rw [hmap]; exact List.mem_map.2 ⟨o, ho, rfl⟩
    obtain ⟨c, hc, heq⟩ := List.mem_map.1 hin
    simp only [Prod.mk.injEq] at heq
    have hpc : c.pc = .done none := by
      have e := List.eq_replicate_iff.1 h1
      have := e.2 _ (List.mem_map.2 ⟨c, hc, rfl⟩)
      have hdn : c.pc.isDone = true := by
        have hall := hd
        unfold AddState.allDone at hall
        rw [List.all_eq_true] at hall
        exact hall c hc
      cases hp : c.pc with
      | done e => rw [hp] at this; simp only at this; rw [this]
      | _ => rw [hp] at hdn; cases hdn
    have hcr := (hmem c hc).1 (by rw [hpc]; rfl)
    have hup := (hmem c hc).2 (by rw [hpc]; rfl)
    have hdev := Device_of_unstamped c.device o.1 o.2 heq.1 (hcr.trans heq.2) (hup.trans heq.2)
    have hid : c.device.ID = o.1.ID := by rw [hdev]
    rw [← hid, h4 c hc, hdev]
theorem concurrent_adds_all_succeed_witness :
    runSchedule twoAddsSchedule (startAdds sampleStore twoAdds) = some twoAddsFinal
    ∧ twoAddsFinal.errors = [none, none]
    ∧ twoAddsFinal.store.devices.length = sampleStore.devices.length + 2
    ∧ twoAddsFinal.store.devices.get? "thermostat_001"
        = some { sampleThermostat with CreatedAt := 2000, LastUpdated := 2000 } :=
  have hrun : runSchedule twoAddsSchedule (startAdds sampleStore twoAdds)
      = some twoAddsFinal := rfl
  have h := concurrent_adds_all_succeed sampleStore twoAdds twoAddsSchedule twoAddsFinal
    (by decide) (by intro c hc; simp [twoAdds] at hc; rcases hc with rfl | rfl <;> rfl) hrun
  ⟨hrun, (h.2.2.2.2.2 rfl).1, (h.2.2.2.2.2 rfl).2.1,
    (h.2.2.2.2.2 rfl).2.2.2.1 (sampleThermostat, 2000) (by simp [twoAdds])⟩

/-- C33, as the claim states it (ids pairwise distinct, nothing said of the ids already
stored): two simultaneous calls with the distinct ids `light_001` and `light_002` on the
sample store, which holds `light_001`. In the interleaving in which the second call runs
first, the first call returns "already exists", and the store ends with one device more,
not two. Run alone, the first call is `AddDevice` returning that error. -/
theorem concurrent_add_of_stored_id_fails :
    (staleAdds.map (fun c => c.1.ID)).Nodup
    ∧ runSchedule staleAddsSchedule (startAdds sampleStore staleAdds) = some staleAddsFinal
    ∧ staleAddsFinal.allDone = true
    ∧ staleAddsFinal.errors = [some (.deviceExists "light_001"), none]
    ∧ staleAddsFinal.store.devices.length = sampleStore.devices.length + 1
    ∧ staleAddsFinal.store.devices.length ≠ sampleStore.devices.length + staleAdds.length
    ∧ (sampleStore.AddDevice sampleLight 2000).2 = some (.deviceExists "light_001") := by
  refine ⟨by decide, rfl, rfl, rfl, rfl, by decide, rfl⟩

/-- C13 (amended): for a stored thermostat whose current temperature `c` and target `t`
are binary64 numbers, with ambient weather temperature equal to `c` and non-zero, one
thermostat tick completes, and it decides on the rounded difference `fsub t c`, the
binary64 result of `t - c`. When that is above 1.0 it sets heating, clears cooling and
stores the rounded sum `fadd c 0.5`, which is not below `c`, not above `t`, and above `c`
when `|c| + 0.5 < 2^52`; when it is below -1.0 it sets cooling, clears heating and stores
`fsub c 0.5`, which is not above `c`, not below `t`, and below `c` when
`|c| + 0.5 < 2^52`; otherwise it clears both flags and the temperature stays `c`. The
rounded difference is above 1.0 only if `t - c > 1`, and whenever `t - c ≥ 1 + 2^-52`
(likewise for cooling); with `|t - c| ≤ 1` both flags are cleared. -/
theorem thermostat_tick_steps_toward_target (fused : Bool) (s : MemoryStore)
    (device : Device) (c t : Float64) (now : Time)
    (hstored : s.devices.get? device.ID = some device)
    (hc : device.Properties.get? "temperature" = some (.float c))
    (ht : device.Properties.get? "target_temp" = some (.float t))
    (hcb : isBinary64 c) (htb : isBinary64 t)
    (hw : s.weather.Temperature = c) (hc0 : c ≠ 0) :
    ∃ (s' : MemoryStore) (d' : Device),
      DeviceService.updateThermostatWith fused s device now = some s'
      ∧ s'.devices.get? device.ID = some d'
      ∧ (fsub t c > 1.0 →
          d'.Properties.get? "heating" = some (.bool true)
          ∧ d'.Properties.get? "cooling" = some (.bool false)
          ∧ d'.Properties.get? "temperature" = some (.float (fadd c 0.5))
          ∧ c ≤ fadd c 0.5 ∧ fadd c 0.5 ≤ t
          ∧ (|c| + 0.5 < 2 ^ 52 → c < fadd c 0.5)
          ∧ t - c > 1)
      ∧ (fsub t c < -1.0 →
          d'.Properties.get? "heating" = some (.bool false)
          ∧ d'.Properties.get? "cooling" = some (.bool true)
          ∧ d'.Properties.get? "temperature" = some (.float (fsub c 0.5))
          ∧ fsub c 0.5 ≤ c ∧ t ≤ fsub c 0.5
          ∧ (|c| + 0.5 < 2 ^ 52 → fsub c 0.5 < c)
          ∧ c - t > 1)
      ∧ (¬ fsub t c > 1.0 → ¬ fsub t c < -1.0 →
          d'.Properties.get? "heating" = some (.bool false)
          ∧ d'.Properties.get? "cooling" = some (.bool false)
          ∧ d'.Properties.get? "temperature" = some (.float c))
      ∧ (|t - c| ≤ 1 → ¬ fsub t c > 1.0 ∧ ¬ fsub t c < -1.0)
      ∧ (1 + 2 ^ (-52 : Int) ≤ t - c → fsub t c > 1.0)
      ∧ (1 + 2 ^ (-52 : Int) ≤ c - t → fsub t c < -1.0) := by
  have ha0 : s.weather.Temperature ≠ 0 := by rw [hw]; exact hc0
  obtain ⟨s', d', h1, h2, e1, e2, _, e4, e5, e6⟩ :=
    updateThermostatWith_entries fused s device c t now hstored hc ht ha0
  have hb : fmul (fsub s.weather.Temperature c) pointOne = 0 := by
    rw [hw]; exact blend_zero_of_eq c
  have hpos : (0 : Rat) < 2 ^ (-52 : Int) := two_zpow_pos _
  refine ⟨s', d', h1, h2, ?_, ?_, ?_, ?_, ?_, ?_⟩
  · intro hgt
    have hex := gt_one_of_fsub_gt_one t c hgt
    refine ⟨?_, ?_, e4 hb hgt, ?_, ?_, ?_, hex⟩
    · rw [e1]; simp [hgt]
    · rw [e2]; simp [hgt]
    · have := roundBinary64_mono (show c ≤ c + 0.5 by norm_num)
      rw [hcb.1] at this
      exact this
    · have := roundBinary64_mono (show c + 0.5 ≤ t by norm_num; linarith)
      rw [htb.1] at this
      exact this
    · intro hsmall
      have habs : |c + 0.5| < 2 ^ 52 :=
        lt_of_le_of_lt (abs_add c 0.5) (by rw [abs_of_pos (by norm_num : (0 : Rat) < 0.5)]; exact hsmall)
      have hnear := abs_le.1 (roundBinary64_near (c + 0.5) habs)
      unfold fadd
      norm_num at hnear ⊢
      linarith [hnear.1]
  · intro hlt
    have hex := lt_neg_one_of_fsub_lt t c hlt
    have hn : ¬ fsub t c > 1.0 := by norm_num at hlt ⊢; linarith
    refine ⟨?_, ?_, e5 hb hn hlt, ?_, ?_, ?_, by linarith⟩
    · rw [e1]; simp [hn]
    · rw [e2]; simp [hn, hlt]
    · have := roundBinary64_mono (show c - 0.5 ≤ c by norm_num)
      rw [hcb.1] at this
      exact this
    · have := roundBinary64_mono (show t ≤ c - 0.5 by norm_num; linarith)
      rw [htb.1] at this
      exact this
    · intro hsmall
      have habs : |c - 0.5| < 2 ^ 52 :=
        lt_of_le_of_lt (abs_sub c 0.5) (by rw [abs_of_pos (by norm_num : (0 : Rat) < 0.5)]; exact hsmall)
      have hnear := abs_le.1 (roundBinary64_near (c - 0.5) habs)
      unfold fsub
      norm_num at hnear ⊢
      linarith [hnear.2]
  · intro hn1 hn2
    refine ⟨?_, ?_, e6 hb hn1 hn2⟩
    · rw [e1]; simp [hn1]
    · rw [e2]; simp [hn1, hn2]
  · intro habs
    have h := abs_le.1 habs
    constructor
    · intro hgt
      have := gt_one_of_fsub_gt_one t c hgt
      linarith [h.2]
    · intro hlt
      have := lt_neg_one_of_fsub_lt t c hlt
      linarith [h.1]
  · intro hge
    have := roundBinary64_mono hge
    rw [roundBinary64_succ_one] at this
    unfold fsub
    norm_num at this ⊢
    linarith
  · intro hge
    have := roundBinary64_mono (show t - c ≤ -(1 + 2 ^ (-52 : Int)) by linarith)
    rw [roundBinary64_pred_neg_one] at this
    unfold fsub
    norm_num at this ⊢
    linarith

theorem thermostat_tick_steps_toward_target_witness :
    ∃ (s' : MemoryStore) (d' : Device),
      DeviceService.updateThermostatWith false thermostatStore storedThermostat 3000 = some s'
      ∧ s'.devices.get? "thermostat_001" = some d'
      ∧ d'.Properties.get? "heating" = some (.bool true)
      ∧ d'.Properties.get? "cooling" = some (.bool false)
      ∧ d'.Properties.get? "temperature" = some (.float 20.5) :=
  have hgt : fsub 22 20 > 1.0 := by rw [fsub_twentyTwo_twenty]; norm_num
  have ⟨s', d', h1, h2, h3, _⟩ := thermostat_tick_steps_toward_target false thermostatStore
    storedThermostat 20 22 3000 rfl rfl rfl isBinary64_twenty isBinary64_twentyTwo rfl
    (by norm_num)
  ⟨s', d', h1, h2, (h3 hgt).1, (h3 hgt).2.1, by
    have h := (h3 hgt).2.2.1
    rw [fadd_twenty_half] at h
    exact h⟩

/-- C13, as the claim states it (the branch taken on the exact difference `t − c`, the
step strictly above `c`). With the binary64 readings of 0.1 and 1.1 the exact difference
is above 1, the rounded one is 1, and the tick clears both flags and leaves the
temperature. At `c = 2^53` with the target `2^53 + 2` the tick sets heating and stores
the rounded `c + 0.5`, which is `c` itself. -/
theorem thermostat_tick_rounds_difference_and_step :
    (isBinary64 (roundBinary64 0.1) ∧ isBinary64 (roundBinary64 1.1)
      ∧ roundBinary64 1.1 - roundBinary64 0.1 > 1
      ∧ ∀ fused : Bool, ∃ (s' : MemoryStore) (d' : Device),
          DeviceService.updateThermostatWith fused tenthStore storedTenthThermostat 3000
            = some s'
          ∧ s'.devices.get? "thermostat_001" = some d'
          ∧ d'.Properties.get? "heating" = some (.bool false)
          ∧ d'.Properties.get? "cooling" = some (.bool false)
          ∧ d'.Properties.get? "temperature" = some (.float (roundBinary64 0.1)))
    ∧ (isBinary64 9007199254740992 ∧ isBinary64 9007199254740994
      ∧ (9007199254740994 : Float64) - 9007199254740992 > 1
      ∧ ∀ fused : Bool, ∃ (s' : MemoryStore) (d' : Device),
          DeviceService.updateThermostatWith fused wideStore storedWideThermostat 3000
            = some s'
          ∧ s'.devices.get? "thermostat_001" = some d'
          ∧ d'.Properties.get? "heating" = some (.bool true)
          ∧ d'.Properties.get? "temperature" = some (.float 9007199254740992)) := by
  obtain ⟨t1, t2, t3, t4, t5⟩ := tenth_readings
  obtain ⟨w1, w2, w3, w4⟩ := wide_readings
  refine ⟨⟨t1, t2, t4, ?_⟩, ⟨w1, w2, by norm_num, ?_⟩⟩
  · intro fused
    obtain ⟨s', d', h1, h2, e1, e2, _, _, _, e6⟩ :=
      updateThermostatWith_entries fused tenthStore storedTenthThermostat
        (roundBinary64 0.1) (roundBinary64 1.1) 3000 rfl rfl rfl t3
    have hn1 : ¬ fsub (roundBinary64 1.1) (roundBinary64 0.1) > 1.0 := by rw [t5]; norm_num
    have hn2 : ¬ fsub (roundBinary64 1.1) (roundBinary64 0.1) < -1.0 := by rw [t5]; norm_num
    refine ⟨s', d', h1, h2, ?_, ?_, e6 (blend_zero_of_eq _) hn1 hn2⟩
    · rw [e1]; simp [hn1]
    · rw [e2]; simp [hn1, hn2]
  · intro fused
    obtain ⟨s', d', h1, h2, e1, _, _, e4, _, _⟩ :=
      updateThermostatWith_entries fused wideStore storedWideThermostat
        9007199254740992 9007199254740994 3000 rfl rfl rfl
        (by show (9007199254740992 : Float64) ≠ 0; norm_num)
    have hgt : fsub 9007199254740994 9007199254740992 > 1.0 := by rw [w3]; norm_num
    refine ⟨s', d', h1, h2, ?_, ?_⟩
    · rw [e1]; simp [hgt]
    · rw [← w4]; exact e4 (blend_zero_of_eq _) hgt

/-- C34 (amended): for a stored thermostat and a non-zero ambient temperature `a`, the
current temperature `c`, the target `t` and `a` being binary64 numbers with `a - c`
within the largest of them, the tick completes and sets the heating and cooling flags
it selects from the rounded difference `fsub t c`. The rounded `a - c` stays within the
largest binary64 number and is not zero when `a ≠ c`; the blend term
`fmul (fsub a c) pointOne` is not zero exactly when `|a - c|` is at least five times the
smallest positive binary64 number. Then the temperature stored is the rounded
`c + (a - c) * 0.1` (product and sum rounded one after the other, or once when the
compiler fuses them), whether a heating step, a cooling step or no step was selected.
Below that bound the blend term underflows to zero and the temperature stored is the one
of the step, `fadd c 0.5` or `fsub c 0.5`, or stays `c` when no step was selected. -/
theorem thermostat_blend_replaces_step (fused : Bool) (s : MemoryStore) (device : Device)
    (c t : Float64) (now : Time)
    (hstored : s.devices.get? device.ID = some device)
    (hc : device.Properties.get? "temperature" = some (.float c))
    (ht : device.Properties.get? "target_temp" = some (.float t))
    (ha0 : s.weather.Temperature ≠ 0)
    (hb : isBinary64 c ∧ isBinary64 t ∧ isBinary64 s.weather.Temperature)
    (hfin : |s.weather.Temperature - c| ≤ maxFloat64) :
    ∃ (s' : MemoryStore) (d' : Device),
      DeviceService.updateThermostatWith fused s device now = some s'
      ∧ s'.devices.get? device.ID = some d'
      ∧ d'.Properties.get? "heating" = some (.bool (decide (fsub t c > 1.0)))
      ∧ d'.Properties.get? "cooling"
          = some (.bool (decide (¬ fsub t c > 1.0 ∧ fsub t c < -1.0)))
      ∧ |fsub s.weather.Temperature c| ≤ maxFloat64
      ∧ (s.weather.Temperature ≠ c → fsub s.weather.Temperature c ≠ 0)
      ∧ (fmul (fsub s.weather.Temperature c) pointOne ≠ 0
          ↔ 5 * minSubnormal ≤ |s.weather.Temperature - c|)
      ∧ (5 * minSubnormal ≤ |s.weather.Temperature - c| →
          d'.Properties.get? "temperature"
            = some (.float (fmulAdd fused (fsub s.weather.Temperature c) pointOne c)))
      ∧ (|s.weather.Temperature - c| < 5 * minSubnormal →
          (fsub t c > 1.0 →
            d'.Properties.get? "temperature" = some (.float (fadd c 0.5)))
          ∧ (¬ fsub t c > 1.0 → fsub t c < -1.0 →
            d'.Properties.get? "temperature" = some (.float (fsub c 0.5)))
          ∧ (¬ fsub t c > 1.0 → ¬ fsub t c < -1.0 →
            d'.Properties.get? "temperature" = some (.float c))) := by
  obtain ⟨s', d', h1, h2, e1, e2, e3, e4, e5, e6⟩ :=
    updateThermostatWith_entries fused s device c t now hstored hc ht ha0
  obtain ⟨g1, g2⟩ := binary64_diff_cases s.weather.Temperature c hb.2.2.1 hb.1.1
  have hp := minSubnormal_pos
  have hzero : |s.weather.Temperature - c| < 5 * minSubnormal →
      fmul (fsub s.weather.Temperature c) pointOne = 0 := by
    intro hlt
    rcases g2 with h4 | h5
    · exact blend_eq_zero _ _ h4
    · exact absurd hlt (not_lt.2 h5)
  refine ⟨s', d', h1, h2, e1, e2, fsub_in_range _ _ hfin,
    fun hne => fsub_ne_zero _ _ (g1 hne), ?_, fun h5 => e3 (blend_ne_zero _ _ h5), ?_⟩
  · constructor
    · intro hne
      by_contra hlt
      exact hne (hzero (not_le.1 hlt))
    · exact blend_ne_zero _ _
  · intro hlt
    exact ⟨e4 (hzero hlt), e5 (hzero hlt), e6 (hzero hlt)⟩

theorem thermostat_blend_replaces_step_witness :
    ∃ (s' : MemoryStore) (d' : Device),
      DeviceService.updateThermostatWith false coldDayStore storedThermostat 5000 = some s'
      ∧ s'.devices.get? "thermostat_001" = some d'
      ∧ d'.Properties.get? "temperature" = some (.float 19)
      ∧ d'.Properties.get? "heating" = some (.bool true)
      ∧ d'.Properties.get? "cooling" = some (.bool false) :=
  have hgt : fsub 22 20 > 1.0 := by rw [fsub_twentyTwo_twenty]; norm_num
  have ⟨s', d', h1, h2, h3, h4, _, _, _, h8, _⟩ :=
    thermostat_blend_replaces_step false coldDayStore storedThermostat 20 22 5000 rfl rfl rfl
      (by show (10 : Float64) ≠ 0; norm_num)
      ⟨isBinary64_twenty, isBinary64_twentyTwo, cold_day_readings.1⟩
      cold_day_readings.2.1
  ⟨s', d', h1, h2, by
    have h := h8 cold_day_readings.2.2.1
    have e : fmulAdd false (fsub coldDayStore.weather.Temperature 20) pointOne 20 = 19 :=
      cold_day_readings.2.2.2.2.1
    rw [e] at h
    exact h, by rw [h3]; simp [hgt], by rw [h4]; simp [hgt]⟩

/-- C34, as the claim states it (every non-zero ambient temperature different from the
current one): the thermostat at 0 with target 22 under the ambient temperature `2^-1074`,
the smallest positive binary64 number. The ambient temperature is not zero and differs
from the current one, the blend term underflows to zero, and the tick stores the heating
step 0.5, which is neither `c + 0.1 · (a − c)` nor that sum rounded. -/
theorem thermostat_blend_underflows :
    isBinary64 minSubnormal ∧ isBinary64 0 ∧ isBinary64 22
    ∧ minSubnormal ≠ 0
    ∧ fmul (fsub minSubnormal 0) pointOne = 0
    ∧ (∀ fused : Bool, ∃ (s' : MemoryStore) (d' : Device),
        DeviceService.updateThermostatWith fused underflowStore storedZeroThermostat 3000
          = some s'
        ∧ s'.devices.get? "thermostat_001" = some d'
        ∧ d'.Properties.get? "heating" = some (.bool true)
        ∧ d'.Properties.get? "temperature" = some (.float 0.5)
        ∧ (0.5 : Float64) ≠ fmulAdd fused (fsub minSubnormal 0) pointOne 0)
    ∧ (0.5 : Float64) ≠ 0 + 0.1 * (minSubnormal - 0) := by
  obtain ⟨u1, u2, u3, _, _, _, u7, u8, u9, u10, u11⟩ := underflow_readings
  refine ⟨u1, u2, isBinary64_twentyTwo, u3, u7, ?_, ?_⟩
  · intro fused
    obtain ⟨s', d', h1, h2, e1, _, _, e4, _, _⟩ :=
      updateThermostatWith_entries fused underflowStore storedZeroThermostat 0 22 3000
        rfl rfl rfl u3
    have hgt : fsub 22 0 > 1.0 := by rw [u8]; norm_num
    refine ⟨s', d', h1, h2, ?_, ?_, ?_⟩
    · rw [e1]; simp [hgt]
    · rw [← u9]; exact e4 u7 hgt
    · cases fused
      · rw [u10]; norm_num
      · rw [u11]; norm_num
  · have h1 : minSubnormal < 1 := by
      unfold minSubnormal
      have := two_zpow_mono (show (-1074 : Int) ≤ 0 by norm_num)
      have h0 : (2 : Rat) ^ (-1074 : Int) ≠ 2 ^ (0 : Int) := by
        intro h
        have := zpow_right_injective₀ (by norm_num : (0 : Rat) < 2) (by norm_num) h
        norm_num at this
      exact lt_of_le_of_ne (by simpa using this) (by simpa using h0)
    intro h
    norm_num at h
    linarith

end SmartHome
